import Mathlib

/-!
# Lander-Control: a shallow embedding of `Lander.cpp` / `Lander_Control.h`

The flight computer is embedded function by function.

* `Dbl` stands for the C `double`: exact rationals plus the three special
  values a division by zero can create (`+inf`, `-inf`, `NaN`).  The
  operations of `Dbl` are exact; `Dbl.rne` rounds a rational to the nearest
  binary64 number, and the functions with the suffix `_rounded` are the
  estimators and the history update with every operation rounded.
* `Env` is what the simulator owns during one call: thruster health, platform
  position, the sonar scan and the sensor functions.  A sensor function is a
  stream; the `k`-th call of `Position_X()` returns `sense Position_X k`.
* `Mem` is the block of global variables written by the flight computer.
* `Act` is the effect of a C function on the outside world: it advances the
  per-sensor read counters and issues actuator commands, in order.

Operands are evaluated left to right.  The `printf` output is not modelled,
and `int` values are unbounded integers (no `int` of the program comes near
its range except the tick counter `count`, which nothing reads).
-/

namespace Lander

/-! ## Doubles -/

/-- C `double`: a finite value, or one of the IEEE special values. -/
inductive Dbl where
  | fin (q : ℚ)
  | pinf
  | ninf
  | nan
  deriving DecidableEq

namespace Dbl

instance : Inhabited Dbl := ⟨Dbl.fin 0⟩

/-- Unary minus. -/
def neg : Dbl → Dbl
  | fin a => fin (-a)
  | pinf => ninf
  | ninf => pinf
  | nan => nan

/-- Addition; `inf + -inf` is NaN. -/
def add : Dbl → Dbl → Dbl
  | fin a, fin b => fin (a + b)
  | fin _, pinf => pinf
  | fin _, ninf => ninf
  | pinf, fin _ => pinf
  | pinf, pinf => pinf
  | ninf, fin _ => ninf
  | ninf, ninf => ninf
  | pinf, ninf => nan
  | ninf, pinf => nan
  | nan, _ => nan
  | _, nan => nan

/-- Subtraction, `a - b = a + (-b)`. -/
def sub (a b : Dbl) : Dbl := add a (neg b)

/-- The product of an infinity (positive when `pos`) and the finite `q`: an
infinity of the product sign, NaN when `q = 0`. -/
def infTimes (pos : Bool) (q : ℚ) : Dbl :=
  if q = 0 then nan
  else if (0 < q) = pos then pinf else ninf

/-- Multiplication; `0 * inf` is NaN. -/
def mul : Dbl → Dbl → Dbl
  | fin a, fin b => fin (a * b)
  | fin a, pinf => infTimes true a
  | fin a, ninf => infTimes false a
  | pinf, fin b => infTimes true b
  | ninf, fin b => infTimes false b
  | pinf, pinf => pinf
  | ninf, ninf => pinf
  | pinf, ninf => ninf
  | ninf, pinf => ninf
  | nan, _ => nan
  | _, nan => nan

/-- Division.  A zero divisor is the positive zero (every divisor of the
program is a count starting at `0` or an `fabs`): `x / 0` is `+inf`, `-inf`
or NaN according to the sign of `x`. -/
def div : Dbl → Dbl → Dbl
  | fin a, fin b =>
      if b = 0 then (if 0 < a then pinf else if a < 0 then ninf else nan)
      else fin (a / b)
  | fin _, pinf => fin 0
  | fin _, ninf => fin 0
  | pinf, fin b => if 0 ≤ b then pinf else ninf
  | ninf, fin b => if 0 ≤ b then ninf else pinf
  | pinf, pinf => nan
  | pinf, ninf => nan
  | ninf, pinf => nan
  | ninf, ninf => nan
  | nan, _ => nan
  | _, nan => nan

instance : Neg Dbl := ⟨neg⟩
instance : Add Dbl := ⟨add⟩
instance : Sub Dbl := ⟨sub⟩
instance : Mul Dbl := ⟨mul⟩
instance : Div Dbl := ⟨div⟩

/-- C `fabs`. -/
def fabs : Dbl → Dbl
  | fin a => fin |a|
  | pinf => pinf
  | ninf => pinf
  | nan => nan

/-- C `<` on doubles: false as soon as one side is NaN. -/
def lt : Dbl → Dbl → Bool
  | fin a, fin b => decide (a < b)
  | fin _, pinf => true
  | ninf, fin _ => true
  | ninf, pinf => true
  | _, _ => false

/-- C `>`. -/
def gt (a b : Dbl) : Bool := lt b a

/-- C `<=` on doubles: false as soon as one side is NaN. -/
def le : Dbl → Dbl → Bool
  | fin a, fin b => decide (a ≤ b)
  | fin _, pinf => true
  | ninf, fin _ => true
  | ninf, pinf => true
  | pinf, pinf => true
  | ninf, ninf => true
  | _, _ => false

/-- C `>=`. -/
def ge (a b : Dbl) : Bool := le b a

/-- C `==` on doubles: NaN is equal to nothing. -/
def eq : Dbl → Dbl → Bool
  | fin a, fin b => decide (a = b)
  | pinf, pinf => true
  | ninf, ninf => true
  | _, _ => false

/-- C `fmin`: a NaN argument is ignored. -/
def fmin (a b : Dbl) : Dbl :=
  match a, b with
  | nan, _ => b
  | _, nan => a
  | _, _ => if lt b a then b else a

/-- C `fmax`: a NaN argument is ignored. -/
def fmax (a b : Dbl) : Dbl :=
  match a, b with
  | nan, _ => b
  | _, nan => a
  | _, _ => if lt a b then b else a

end Dbl

/-! ## Simulation parameters (`Lander_Control.h`) -/

def T_STEP : Dbl := Dbl.fin (5 / 1000)
def S_SCALE : Dbl := Dbl.fin 5
def EPSILON_VELOCITY_X : Dbl := Dbl.fin 5
def EPSILON_VELOCITY_Y : Dbl := Dbl.fin 5
def EPSILON_POSITION_X : Dbl := Dbl.fin 50
def EPSILON_POSITION_Y : Dbl := Dbl.fin 50
def EPSILON_ANGLE : Dbl := Dbl.fin 5
def AMOUNT_OF_FAULTY : Int := 1

/-! ## The outside world -/

/-- The five sensor functions of the simulator. -/
inductive Sensor where
  | Velocity_X
  | Velocity_Y
  | Position_X
  | Position_Y
  | Angle
  deriving DecidableEq, Repr

/-- The three thrusters. -/
inductive Thruster where
  | Main
  | Left
  | Right
  deriving DecidableEq, Repr

/-- One call of a flight-control function of the simulator. -/
inductive Cmd where
  | thrust (t : Thruster) (power : Dbl)
  | rotate (angle : Dbl)
  deriving DecidableEq

/-- What the simulator owns while the flight computer runs. -/
structure Env where
  MT_OK : Int
  RT_OK : Int
  LT_OK : Int
  PLAT_X : ℚ
  PLAT_Y : ℚ
  SONAR_DIST : Fin 36 → ℚ
  /-- The reading returned by the `k`-th call of a sensor function. -/
  sense : Sensor → Nat → ℚ
  /-- The indeterminate value of the uninitialised local `int ang`. -/
  ang0 : Int

/-- Result of running a piece of the program. -/
structure Out (α : Type) where
  val : α
  /-- Number of calls made so far of each sensor function. -/
  reads : Sensor → Nat
  /-- Actuator commands issued, oldest first. -/
  cmds : List Cmd

/-- A piece of the program: from the read counters to a value, the new
counters and the commands it issued. -/
def Act (α : Type) : Type := (Sensor → Nat) → Out α

namespace Act

/-- Return a value: nothing read, nothing issued. -/
def ret {α : Type} (a : α) : Act α := fun r => ⟨a, r, []⟩

/-- Sequencing. -/
def seq {α β : Type} (m : Act α) (f : α → Act β) : Act β := fun r =>
  let o := m r
  let o2 := f o.val o.reads
  ⟨o2.val, o2.reads, o.cmds ++ o2.cmds⟩

instance : Monad Act where
  pure := ret
  bind := seq

/-- One call of a raw sensor function. -/
def read (e : Env) (s : Sensor) : Act Dbl := fun r =>
  ⟨Dbl.fin (e.sense s (r s)), Function.update r s (r s + 1), []⟩

/-- One actuator command. -/
def emit (c : Cmd) : Act Unit := fun r => ⟨(), r, [c]⟩

end Act

/-! ### Flight controls and sensors (`Lander_Control.h`, external) -/

def Main_Thruster (power : Dbl) : Act Unit := Act.emit (Cmd.thrust Thruster.Main power)
def Left_Thruster (power : Dbl) : Act Unit := Act.emit (Cmd.thrust Thruster.Left power)
def Right_Thruster (power : Dbl) : Act Unit := Act.emit (Cmd.thrust Thruster.Right power)
def Rotate (angle : Dbl) : Act Unit := Act.emit (Cmd.rotate angle)
def Velocity_X (e : Env) : Act Dbl := Act.read e Sensor.Velocity_X
def Velocity_Y (e : Env) : Act Dbl := Act.read e Sensor.Velocity_Y
def Position_X (e : Env) : Act Dbl := Act.read e Sensor.Position_X
def Position_Y (e : Env) : Act Dbl := Act.read e Sensor.Position_Y
def Angle (e : Env) : Act Dbl := Act.read e Sensor.Angle


/-- C `a && b` when the operands call sensors: `b` runs only if `a` is true. -/
def cand (a b : Act Bool) : Act Bool := do
  if (← a) then b else pure false

/-- C `a || b` when the operands call sensors: `b` runs only if `a` is false. -/
def cor (a b : Act Bool) : Act Bool := do
  if (← a) then pure true else b

/-! ## Global variables of the flight computer (`Lander.cpp` lines 166-194) -/

/-- Value of one of the function pointers `Velocity_X_alt`, `Velocity_Y_alt`,
`Position_X_alt`, `Position_Y_alt`: the raw sensor function it is initialised
with, or the `Robust_...` estimator `Sensor_Adjustment` stores in it. -/
inductive Acc where
  | raw
  | robust
  deriving DecidableEq, Repr

/-- The globals read or written by the flight computer.  `DD`, `ST_ANG`,
`VEL_X`, `VEL_Y`, `Angle_alt` and `RangeDist_alt` are never used and are left
out. -/
structure Mem where
  POS_X : Fin 22 → Dbl
  POS_Y : Fin 22 → Dbl
  VELOCITY_X_OK : Int
  VELOCITY_Y_OK : Int
  POSITION_X_OK : Int
  POSITION_Y_OK : Int
  ANGLE_OK : Int
  FLAGPOSX : Int
  FLAGPOSY : Int
  FLAGVELOX : Int
  FLAGVELOY : Int
  FLAGANGLE : Int
  count : Int
  Velocity_X_alt : Acc
  Velocity_Y_alt : Acc
  Position_X_alt : Acc
  Position_Y_alt : Acc

/-- The initialisers of the globals. -/
def Mem.init : Mem where
  POS_X := fun _ => Dbl.fin 0
  POS_Y := fun _ => Dbl.fin 0
  VELOCITY_X_OK := 1
  VELOCITY_Y_OK := 1
  POSITION_X_OK := 1
  POSITION_Y_OK := 1
  ANGLE_OK := 1
  FLAGPOSX := 1
  FLAGPOSY := 1
  FLAGVELOX := 1
  FLAGVELOY := 1
  FLAGANGLE := 1
  count := 90
  Velocity_X_alt := Acc.raw
  Velocity_Y_alt := Acc.raw
  Position_X_alt := Acc.raw
  Position_Y_alt := Acc.raw

/-- Array subscript `A[i]` of a 22-slot array. -/
def at22 (A : Fin 22 → Dbl) (i : Nat) : Dbl := A (Fin.ofNat i)

/-! ## Sensor health monitor (`Faulty_Checker`, lines 197-227) -/

/-- The five local counters of `Faulty_Checker`. -/
structure Faulty where
  faulty_pos_x_counter : Int
  faulty_pos_y_counter : Int
  faulty_velo_x_counter : Int
  faulty_velo_y_counter : Int
  faulty_angle_counter : Int

/-- Body of the `for` loop of `Faulty_Checker`: the five tests in source
order, then the five counters.  In a difference the left operand is called
first. -/
def Faulty_Checker_body (e : Env) (m : Mem) (c : Faulty) : Act Faulty := do
  let px ← cand (pure (decide (m.POSITION_X_OK ≠ 0)))
    (do pure (Dbl.gt ((← Position_X e) - (← Position_X e)) EPSILON_POSITION_X))
  let py ← cand (pure (decide (m.POSITION_Y_OK ≠ 0)))
    (do pure (Dbl.gt (Dbl.fabs ((← Position_Y e) - (← Position_Y e))) EPSILON_POSITION_Y))
  let vx ← cand (pure (decide (m.VELOCITY_X_OK ≠ 0)))
    (do pure (Dbl.gt (Dbl.fabs ((← Velocity_X e) - (← Velocity_X e))) EPSILON_VELOCITY_X))
  let vy ← cand (pure (decide (m.VELOCITY_Y_OK ≠ 0)))
    (do pure (Dbl.gt (Dbl.fabs ((← Velocity_Y e) - (← Velocity_Y e))) EPSILON_VELOCITY_Y))
  let an ← cand (pure (decide (m.ANGLE_OK ≠ 0)))
    (do pure (Dbl.gt (Dbl.fabs ((← Angle e) - (← Angle e))) EPSILON_ANGLE))
  pure {
    faulty_pos_x_counter := if px then c.faulty_pos_x_counter + 1 else c.faulty_pos_x_counter
    faulty_pos_y_counter := if py then c.faulty_pos_y_counter + 1 else c.faulty_pos_y_counter
    faulty_velo_x_counter := if vx then c.faulty_velo_x_counter + 1 else c.faulty_velo_x_counter
    faulty_velo_y_counter := if vy then c.faulty_velo_y_counter + 1 else c.faulty_velo_y_counter
    faulty_angle_counter := if an then c.faulty_angle_counter + 1 else c.faulty_angle_counter }

/-- The loop `for (int i = 0; i < 25; i++)`, with `n` iterations left. -/
def Faulty_Checker_loop (e : Env) (m : Mem) : Nat → Faulty → Act Faulty
  | 0, c => pure c
  | n + 1, c => do
    let c ← Faulty_Checker_body e m c
    Faulty_Checker_loop e m n c

/-- The function `Faulty_Checker`: 25 two-sample trials per sensor, then the
five flags, each cleared when its counter reached `AMOUNT_OF_FAULTY`. -/
def Faulty_Checker (e : Env) (m : Mem) : Act Mem := do
  let c ← Faulty_Checker_loop e m 25 ⟨0, 0, 0, 0, 0⟩
  pure { m with
    POSITION_X_OK := if c.faulty_pos_x_counter ≥ AMOUNT_OF_FAULTY then 0 else m.POSITION_X_OK
    POSITION_Y_OK := if c.faulty_pos_y_counter ≥ AMOUNT_OF_FAULTY then 0 else m.POSITION_Y_OK
    VELOCITY_X_OK := if c.faulty_velo_x_counter ≥ AMOUNT_OF_FAULTY then 0 else m.VELOCITY_X_OK
    VELOCITY_Y_OK := if c.faulty_velo_y_counter ≥ AMOUNT_OF_FAULTY then 0 else m.VELOCITY_Y_OK
    ANGLE_OK := if c.faulty_angle_counter ≥ AMOUNT_OF_FAULTY then 0 else m.ANGLE_OK }

/-! ## History buffer and estimators (lines 230-304) -/

/-- The function `Robust_Velocity_X`: mean difference of the valid
consecutive pairs of `POS_X`, scaled. -/
def Robust_Velocity_X (m : Mem) : Dbl :=
  let r := (List.range 21).foldl (fun (dc : Dbl × Dbl) i =>
    if Dbl.eq (at22 m.POS_X i) (Dbl.fin 0) || Dbl.eq (at22 m.POS_X (i + 1)) (Dbl.fin 0) then dc
    else (dc.1 + (at22 m.POS_X i - at22 m.POS_X (i + 1)), dc.2 + Dbl.fin 1)) (Dbl.fin 0, Dbl.fin 0)
  (r.1 / r.2) / T_STEP / S_SCALE

/-- The function `Robust_Velocity_Y`: as `Robust_Velocity_X` over `POS_Y`,
with each difference negated. -/
def Robust_Velocity_Y (m : Mem) : Dbl :=
  let r := (List.range 21).foldl (fun (dc : Dbl × Dbl) i =>
    if Dbl.eq (at22 m.POS_Y i) (Dbl.fin 0) || Dbl.eq (at22 m.POS_Y (i + 1)) (Dbl.fin 0) then dc
    else (dc.1 + -(at22 m.POS_Y i - at22 m.POS_Y (i + 1)), dc.2 + Dbl.fin 1)) (Dbl.fin 0, Dbl.fin 0)
  (r.1 / r.2) / T_STEP / S_SCALE

/-- A call through the pointer `Velocity_X_alt`. -/
def Velocity_X_alt (e : Env) (m : Mem) : Act Dbl :=
  match m.Velocity_X_alt with
  | Acc.raw => Velocity_X e
  | Acc.robust => pure (Robust_Velocity_X m)

/-- A call through the pointer `Velocity_Y_alt`. -/
def Velocity_Y_alt (e : Env) (m : Mem) : Act Dbl :=
  match m.Velocity_Y_alt with
  | Acc.raw => Velocity_Y e
  | Acc.robust => pure (Robust_Velocity_Y m)

/-- The function `Robust_Position_X`. -/
def Robust_Position_X (e : Env) (m : Mem) : Act Dbl := do
  let velocity ← Velocity_X_alt e m
  pure (at22 m.POS_X 0 + velocity * T_STEP * S_SCALE)

/-- The function `Robust_Position_Y`. -/
def Robust_Position_Y (e : Env) (m : Mem) : Act Dbl := do
  let velocity ← Velocity_Y_alt e m
  pure (at22 m.POS_Y 0 + velocity * T_STEP * S_SCALE)

/-- A call through the pointer `Position_X_alt`. -/
def Position_X_alt (e : Env) (m : Mem) : Act Dbl :=
  match m.Position_X_alt with
  | Acc.raw => Position_X e
  | Acc.robust => Robust_Position_X e m

/-- A call through the pointer `Position_Y_alt`. -/
def Position_Y_alt (e : Env) (m : Mem) : Act Dbl :=
  match m.Position_Y_alt with
  | Acc.raw => Position_Y e
  | Acc.robust => Robust_Position_Y e m

/-- The loop `for (int i = 21; i > 0; i--)` of `Setting_Up_Arrays` on the pair
`(POS_X, POS_Y)`, entered with `i` equal to the first argument. -/
def Setting_Up_Arrays_shift :
    Nat → (Fin 22 → Dbl) × (Fin 22 → Dbl) → (Fin 22 → Dbl) × (Fin 22 → Dbl)
  | 0, a => a
  | i + 1, a =>
    Setting_Up_Arrays_shift i
      (Function.update a.1 (Fin.ofNat (i + 1)) (at22 a.1 i),
       Function.update a.2 (Fin.ofNat (i + 1)) (at22 a.2 i))

/-- The loop `for (int a = 0; a < 1000000; a++)` of `Setting_Up_Arrays`, with
`n` iterations left and the two running sums. -/
def Setting_Up_Arrays_sum (e : Env) (m : Mem) : Nat → Dbl × Dbl → Act (Dbl × Dbl)
  | 0, s => pure s
  | n + 1, s => do
    let x ← Position_X_alt e m
    let y ← Position_Y_alt e m
    Setting_Up_Arrays_sum e m n (s.1 + x, s.2 + y)

/-- The function `Setting_Up_Arrays`.  The `printf` block is commented out in
the source; `count` is the global `int count`. -/
def Setting_Up_Arrays (e : Env) (m : Mem) : Act Mem := do
  let a := Setting_Up_Arrays_shift 21 (m.POS_X, m.POS_Y)
  let m := { m with POS_X := a.1, POS_Y := a.2 }
  let s ← Setting_Up_Arrays_sum e m 1000000 (Dbl.fin 0, Dbl.fin 0)
  let new_reading_x := s.1 / Dbl.fin 1000000
  let new_reading_y := s.2 / Dbl.fin 1000000
  pure { m with
    POS_X := Function.update m.POS_X 0 new_reading_x
    POS_Y := Function.update m.POS_Y 0 new_reading_y
    count := m.count + 1 }

/-! ## Estimator selection (`Sensor_Adjustment`, lines 306-321) -/

/-- The function `Sensor_Adjustment`: each pointer is rebound when its flag is
0 and left alone otherwise. -/
def Sensor_Adjustment (m : Mem) : Mem :=
  { m with
    Velocity_X_alt := if m.VELOCITY_X_OK = 0 then Acc.robust else m.Velocity_X_alt
    Velocity_Y_alt := if m.VELOCITY_Y_OK = 0 then Acc.robust else m.Velocity_Y_alt
    Position_X_alt := if m.POSITION_X_OK = 0 then Acc.robust else m.Position_X_alt
    Position_Y_alt := if m.POSITION_Y_OK = 0 then Acc.robust else m.Position_Y_alt }

/-! ## Robust accessors and rotation helpers (lines 363-407) -/

def Robust_VX (e : Env) (m : Mem) : Act Dbl := Velocity_X_alt e m
def Robust_VY (e : Env) (m : Mem) : Act Dbl := Velocity_Y_alt e m
def Robust_PX (e : Env) (m : Mem) : Act Dbl := Position_X_alt e m
def Robust_PY (e : Env) (m : Mem) : Act Dbl := Position_Y_alt e m

/-- The function `Robust_Ang`: always the raw `Angle()`. -/
def Robust_Ang (e : Env) : Act Dbl := Angle e

def Robust_Rot (ang : Dbl) : Act Unit := Rotate ang

/-- The overload `Rotate_to(double from, double to)`. -/
def Rotate_to (from_ to_ : Dbl) : Act Unit :=
  if Dbl.le (Dbl.fabs (from_ - to_)) (Dbl.fin 180) then Robust_Rot (to_ - from_)
  else Robust_Rot (Dbl.fin (-360) + to_ - from_)

/-- The overload `Rotate_to(double dest)`. -/
def Rotate_to_dest (e : Env) (dest : Dbl) : Act Unit := do
  if Dbl.le (Dbl.fabs ((← Robust_Ang e) - dest)) (Dbl.fin 1) then return
  if Dbl.le (Dbl.fabs (dest - (← Robust_Ang e))) (Dbl.fin 180) then
    Robust_Rot (dest - (← Robust_Ang e))
  else
    Robust_Rot (Dbl.fin 360 - (← Robust_Ang e) + dest)


/-! ## Guidance controllers (lines 410-540 and 713-782)

Operands are evaluated left to right, so the sensor calls of a statement are
made in the order in which they are written. -/

/-- The function `Lander_Control_R` (only the right thruster works). -/
def Lander_Control_R (e : Env) (m : Mem) : Act Unit := do
  let VXlim ← (do
    if Dbl.lt ((← Robust_PX e m) - Dbl.fin e.PLAT_X) (Dbl.fin (-20)) then pure (Dbl.fin 10)
    else if Dbl.gt ((← Robust_PX e m) - Dbl.fin e.PLAT_X) (Dbl.fin 200) then pure (Dbl.fin 15)
    else if Dbl.gt ((← Robust_PX e m) - Dbl.fin e.PLAT_X) (Dbl.fin 100) then pure (Dbl.fin 10)
    else pure (Dbl.fin 5))
  let VYlim ← (do
    if Dbl.gt (Dbl.fin e.PLAT_Y - (← Robust_PY e m)) (Dbl.fin 200) then pure (Dbl.fin (-16))
    else if Dbl.gt (Dbl.fin e.PLAT_Y - (← Robust_PY e m)) (Dbl.fin 100) then pure (Dbl.fin (-7))
    else pure (Dbl.fin (-2)))
  let VXlim := if Dbl.lt ((← Robust_VX e m) - Dbl.fin e.PLAT_X) (Dbl.fin (-20)) then Dbl.fin 5 else VXlim
  let coupled := Dbl.gt
    (Dbl.fabs (Dbl.fin e.PLAT_X - (← Robust_PX e m)) / Dbl.fabs (← Robust_VX e m))
    (Dbl.fin (5 / 4) * Dbl.fabs (Dbl.fin e.PLAT_Y - (← Robust_PY e m)) / Dbl.fabs (← Robust_VY e m))
  let VYlim := if coupled then Dbl.fin 0 else VYlim
  let VXlim := if coupled then Dbl.fin 0 else VXlim
  if Dbl.lt (← Robust_VY e m) VYlim then
    Right_Thruster (Dbl.fin 1)
    if ← cand (do pure (Dbl.lt (Dbl.fabs (Dbl.fin e.PLAT_X - (← Robust_PX e m))) (Dbl.fin 40)))
        (do pure (Dbl.lt (Dbl.fabs (Dbl.fin e.PLAT_Y - (← Robust_PY e m))) (Dbl.fin 30))) then
      Right_Thruster (Dbl.fin 0)
      return
    if ← cor (do pure (Dbl.lt (← Robust_Ang e) (Dbl.fin 89)))
        (do pure (Dbl.gt (← Robust_Ang e) (Dbl.fin 91))) then
      if Dbl.lt (← Robust_Ang e) (Dbl.fin 270) then Robust_Rot (Dbl.fin 90 - (← Robust_Ang e))
      else Robust_Rot (Dbl.fin 450 - (← Robust_Ang e))
      return
    else Right_Thruster (Dbl.fin 1)
    return
  else
    Right_Thruster (Dbl.fin 0)
  if ← cand (cand (do pure (Dbl.gt ((← Robust_PX e m) - Dbl.fin e.PLAT_X) (Dbl.fin (-20))))
        (do pure (Dbl.lt ((← Robust_PX e m) - Dbl.fin e.PLAT_X) (Dbl.fin 25))))
      (do pure (Dbl.gt (Dbl.fabs ((← Robust_PY e m) - Dbl.fin e.PLAT_Y)) (Dbl.fin 200))) then
    return
  else if ← cand (do pure (Dbl.gt ((← Robust_PX e m) - Dbl.fin e.PLAT_X) (Dbl.fin 0)))
      (do pure (Dbl.lt ((← Robust_PX e m) - Dbl.fin e.PLAT_X) (Dbl.fin 15))) then
    return
  if ← cand (do pure (Dbl.gt ((← Robust_PX e m) - Dbl.fin e.PLAT_X) (Dbl.fin 15)))
      (do pure (Dbl.gt (← Robust_VX e m) (-VXlim))) then
    if Dbl.lt (← Robust_VX e m) (Dbl.fin 0) then
      Right_Thruster (Dbl.fin 0)
      return
    Right_Thruster (VXlim + Dbl.fmin (Dbl.fin 0) (← Robust_VX e m))
    if ← cand (do pure (Dbl.lt (← Robust_Ang e) (Dbl.fin 359)))
        (do pure (Dbl.gt (← Robust_Ang e) (Dbl.fin 1))) then
      if Dbl.ge (← Robust_Ang e) (Dbl.fin 180) then Robust_Rot (Dbl.fin 360 - (← Robust_Ang e))
      else Robust_Rot (-(← Robust_Ang e))
      return
  else if ← cand (do pure (Dbl.gt (Dbl.fin e.PLAT_X - (← Robust_PX e m)) (Dbl.fin 15)))
      (do pure (Dbl.lt (← Robust_VX e m) VXlim)) then
    if Dbl.gt (← Robust_VX e m) (Dbl.fin 0) then
      Right_Thruster (Dbl.fin 0)
      return
    Right_Thruster (VXlim - Dbl.fmax (Dbl.fin 0) (← Robust_VX e m))
    if ← cor (do pure (Dbl.lt (← Robust_Ang e) (Dbl.fin 179)))
        (do pure (Dbl.gt (← Robust_Ang e) (Dbl.fin 181))) then
      Robust_Rot (Dbl.fin 180 - (← Robust_Ang e))
      return
  else Right_Thruster (Dbl.fin 0)
  if ← cor (do pure (Dbl.lt (← Robust_Ang e) (Dbl.fin 89)))
      (do pure (Dbl.gt (← Robust_Ang e) (Dbl.fin 91))) then
    if Dbl.lt (← Robust_Ang e) (Dbl.fin 270) then Robust_Rot (Dbl.fin 90 - (← Robust_Ang e))
    else Robust_Rot (Dbl.fin 450 - (← Robust_Ang e))


/-- The function `Lander_Control_L` (only the left thruster works). -/
def Lander_Control_L (e : Env) (m : Mem) : Act Unit := do
  let VXlim ← (do
    if Dbl.gt (Dbl.fabs ((← Robust_PX e m) - Dbl.fin e.PLAT_X)) (Dbl.fin 200) then pure (Dbl.fin 10)
    else if Dbl.gt (Dbl.fabs ((← Robust_PX e m) - Dbl.fin e.PLAT_X)) (Dbl.fin 100) then pure (Dbl.fin 15)
    else if Dbl.gt (Dbl.fabs ((← Robust_PX e m) - Dbl.fin e.PLAT_X)) (Dbl.fin 40) then pure (Dbl.fin 10)
    else pure (Dbl.fin 5))
  let VYlim ← (do
    if Dbl.gt (Dbl.fin e.PLAT_Y - (← Robust_PY e m)) (Dbl.fin 200) then pure (Dbl.fin (-16))
    else if Dbl.gt (Dbl.fin e.PLAT_Y - (← Robust_PY e m)) (Dbl.fin 100) then pure (Dbl.fin (-7))
    else pure (Dbl.fin (-2)))
  let coupled := Dbl.gt
    (Dbl.fabs (Dbl.fin e.PLAT_X - (← Robust_PX e m)) / Dbl.fabs (← Robust_VX e m))
    (Dbl.fin (5 / 4) * Dbl.fabs (Dbl.fin e.PLAT_Y - (← Robust_PY e m)) / Dbl.fabs (← Robust_VY e m))
  let VYlim := if coupled then Dbl.fin 0 else VYlim
  let VXlim := if coupled then Dbl.fin 0 else VXlim
  if Dbl.lt (← Robust_VY e m) VYlim then
    Left_Thruster (Dbl.fin 1)
    if ← cand (do pure (Dbl.lt (Dbl.fabs (Dbl.fin e.PLAT_X - (← Robust_PX e m))) (Dbl.fin 40)))
        (do pure (Dbl.lt (Dbl.fabs (Dbl.fin e.PLAT_Y - (← Robust_PY e m))) (Dbl.fin 30))) then
      Left_Thruster (Dbl.fin 0)
      return
    if ← cor (do pure (Dbl.lt (← Robust_Ang e) (Dbl.fin 269)))
        (do pure (Dbl.gt (← Robust_Ang e) (Dbl.fin 271))) then
      if Dbl.gt (← Robust_Ang e) (Dbl.fin 90) then Robust_Rot (Dbl.fin 270 - (← Robust_Ang e))
      else Robust_Rot (Dbl.fin (-90) - (← Robust_Ang e))
      return
    else Left_Thruster (Dbl.fin 1)
    return
  else
    Left_Thruster (Dbl.fin 0)
  if ← cand (cand (do pure (Dbl.gt ((← Robust_PX e m) - Dbl.fin e.PLAT_X) (Dbl.fin (-20))))
        (do pure (Dbl.lt ((← Robust_PX e m) - Dbl.fin e.PLAT_X) (Dbl.fin 25))))
      (do pure (Dbl.gt (Dbl.fabs ((← Robust_PY e m) - Dbl.fin e.PLAT_Y)) (Dbl.fin 200))) then
    return
  else if Dbl.lt (Dbl.fabs ((← Robust_PX e m) - Dbl.fin e.PLAT_X)) (Dbl.fin 15) then
    return
  if ← cand (do pure (Dbl.gt ((← Robust_PX e m) - Dbl.fin e.PLAT_X) (Dbl.fin 20)))
      (do pure (Dbl.gt (← Robust_VX e m) (-VXlim))) then
    if Dbl.lt (← Robust_VX e m) (Dbl.fin 0) then
      Left_Thruster (Dbl.fin 0)
      return
    Left_Thruster (Dbl.fin 1)
    if ← cor (do pure (Dbl.lt (← Robust_Ang e) (Dbl.fin 179)))
        (do pure (Dbl.gt (← Robust_Ang e) (Dbl.fin 181))) then
      Robust_Rot (Dbl.fin 180 - (← Robust_Ang e))
    return
  else if ← cand (do pure (Dbl.gt (Dbl.fin e.PLAT_X - (← Robust_PX e m)) (Dbl.fin 15)))
      (do pure (Dbl.lt (← Robust_VX e m) VXlim)) then
    if Dbl.gt (← Robust_VX e m) (Dbl.fin 0) then
      Left_Thruster (Dbl.fin 0)
      return
    Left_Thruster (Dbl.fin 1)
    if ← cor (do pure (Dbl.lt (← Robust_Ang e) (Dbl.fin 359)))
        (do pure (Dbl.gt (← Robust_Ang e) (Dbl.fin 1))) then
      if Dbl.ge (← Robust_Ang e) (Dbl.fin 180) then Robust_Rot (Dbl.fin 360 - (← Robust_Ang e))
      else Robust_Rot (-(← Robust_Ang e))
      return
  else Left_Thruster (Dbl.fin 0)
  if ← cor (do pure (Dbl.lt (← Robust_Ang e) (Dbl.fin 269)))
      (do pure (Dbl.gt (← Robust_Ang e) (Dbl.fin 271))) then
    if Dbl.gt (← Robust_Ang e) (Dbl.fin 90) then Robust_Rot (Dbl.fin 270 - (← Robust_Ang e))
    else Robust_Rot (Dbl.fin (-90) - (← Robust_Ang e))

/-- The function `Lander_Control_M` (the main thruster works). -/
def Lander_Control_M (e : Env) (m : Mem) : Act Unit := do
  let VXlim ← (do
    if Dbl.lt ((← Robust_PX e m) - Dbl.fin e.PLAT_X) (Dbl.fin (-20)) then pure (Dbl.fin 10)
    else if Dbl.gt (Dbl.fabs ((← Robust_PX e m) - Dbl.fin e.PLAT_X)) (Dbl.fin 200) then pure (Dbl.fin 15)
    else if Dbl.gt (Dbl.fabs ((← Robust_PX e m) - Dbl.fin e.PLAT_X)) (Dbl.fin 100) then pure (Dbl.fin 10)
    else pure (Dbl.fin 5))
  let VYlim ← (do
    if Dbl.gt (Dbl.fin e.PLAT_Y - (← Robust_PY e m)) (Dbl.fin 200) then pure (Dbl.fin (-20))
    else if Dbl.gt (Dbl.fin e.PLAT_Y - (← Robust_PY e m)) (Dbl.fin 100) then pure (Dbl.fin (-10))
    else pure (Dbl.fin (-4)))
  let coupled := Dbl.gt
    (Dbl.fabs (Dbl.fin e.PLAT_X - (← Robust_PX e m)) / Dbl.fabs (← Robust_VX e m))
    (Dbl.fin (5 / 4) * Dbl.fabs (Dbl.fin e.PLAT_Y - (← Robust_PY e m)) / Dbl.fabs (← Robust_VY e m))
  let VYlim := if coupled then Dbl.fin 0 else VYlim
  if Dbl.lt (← Robust_VY e m) VYlim then
    Main_Thruster (Dbl.fin 1)
    if ← cand (do pure (Dbl.gt (← Robust_Ang e) (Dbl.fin 1)))
        (do pure (Dbl.lt (← Robust_Ang e) (Dbl.fin 369))) then
      if Dbl.ge (← Robust_Ang e) (Dbl.fin 180) then Robust_Rot (Dbl.fin 360 - (← Robust_Ang e))
      else Robust_Rot (-(← Robust_Ang e))
      return
    else Main_Thruster (Dbl.fin 1)
    return
  else
    Main_Thruster (Dbl.fin 0)
  if Dbl.lt (Dbl.fabs ((← Robust_PX e m) - Dbl.fin e.PLAT_X)) (Dbl.fin 30) then
    return
  else if Dbl.lt (Dbl.fabs ((← Robust_PX e m) - Dbl.fin e.PLAT_X)) (Dbl.fin 20) then
    return
  if ← cand (do pure (Dbl.gt ((← Robust_PX e m) - Dbl.fin e.PLAT_X) (Dbl.fin 20)))
      (do pure (Dbl.gt (← Robust_VX e m) (-VXlim))) then
    if Dbl.lt (← Robust_VX e m) (Dbl.fin 0) then
      Main_Thruster (Dbl.fin 0)
      return
    Main_Thruster (Dbl.fin 1)
    if ← cor (do pure (Dbl.lt (← Robust_Ang e) (Dbl.fin 269)))
        (do pure (Dbl.gt (← Robust_Ang e) (Dbl.fin 271))) then
      if Dbl.ge (← Robust_Ang e) (Dbl.fin 90) then Robust_Rot (Dbl.fin 270 - (← Robust_Ang e))
      else Robust_Rot (Dbl.fin (-90) - (← Robust_Ang e))
      return
  else if ← cand (do pure (Dbl.gt (Dbl.fin e.PLAT_X - (← Robust_PX e m)) (Dbl.fin 20)))
      (do pure (Dbl.lt (← Robust_VX e m) VXlim)) then
    if Dbl.gt (← Robust_VX e m) (Dbl.fin 0) then
      Main_Thruster (Dbl.fin 0)
      return
    Main_Thruster (Dbl.fin 1)
    if ← cor (do pure (Dbl.lt (← Robust_Ang e) (Dbl.fin 269)))
        (do pure (Dbl.gt (← Robust_Ang e) (Dbl.fin 271))) then
      if Dbl.ge (← Robust_Ang e) (Dbl.fin 270) then Robust_Rot (Dbl.fin 450 - (← Robust_Ang e))
      else Robust_Rot (Dbl.fin 90 - (← Robust_Ang e))
      return
  else Main_Thruster (Dbl.fin 0)
  if ← cand (do pure (Dbl.gt (← Robust_Ang e) (Dbl.fin 1)))
      (do pure (Dbl.lt (← Robust_Ang e) (Dbl.fin 359))) then
    if Dbl.ge (← Robust_Ang e) (Dbl.fin 180) then Robust_Rot (Dbl.fin 360 - (← Robust_Ang e))
    else Robust_Rot (-(← Robust_Ang e))

/-- The function `Lander_Control`: monitor, selection, history, the five
report flags (each cleared when its sensor is condemned), then the guidance
variant. -/
def Lander_Control (e : Env) (m : Mem) : Act Mem := do
  let m ← Faulty_Checker e m
  let m := Sensor_Adjustment m
  let m ← Setting_Up_Arrays e m
  let m := { m with
    FLAGPOSX := if m.POSITION_X_OK = 0 ∧ m.FLAGPOSX ≠ 0 then 0 else m.FLAGPOSX
    FLAGPOSY := if m.POSITION_Y_OK = 0 ∧ m.FLAGPOSY ≠ 0 then 0 else m.FLAGPOSY
    FLAGVELOX := if m.VELOCITY_X_OK = 0 ∧ m.FLAGVELOX ≠ 0 then 0 else m.FLAGVELOX
    FLAGVELOY := if m.VELOCITY_Y_OK = 0 ∧ m.FLAGVELOY ≠ 0 then 0 else m.FLAGVELOY
    FLAGANGLE := if m.ANGLE_OK = 0 ∧ m.FLAGANGLE ≠ 0 then 0 else m.FLAGANGLE }
  if e.MT_OK ≠ 0 then Lander_Control_M e m
  else if e.RT_OK ≠ 0 then Lander_Control_R e m
  else if e.LT_OK ≠ 0 then Lander_Control_L e m
  pure m


/-! ## Safety override (lines 784-1105) -/

/-- Array subscript `SONAR_DIST[i]`. -/
def sonar (e : Env) (i : Nat) : Dbl := Dbl.fin (e.SONAR_DIST (Fin.ofNat i))

/-- The sonar loop
`for (i = lo; i < lo + n; i++) if (SONAR_DIST[i] > -1 && SONAR_DIST[i] < dmin) { dmin = SONAR_DIST[i]; ang = 10*i; }`
on the pair `(dmin, ang)`. -/
def sonar_scan (e : Env) : Nat → Nat → Dbl × Int → Dbl × Int
  | _, 0, s => s
  | i, n + 1, s =>
    sonar_scan e (i + 1) n
      (if Dbl.gt (sonar e i) (Dbl.fin (-1)) && Dbl.lt (sonar e i) s.1 then (sonar e i, 10 * (i : Int))
       else s)

/-- The sonar loop of the L and R overrides, whose test has a third operand
`c` (a call of `Robust_VX` compared with 0), run only when the first two
hold. -/
def sonar_scan_vx (e : Env) (c : Act Bool) : Nat → Nat → Dbl × Int → Act (Dbl × Int)
  | _, 0, s => pure s
  | i, n + 1, s => do
    if ← cand (pure (Dbl.gt (sonar e i) (Dbl.fin (-1)) && Dbl.lt (sonar e i) s.1)) c then
      sonar_scan_vx e c (i + 1) n (sonar e i, 10 * (i : Int))
    else
      sonar_scan_vx e c (i + 1) n s

/-- The function `Safety_Override_M`. -/
def Safety_Override_M (e : Env) (m : Mem) : Act Unit := do
  let Vmag := (← Robust_VX e m) * (← Robust_VX e m)
  let Vmag := Vmag + (← Robust_VY e m) * (← Robust_VY e m)
  let DistLimit := Dbl.fmax (Dbl.fin 75) Vmag
  if ← cand (do pure (Dbl.lt (Dbl.fabs (Dbl.fin e.PLAT_X - (← Robust_PX e m))) (Dbl.fin 100)))
      (do pure (Dbl.lt (Dbl.fin e.PLAT_Y - (← Robust_PY e m)) (Dbl.fin 200))) then
    return
  let s ← (do
    if Dbl.gt (← Robust_VX e m) (Dbl.fin 0) then pure (sonar_scan e 5 9 (Dbl.fin 1000000, e.ang0))
    else if ← cand (do pure (Dbl.gt (← Robust_VX e m) (Dbl.fin 0)))
        (do pure (Dbl.gt (Dbl.fin e.PLAT_X - (← Robust_PX e m)) (Dbl.fin 15))) then
      pure (sonar_scan e 22 10 (Dbl.fin 1000000, e.ang0))
    else pure (Dbl.fin 1000000, e.ang0))
  let dmin := s.1
  let ang := s.2
  if Dbl.lt dmin (DistLimit *
      Dbl.fmax (Dbl.fin (1 / 4)) (Dbl.fmin (Dbl.fabs (← Robust_VX e m) / Dbl.fin 5) (Dbl.fin 1))) then
    if Dbl.lt dmin (Dbl.fmin DistLimit (Dbl.fabs (Dbl.fin e.PLAT_X - (← Robust_PX e m)))) then
      if ← cand (pure (decide (ang < 140))) (do pure (Dbl.gt (← Robust_VX e m) (Dbl.fin 0))) then
        Main_Thruster (Dbl.fin 1)
      else if ← cand (pure (decide (ang > 220))) (do pure (Dbl.lt (← Robust_VX e m) (Dbl.fin 0))) then
        Main_Thruster (Dbl.fin 1)
      else
        Main_Thruster (Dbl.fin 0)
        return
      if Dbl.gt (← Robust_Ang e) (Dbl.fin ang) then
        Rotate (Dbl.fin ((180 + ang : Int)) - (← Robust_Ang e))
      else
        Rotate (Dbl.fin ((-180 + ang : Int)) - (← Robust_Ang e))
  let s ← (do
    if Dbl.gt (← Robust_VY e m) (Dbl.fin 5) then
      pure (sonar_scan e 32 4 (sonar_scan e 0 5 (Dbl.fin 1000000, ang)))
    else pure (sonar_scan e 14 8 (Dbl.fin 1000000, ang)))
  let dmin := s.1
  if Dbl.lt dmin DistLimit then
    if Dbl.gt (Dbl.fabs (Dbl.fin e.PLAT_X - (← Robust_PX e m))) (Dbl.fin 30) then
      Main_Thruster (Dbl.fin 1)
    if ← cand (do pure (Dbl.lt (← Robust_Ang e) (Dbl.fin 359)))
        (do pure (Dbl.gt (← Robust_Ang e) (Dbl.fin 1))) then
      if Dbl.ge (← Robust_Ang e) (Dbl.fin 180) then Rotate (Dbl.fin 360 - (← Robust_Ang e))
      else Rotate (-(← Robust_Ang e))
      return
    if Dbl.gt (← Robust_VY e m) (Dbl.fin 1) then
      Main_Thruster (Dbl.fin 0)
    else
      Main_Thruster (Dbl.fin 1)
    return
  else return

/-- The function `Safety_Override_L`. -/
def Safety_Override_L (e : Env) (m : Mem) : Act Unit := do
  let Vmag := (← Robust_VX e m) * (← Robust_VX e m)
  let Vmag := Vmag + (← Robust_VY e m) * (← Robust_VY e m)
  let DistLimit := Dbl.fmax (Dbl.fin 75) Vmag
  if ← cand (do pure (Dbl.lt (Dbl.fabs (Dbl.fin e.PLAT_X - (← Robust_PX e m))) (Dbl.fin 50)))
      (do pure (Dbl.lt (Dbl.fabs (Dbl.fin e.PLAT_Y - (← Robust_PY e m))) (Dbl.fin 200))) then
    if ← cand (do pure (Dbl.lt (Dbl.fabs (Dbl.fin e.PLAT_X - (← Robust_PX e m))) (Dbl.fin 50)))
        (do pure (Dbl.lt (Dbl.fabs (Dbl.fin e.PLAT_Y - (← Robust_PY e m))) (Dbl.fin 30))) then
      if ← cand (do pure (Dbl.gt (← Robust_Ang e) (Dbl.fin (1 / 2))))
          (do pure (Dbl.lt (← Robust_Ang e) (Dbl.fin (719 / 2)))) then
        Left_Thruster (Dbl.fin 0)
        if Dbl.ge (← Robust_Ang e) (Dbl.fin 180) then Rotate (Dbl.fin 360 - (← Robust_Ang e))
        else Rotate (-(← Robust_Ang e))
    return
  let s ← (do
    if Dbl.gt (← Robust_VX e m) (Dbl.fin 0) then
      sonar_scan_vx e (do pure (Dbl.gt (← Robust_VX e m) (Dbl.fin 0))) 5 9 (Dbl.fin 1000000, e.ang0)
    else
      sonar_scan_vx e (do pure (Dbl.lt (← Robust_VX e m) (Dbl.fin 0))) 22 10 (Dbl.fin 1000000, e.ang0))
  let dmin := s.1
  let ang := s.2
  if Dbl.lt dmin (DistLimit *
      Dbl.fmax (Dbl.fin (1 / 4)) (Dbl.fmin (Dbl.fabs (← Robust_VX e m) / Dbl.fin 5) (Dbl.fin 1))) then
    if Dbl.lt dmin (Dbl.fmin DistLimit (Dbl.fabs (Dbl.fin e.PLAT_X - (← Robust_PX e m)))) then
      if ← cand (pure (decide (ang < 140))) (do pure (Dbl.gt (← Robust_VX e m) (Dbl.fin 0))) then
        Left_Thruster (Dbl.fin 1)
      else if ← cand (pure (decide (ang > 220))) (do pure (Dbl.lt (← Robust_VX e m) (Dbl.fin 0))) then
        Left_Thruster (Dbl.fin 1)
      else
        Left_Thruster (Dbl.fin 0)
        return
      if Dbl.gt (← Robust_Ang e) (Dbl.fin ang) then
        Robust_Rot (Dbl.fin ((-90 + ang : Int)) - (← Robust_Ang e))
      else
        Robust_Rot (Dbl.fin ((90 + ang : Int)) - (← Robust_Ang e))
  let s ← (do
    if Dbl.gt (← Robust_VY e m) (Dbl.fin 5) then
      pure (sonar_scan e 32 4 (sonar_scan e 0 5 (Dbl.fin 1000000, ang)))
    else pure (sonar_scan e 14 8 (Dbl.fin 1000000, ang)))
  let dmin := s.1
  if Dbl.lt dmin DistLimit then
    if Dbl.gt (Dbl.fabs (Dbl.fin e.PLAT_X - (← Robust_PX e m))) (Dbl.fin 150) then
      Left_Thruster (Dbl.fin 1)
    if ← cor (do pure (Dbl.lt (← Robust_Ang e) (Dbl.fin 269)))
        (do pure (Dbl.gt (← Robust_Ang e) (Dbl.fin 271))) then
      if Dbl.gt (← Robust_Ang e) (Dbl.fin 90) then Rotate (Dbl.fin 270 - (← Robust_Ang e))
      else Rotate (Dbl.fin (-90) - (← Robust_Ang e))
      return
    if Dbl.gt (← Robust_VY e m) (Dbl.fin 1) then
      Left_Thruster (Dbl.fin 0)
    else
      Left_Thruster (Dbl.fin 1)
    return
  else return

/-- The function `Safety_Override_R`. -/
def Safety_Override_R (e : Env) (m : Mem) : Act Unit := do
  let Vmag := (← Robust_VX e m) * (← Robust_VX e m)
  let Vmag := Vmag + (← Robust_VY e m) * (← Robust_VY e m)
  let DistLimit := Dbl.fmax (Dbl.fin 75) Vmag
  if ← cand (do pure (Dbl.lt (Dbl.fabs (Dbl.fin e.PLAT_X - (← Robust_PX e m))) (Dbl.fin 50)))
      (do pure (Dbl.lt (Dbl.fabs (Dbl.fin e.PLAT_Y - (← Robust_PY e m))) (Dbl.fin 200))) then
    if ← cand (do pure (Dbl.lt (Dbl.fabs (Dbl.fin e.PLAT_X - (← Robust_PX e m))) (Dbl.fin 40)))
        (do pure (Dbl.lt (Dbl.fabs (Dbl.fin e.PLAT_Y - (← Robust_PY e m))) (Dbl.fin 30))) then
      if ← cand (do pure (Dbl.gt (← Robust_Ang e) (Dbl.fin (1 / 2))))
          (do pure (Dbl.lt (← Robust_Ang e) (Dbl.fin (719 / 2)))) then
        Right_Thruster (Dbl.fin 0)
        if Dbl.ge (← Robust_Ang e) (Dbl.fin 180) then Robust_Rot (Dbl.fin 360 - (← Robust_Ang e))
        else Robust_Rot (-(← Robust_Ang e))
    return
  let s ← (do
    if Dbl.gt (← Robust_VX e m) (Dbl.fin 0) then
      sonar_scan_vx e (do pure (Dbl.gt (← Robust_VX e m) (Dbl.fin 0))) 5 9 (Dbl.fin 1000000, e.ang0)
    else
      sonar_scan_vx e (do pure (Dbl.lt (← Robust_VX e m) (Dbl.fin 0))) 22 10 (Dbl.fin 1000000, e.ang0))
  let dmin := s.1
  let ang := s.2
  if Dbl.lt dmin (DistLimit *
      Dbl.fmax (Dbl.fin (1 / 4)) (Dbl.fmin (Dbl.fabs (← Robust_VX e m) / Dbl.fin 5) (Dbl.fin 1))) then
    if Dbl.lt dmin (Dbl.fmin DistLimit (Dbl.fabs (Dbl.fin e.PLAT_X - (← Robust_PX e m)))) then
      if ← cand (pure (decide (ang < 140))) (do pure (Dbl.gt (← Robust_VX e m) (Dbl.fin 0))) then
        Right_Thruster (Dbl.fin 1)
      else if ← cand (pure (decide (ang > 220))) (do pure (Dbl.lt (← Robust_VX e m) (Dbl.fin 0))) then
        Right_Thruster (Dbl.fin 1)
      else
        Right_Thruster (Dbl.fin 0)
        return
      if Dbl.gt (← Robust_Ang e) (Dbl.fin ang) then
        Robust_Rot (Dbl.fin ((90 + ang : Int)) - (← Robust_Ang e))
      else
        Robust_Rot (Dbl.fin ((-90 + ang : Int)) - (← Robust_Ang e))
  let s ← (do
    if Dbl.gt (← Robust_VY e m) (Dbl.fin 5) then
      pure (sonar_scan e 32 4 (sonar_scan e 0 5 (Dbl.fin 1000000, ang)))
    else pure (sonar_scan e 14 8 (Dbl.fin 1000000, ang)))
  let dmin := s.1
  if Dbl.lt dmin DistLimit then
    if Dbl.gt (Dbl.fabs (Dbl.fin e.PLAT_X - (← Robust_PX e m))) (Dbl.fin 150) then
      Right_Thruster (Dbl.fin 1)
    if ← cor (do pure (Dbl.lt (← Robust_Ang e) (Dbl.fin 89)))
        (do pure (Dbl.gt (← Robust_Ang e) (Dbl.fin 91))) then
      if Dbl.lt (← Robust_Ang e) (Dbl.fin 270) then Robust_Rot (Dbl.fin 90 - (← Robust_Ang e))
      else Robust_Rot (Dbl.fin 450 - (← Robust_Ang e))
      return
    if Dbl.gt (← Robust_VY e m) (Dbl.fin 1) then
      Right_Thruster (Dbl.fin 0)
    else
      Right_Thruster (Dbl.fin (4 / 5))
    return
  else return

/-- The function `Safety_Override`. -/
def Safety_Override (e : Env) (m : Mem) : Act Unit := do
  if e.MT_OK ≠ 0 then Safety_Override_M e m
  else if e.RT_OK ≠ 0 then Safety_Override_R e m
  else if e.LT_OK ≠ 0 then Safety_Override_L e m

/-! ## Runs: the simulator calling the two entry points -/

/-- The two entry points called by the simulator loop. -/
inductive Entry where
  | Lander_Control
  | Safety_Override
  deriving DecidableEq, Repr

/-- One call of an entry point, with what the simulator holds at that time. -/
structure Tick where
  entry : Entry
  env : Env

/-- One call of an entry point on the globals. -/
def step (t : Tick) (m : Mem) : Act Mem :=
  match t.entry with
  | Entry.Lander_Control => Lander_Control t.env m
  | Entry.Safety_Override => do
    Safety_Override t.env m
    pure m

/-- A sequence of calls, first call first. -/
def run : List Tick → Mem → Act Mem
  | [], m => pure m
  | t :: ts, m => do
    let m ← step t m
    run ts m


/-! ## Specification vocabulary -/

/-- The health flag of a monitored quantity. -/
def Mem.ok (m : Mem) : Sensor → Int
  | Sensor.Velocity_X => m.VELOCITY_X_OK
  | Sensor.Velocity_Y => m.VELOCITY_Y_OK
  | Sensor.Position_X => m.POSITION_X_OK
  | Sensor.Position_Y => m.POSITION_Y_OK
  | Sensor.Angle => m.ANGLE_OK

/-- The accessor pointer of a quantity; the angle has none and is always read
from the raw sensor (`Robust_Ang`). -/
def Mem.acc (m : Mem) : Sensor → Acc
  | Sensor.Velocity_X => m.Velocity_X_alt
  | Sensor.Velocity_Y => m.Velocity_Y_alt
  | Sensor.Position_X => m.Position_X_alt
  | Sensor.Position_Y => m.Position_Y_alt
  | Sensor.Angle => Acc.raw

/-- The health flag of a thruster. -/
def Env.healthy (e : Env) : Thruster → Int
  | Thruster.Main => e.MT_OK
  | Thruster.Left => e.LT_OK
  | Thruster.Right => e.RT_OK

/-- The piece of program issues no actuator command. -/
def Silent {α : Type} (a : Act α) : Prop := ∀ r, (a r).cmds = []

/-- Every actuator command the piece of program issues satisfies `P`. -/
def Issues {α : Type} (P : Cmd → Prop) (a : Act α) : Prop := ∀ r, ∀ c ∈ (a r).cmds, P c

/-- The piece of program never calls the raw sensor function `s`. -/
def Skips {α : Type} (s : Sensor) (a : Act α) : Prop := ∀ r, (a r).reads s = r s

/-- Selection tracks health: each of the four pointers holds the estimator
exactly when the flag of its quantity is 0. -/
def Tracks (m : Mem) : Prop :=
  (m.Velocity_X_alt = Acc.robust ↔ m.VELOCITY_X_OK = 0) ∧
  (m.Velocity_Y_alt = Acc.robust ↔ m.VELOCITY_Y_OK = 0) ∧
  (m.Position_X_alt = Acc.robust ↔ m.POSITION_X_OK = 0) ∧
  (m.Position_Y_alt = Acc.robust ↔ m.POSITION_Y_OK = 0)

/-- The tolerance of a monitored quantity, as the specification gives it:
velocity 5, position 50, angle 5. -/
def tol : Sensor → ℚ
  | Sensor.Velocity_X => 5
  | Sensor.Velocity_Y => 5
  | Sensor.Position_X => 50
  | Sensor.Position_Y => 50
  | Sensor.Angle => 5

/-- The test `Faulty_Checker` applies to the two readings of one trial of a
quantity (lines 204-216). -/
def Faulty_Checker_test : Sensor → Dbl → Dbl → Bool
  | Sensor.Position_X, a, b => Dbl.gt (a - b) EPSILON_POSITION_X
  | Sensor.Position_Y, a, b => Dbl.gt (Dbl.fabs (a - b)) EPSILON_POSITION_Y
  | Sensor.Velocity_X, a, b => Dbl.gt (Dbl.fabs (a - b)) EPSILON_VELOCITY_X
  | Sensor.Velocity_Y, a, b => Dbl.gt (Dbl.fabs (a - b)) EPSILON_VELOCITY_Y
  | Sensor.Angle, a, b => Dbl.gt (Dbl.fabs (a - b)) EPSILON_ANGLE

/-- The counter of a quantity among the locals of `Faulty_Checker`. -/
def Faulty.get (c : Faulty) : Sensor → Int
  | Sensor.Position_X => c.faulty_pos_x_counter
  | Sensor.Position_Y => c.faulty_pos_y_counter
  | Sensor.Velocity_X => c.faulty_velo_x_counter
  | Sensor.Velocity_Y => c.faulty_velo_y_counter
  | Sensor.Angle => c.faulty_angle_counter

/-- Number of trials, among `n` consecutive two-sample trials of `q` whose
first reading is call number `k`, on which the test of `Faulty_Checker`
fires. -/
def hits (e : Env) (q : Sensor) : Nat → Nat → Int
  | _, 0 => 0
  | k, n + 1 =>
    (if Faulty_Checker_test q (Dbl.fin (e.sense q k)) (Dbl.fin (e.sense q (k + 1))) then 1 else 0)
      + hits e q (k + 2) n

/-- The two readings of trial `i` of quantity `q`, in a `Faulty_Checker` call
entered with read counters `r` and the flag of `q` healthy. -/
def trial (e : Env) (r : Sensor → Nat) (q : Sensor) (i : Nat) : ℚ × ℚ :=
  (e.sense q (r q + 2 * i), e.sense q (r q + 2 * i + 1))

/-- Every one of the 25 trials of `q` made by a `Faulty_Checker` call stays
within the tolerance (no trial is made when the flag of `q` is already 0). -/
def CleanCall (e : Env) (m : Mem) (r : Sensor → Nat) (q : Sensor) : Prop :=
  m.ok q ≠ 0 → ∀ i, i < 25 → |(trial e r q i).1 - (trial e r q i).2| ≤ tol q

/-- A run in which every `Lander_Control` call is a `CleanCall` for `q`. -/
def CleanRun (q : Sensor) : List Tick → Mem → (Sensor → Nat) → Prop
  | [], _, _ => True
  | t :: ts, m, r =>
    (t.entry = Entry.Lander_Control → CleanCall t.env m r q) ∧
      CleanRun q ts (step t m r).val (step t m r).reads

/-- The command does not address a failed thruster. -/
def Cmd.healthy (e : Env) : Cmd → Prop
  | Cmd.thrust t _ => e.healthy t ≠ 0
  | Cmd.rotate _ => True

/-- The three variants of the guidance controller and of the override. -/
inductive Mode where
  | M
  | R
  | L
  deriving DecidableEq, Repr

/-- Mode selection as the specification words it: main if `MT_OK`, otherwise
right-only if `RT_OK`, otherwise left-only if `LT_OK`; no mode when all three
thrusters have failed. -/
def SelectMode (e : Env) : Option Mode :=
  if e.MT_OK ≠ 0 then some Mode.M
  else if e.RT_OK ≠ 0 then some Mode.R
  else if e.LT_OK ≠ 0 then some Mode.L
  else none

/-- The guidance variant of a mode. -/
def guidance : Mode → Env → Mem → Act Unit
  | Mode.M => Lander_Control_M
  | Mode.R => Lander_Control_R
  | Mode.L => Lander_Control_L

/-- The override variant of a mode. -/
def override : Mode → Env → Mem → Act Unit
  | Mode.M => Safety_Override_M
  | Mode.R => Safety_Override_R
  | Mode.L => Safety_Override_L

/-- What `Lander_Control` does before it selects a variant (lines 329-355):
monitor, selection, history update, report flags. -/
def Lander_Control_prologue (e : Env) (m : Mem) : Act Mem := do
  let m ← Faulty_Checker e m
  let m := Sensor_Adjustment m
  let m ← Setting_Up_Arrays e m
  pure { m with
    FLAGPOSX := if m.POSITION_X_OK = 0 ∧ m.FLAGPOSX ≠ 0 then 0 else m.FLAGPOSX
    FLAGPOSY := if m.POSITION_Y_OK = 0 ∧ m.FLAGPOSY ≠ 0 then 0 else m.FLAGPOSY
    FLAGVELOX := if m.VELOCITY_X_OK = 0 ∧ m.FLAGVELOX ≠ 0 then 0 else m.FLAGVELOX
    FLAGVELOY := if m.VELOCITY_Y_OK = 0 ∧ m.FLAGVELOY ≠ 0 then 0 else m.FLAGVELOY
    FLAGANGLE := if m.ANGLE_OK = 0 ∧ m.FLAGANGLE ≠ 0 then 0 else m.FLAGANGLE }

/-- The sensors return the same reading at every call. -/
def Env.Steady (e : Env) : Prop := ∀ s k k2, e.sense s k = e.sense s k2

/-- The value and the commands of the piece of program do not depend on how
many sensor calls were made before it. -/
def Blind {α : Type} (a : Act α) : Prop :=
  ∀ r r2, (a r).val = (a r2).val ∧ (a r).cmds = (a r2).cmds

/-! ### Concrete inputs -/

/-- A simulator state whose sensors return the same reading at every call and
whose sonar bins all hold the same distance. -/
def Env.steady (mt rt lt : Int) (platX platY sonarDist : ℚ) (v : Sensor → ℚ) : Env where
  MT_OK := mt
  RT_OK := rt
  LT_OK := lt
  PLAT_X := platX
  PLAT_Y := platY
  SONAR_DIST := fun _ => sonarDist
  sense := fun s _ => v s
  ang0 := 0

/-- Readings of a craft at rest at the origin, upright. -/
def atRest : Sensor → ℚ := fun _ => 0

/-- No sensor function has been called yet. -/
def noReads : Sensor → Nat := fun _ => 0

/-- All thrusters work, platform at (500, 1000), craft at rest at the origin. -/
def envCalm : Env := Env.steady 1 1 1 500 1000 50 atRest

/-- As `envCalm`, except that the first call of `Position_X` returns 0 and
every later call returns 100. -/
def envJump : Env :=
  { envCalm with sense := fun s k => if s = Sensor.Position_X ∧ k ≠ 0 then 100 else 0 }

/-- Main thruster healthy; the craft at the origin falls at 30 units per
second, tilted by 90 degrees; platform at (500, 1000). -/
def envFall : Env :=
  Env.steady 1 0 0 500 1000 50 (fun s =>
    match s with
    | Sensor.Velocity_Y => -30
    | Sensor.Angle => 90
    | _ => 0)

/-- The initial globals with the angle sensor condemned. -/
def memAngleOff : Mem := { Mem.init with ANGLE_OK := 0, FLAGANGLE := 0 }

/-- The initial globals with the horizontal position sensor condemned and its
pointer rebound. -/
def memPosXOff : Mem :=
  { Mem.init with POSITION_X_OK := 0, FLAGPOSX := 0, Position_X_alt := Acc.robust }

/-- Every thruster has failed; otherwise as `envFall`. -/
def envDead : Env := { envFall with MT_OK := 0 }

/-- Only the right thruster works; the craft is 300 units right of the
platform at (0, 1000), drifting right at 1 and sinking at 1, upright. -/
def envRight : Env :=
  Env.steady 0 1 0 0 1000 50 (fun s =>
    match s with
    | Sensor.Position_X => 300
    | Sensor.Velocity_X => 1
    | Sensor.Velocity_Y => -1
    | _ => 0)

/-! ### History buffers holding numbers -/

/-- The buffer `A` holds the finite values `p 0`, ..., `p 21`. -/
def Holds (A : Fin 22 → Dbl) (p : Nat → ℚ) : Prop :=
  ∀ i, i < 22 → at22 A i = Dbl.fin (p i)

/-- Number of indices `i < n` whose pair of slots `(i, i+1)` is valid, i.e.
has both values nonzero. -/
def validPairs (p : Nat → ℚ) : Nat → Nat
  | 0 => 0
  | n + 1 => validPairs p n + (if p n ≠ 0 ∧ p (n + 1) ≠ 0 then 1 else 0)

/-- Sum of the differences `p i - p (i+1)` over the valid pairs with `i < n`. -/
def sumPairs (p : Nat → ℚ) : Nat → ℚ
  | 0 => 0
  | n + 1 => sumPairs p n + (if p n ≠ 0 ∧ p (n + 1) ≠ 0 then p n - p (n + 1) else 0)

/-- The globals with the given vertical history, the vertical velocity read
through its estimator. -/
def memTrackY (p : Nat → ℚ) : Mem :=
  { Mem.init with
    POS_Y := fun i => Dbl.fin (p i.val)
    VELOCITY_Y_OK := 0
    FLAGVELOY := 0
    Velocity_Y_alt := Acc.robust }

/-- The globals with the given horizontal history, the horizontal velocity
read through its estimator. -/
def memTrackX (p : Nat → ℚ) : Mem :=
  { Mem.init with
    POS_X := fun i => Dbl.fin (p i.val)
    VELOCITY_X_OK := 0
    FLAGVELOX := 0
    Velocity_X_alt := Acc.robust }

/-- A track moving by 1 per tick: slot `i` holds `22 - i`, so that
`POS[i] - POS[i+1] = 1` and the next point of the track is 23. -/
def unitTrack : Nat → ℚ := fun i => 22 - i

/-- Steady readings with the craft tilted by 10 degrees. -/
def envTilt10 : Env :=
  Env.steady 1 1 1 500 1000 50 (fun s =>
    match s with
    | Sensor.Angle => 10
    | _ => 0)

/-- Steady readings with the craft tilted by 350 degrees. -/
def envTilt350 : Env :=
  Env.steady 1 1 1 500 1000 50 (fun s =>
    match s with
    | Sensor.Angle => 350
    | _ => 0)

/-! ### The history update -/

/-- Sum of a list of doubles, accumulated from 0 in list order. -/
def Dbl.sum (l : List Dbl) : Dbl := l.foldl (fun s x => s + x) (Dbl.fin 0)

/-- Arithmetic mean of a list of doubles. -/
def Dbl.mean (l : List Dbl) : Dbl := Dbl.sum l / Dbl.fin l.length

/-- The pairs of position values that `n` rounds of the averaging loop of
`Setting_Up_Arrays` read through `Position_X_alt` and `Position_Y_alt`, in
order, on the globals `m` and from the read counters `r`. -/
def Position_samples (e : Env) (m : Mem) : Nat → (Sensor → Nat) → List (Dbl × Dbl)
  | 0, _ => []
  | n + 1, r =>
    ((Position_X_alt e m r).val, (Position_Y_alt e m (Position_X_alt e m r).reads).val) ::
      Position_samples e m n (Position_Y_alt e m (Position_X_alt e m r).reads).reads

/-- The position values read in one call of `Setting_Up_Arrays`: the
1,000,000 rounds of the averaging loop, which run on the shifted buffers. -/
def Setting_Up_Arrays_samples (e : Env) (m : Mem) (r : Sensor → Nat) : List (Dbl × Dbl) :=
  Position_samples e
    { m with
      POS_X := (Setting_Up_Arrays_shift 21 (m.POS_X, m.POS_Y)).1
      POS_Y := (Setting_Up_Arrays_shift 21 (m.POS_X, m.POS_Y)).2 }
    1000000 r

/-- A run of `Lander_Control` calls, one per tick, in the given worlds. -/
def controlTicks (es : List Env) : List Tick := es.map (fun e => ⟨Entry.Lander_Control, e⟩)

/-- The averaged samples that a `Lander_Control` tick in the world `e` inserts
when it follows the ticks `es` from the initial globals: the means of the
position values its `Setting_Up_Arrays` call reads. -/
def insertedSample (es : List Env) (e : Env) (r : Sensor → Nat) : Dbl × Dbl :=
  let o := run (controlTicks es) Mem.init r
  let f := Faulty_Checker e o.val o.reads
  let S := Setting_Up_Arrays_samples e (Sensor_Adjustment f.val) f.reads
  (Dbl.mean (S.map Prod.fst), Dbl.mean (S.map Prod.snd))

/-! ### Counting rotation commands -/

/-- The command is a rotation command. -/
def Cmd.isRotate : Cmd → Bool
  | Cmd.rotate _ => true
  | Cmd.thrust _ _ => false

/-- Number of rotation commands in a list of commands. -/
def rotations (cs : List Cmd) : Nat := cs.countP Cmd.isRotate

/-- The piece of program issues at most `k` rotation commands, whatever the
sensors return. -/
def Rots {α : Type} (k : Nat) (a : Act α) : Prop := ∀ r, rotations (a r).cmds ≤ k

/-- Main thruster healthy; the craft at the origin drifts right at 10 units
per second, tilted by 90 degrees, every sonar bin at 50; platform at
(500, 1000). -/
def envDrift : Env :=
  Env.steady 1 0 0 500 1000 50 (fun s =>
    match s with
    | Sensor.Velocity_X => 10
    | Sensor.Angle => 90
    | _ => 0)

/-! ### Calls with steady readings -/

/-- The piece of program returns `v` and issues the commands `cs`, however
many sensor calls were made before it. -/
def Evals {α : Type} (a : Act α) (v : α) (cs : List Cmd) : Prop :=
  ∀ r, (a r).val = v ∧ (a r).cmds = cs

/-- What `Robust_PX()` returns in a call started before any sensor call; with
steady readings, what it returns at every call. -/
def steadyPX (e : Env) (m : Mem) : Dbl := (Robust_PX e m noReads).val

/-- What `Robust_PY()` returns, as `steadyPX`. -/
def steadyPY (e : Env) (m : Mem) : Dbl := (Robust_PY e m noReads).val

/-- What `Robust_VX()` returns, as `steadyPX`. -/
def steadyVX (e : Env) (m : Mem) : Dbl := (Robust_VX e m noReads).val

/-- What `Robust_VY()` returns, as `steadyPX`. -/
def steadyVY (e : Env) (m : Mem) : Dbl := (Robust_VY e m noReads).val

/-- What `Robust_Ang()` returns, as `steadyPX`. -/
def steadyAng (e : Env) : Dbl := (Robust_Ang e noReads).val

/-- The test of the coupling constraint of the guidance variants (the same in
M, R and L), on the steady readings. -/
def coupled (e : Env) (m : Mem) : Bool :=
  Dbl.gt (Dbl.fabs (Dbl.fin e.PLAT_X - steadyPX e m) / Dbl.fabs (steadyVX e m))
    (Dbl.fin (5 / 4) * Dbl.fabs (Dbl.fin e.PLAT_Y - steadyPY e m) / Dbl.fabs (steadyVY e m))

/-- The bound `VYlim` that `Lander_Control_M` compares the vertical velocity
with, on the steady readings. -/
def Lander_Control_M_VYlim (e : Env) (m : Mem) : Dbl :=
  if coupled e m = true then Dbl.fin 0
  else if Dbl.gt (Dbl.fin e.PLAT_Y - steadyPY e m) (Dbl.fin 200) = true then Dbl.fin (-20)
  else if Dbl.gt (Dbl.fin e.PLAT_Y - steadyPY e m) (Dbl.fin 100) = true then Dbl.fin (-10)
  else Dbl.fin (-4)

/-- The bound `VYlim` that `Lander_Control_R` and `Lander_Control_L` compare
the vertical velocity with, on the steady readings. -/
def Lander_Control_R_VYlim (e : Env) (m : Mem) : Dbl :=
  if coupled e m = true then Dbl.fin 0
  else if Dbl.gt (Dbl.fin e.PLAT_Y - steadyPY e m) (Dbl.fin 200) = true then Dbl.fin (-16)
  else if Dbl.gt (Dbl.fin e.PLAT_Y - steadyPY e m) (Dbl.fin 100) = true then Dbl.fin (-7)
  else Dbl.fin (-2)

/-- The craft is inside the box `|PLAT_X - PX| < w` and `|PLAT_Y - PY| < h`,
tested as the code does, on the steady readings. -/
def inBox (e : Env) (m : Mem) (w h : ℚ) : Bool :=
  if Dbl.lt (Dbl.fabs (Dbl.fin e.PLAT_X - steadyPX e m)) (Dbl.fin w) = true then
    Dbl.lt (Dbl.fabs (Dbl.fin e.PLAT_Y - steadyPY e m)) (Dbl.fin h)
  else false

/-- The proximity box of `Safety_Override_M`: `|PLAT_X - PX| < 100` and
`PLAT_Y - PY < 200`. -/
def inBoxM (e : Env) (m : Mem) : Bool :=
  if Dbl.lt (Dbl.fabs (Dbl.fin e.PLAT_X - steadyPX e m)) (Dbl.fin 100) = true then
    Dbl.lt (Dbl.fin e.PLAT_Y - steadyPY e m) (Dbl.fin 200)
  else false

/-- The test `Robust_Ang() > 0.5 && Robust_Ang() < 359.5` of the overrides R
and L. -/
def tilted (a : Dbl) : Bool :=
  if Dbl.gt a (Dbl.fin (1 / 2)) = true then Dbl.lt a (Dbl.fin (719 / 2)) else false

/-- The rotation to upright of the overrides and of the variant M:
`360 - a` from 180 on, `-a` below. -/
def toUpright (a : Dbl) : Dbl := if Dbl.ge a (Dbl.fin 180) = true then Dbl.fin 360 - a else -a

/-- Only the right thruster works; the craft hangs 20 units left of and 10
units above the platform at (500, 1000), tilted by 90 degrees. -/
def envLanding : Env :=
  Env.steady 0 1 0 500 1000 50 (fun s =>
    match s with
    | Sensor.Position_X => 480
    | Sensor.Position_Y => 990
    | Sensor.Angle => 90
    | _ => 0)

/-- The craft is over the platform at (500, 1000), 1000 units above it,
sinking at 30 units per second and drifting at 1, turned by 180 degrees; the
thruster health flags are the arguments. -/
def envDescent (mt rt lt : Int) : Env :=
  Env.steady mt rt lt 500 1000 50 (fun s =>
    match s with
    | Sensor.Position_X => 500
    | Sensor.Velocity_X => 1
    | Sensor.Velocity_Y => -30
    | Sensor.Angle => 180
    | _ => 0)

/-- The angle test of the descent branch of `Lander_Control_M`:
`Robust_Ang() > 1 && Robust_Ang() < 369`. -/
def offUpright (a : Dbl) : Bool :=
  if Dbl.gt a (Dbl.fin 1) = true then Dbl.lt a (Dbl.fin 369) else false

/-- The angle test of the descent branch of `Lander_Control_R`:
`Robust_Ang() < 89 || Robust_Ang() > 91`. -/
def off90 (a : Dbl) : Bool :=
  if Dbl.lt a (Dbl.fin 89) = true then true else Dbl.gt a (Dbl.fin 91)

/-- The angle test of the descent branch of `Lander_Control_L`:
`Robust_Ang() < 269 || Robust_Ang() > 271`. -/
def off270 (a : Dbl) : Bool :=
  if Dbl.lt a (Dbl.fin 269) = true then true else Dbl.gt a (Dbl.fin 271)

/-- The rotation of the descent branch of `Lander_Control_R`: `90 - a` below
270, `450 - a` from 270 on. -/
def to90 (a : Dbl) : Dbl := if Dbl.lt a (Dbl.fin 270) = true then Dbl.fin 90 - a else Dbl.fin 450 - a

/-- The rotation of the descent branch of `Lander_Control_L`: `270 - a` above
90, `-90 - a` up to 90. -/
def to270 (a : Dbl) : Dbl :=
  if Dbl.gt a (Dbl.fin 90) = true then Dbl.fin 270 - a else Dbl.fin (-90) - a

/-! ### The velocity bounds on steady readings -/

/-- The bound `VXlim` that the rest of `Lander_Control_M` uses, on the steady
readings: the distance band; the coupling constraint leaves it alone. -/
def Lander_Control_M_VXlim (e : Env) (m : Mem) : Dbl :=
  if Dbl.lt (steadyPX e m - Dbl.fin e.PLAT_X) (Dbl.fin (-20)) = true then Dbl.fin 10
  else if Dbl.gt (Dbl.fabs (steadyPX e m - Dbl.fin e.PLAT_X)) (Dbl.fin 200) = true then Dbl.fin 15
  else if Dbl.gt (Dbl.fabs (steadyPX e m - Dbl.fin e.PLAT_X)) (Dbl.fin 100) = true then Dbl.fin 10
  else Dbl.fin 5

/-- The bound `VXlim` that the rest of `Lander_Control_R` uses, on the steady
readings: 0 under the coupling constraint, else 5 if `VX - PLAT_X < -20`,
else the distance band. -/
def Lander_Control_R_VXlim (e : Env) (m : Mem) : Dbl :=
  if coupled e m = true then Dbl.fin 0
  else if Dbl.lt (steadyVX e m - Dbl.fin e.PLAT_X) (Dbl.fin (-20)) = true then Dbl.fin 5
  else if Dbl.lt (steadyPX e m - Dbl.fin e.PLAT_X) (Dbl.fin (-20)) = true then Dbl.fin 10
  else if Dbl.gt (steadyPX e m - Dbl.fin e.PLAT_X) (Dbl.fin 200) = true then Dbl.fin 15
  else if Dbl.gt (steadyPX e m - Dbl.fin e.PLAT_X) (Dbl.fin 100) = true then Dbl.fin 10
  else Dbl.fin 5

/-- The bound `VXlim` that the rest of `Lander_Control_L` uses, on the steady
readings: 0 under the coupling constraint, else the distance band. -/
def Lander_Control_L_VXlim (e : Env) (m : Mem) : Dbl :=
  if coupled e m = true then Dbl.fin 0
  else if Dbl.gt (Dbl.fabs (steadyPX e m - Dbl.fin e.PLAT_X)) (Dbl.fin 200) = true then Dbl.fin 10
  else if Dbl.gt (Dbl.fabs (steadyPX e m - Dbl.fin e.PLAT_X)) (Dbl.fin 100) = true then Dbl.fin 15
  else if Dbl.gt (Dbl.fabs (steadyPX e m - Dbl.fin e.PLAT_X)) (Dbl.fin 40) = true then Dbl.fin 10
  else Dbl.fin 5

/-- The craft is 100 units right of the platform at (500, 1000) and 1000 units
above it, moving towards it at 3 units per second and sinking at 10, upright;
the thruster health flags are the arguments. -/
def envApproach (mt rt lt : Int) : Env :=
  Env.steady mt rt lt 500 1000 50 (fun s =>
    match s with
    | Sensor.Position_X => 600
    | Sensor.Velocity_X => -3
    | Sensor.Velocity_Y => -10
    | _ => 0)

/-- The main thruster works; the craft is at (512, 200) over the platform at
(512, 1000), with no horizontal velocity, vertical velocity `vy` and angle
`a`. -/
def envPad (vy a : ℚ) : Env :=
  Env.steady 1 1 1 512 1000 50 (fun s =>
    match s with
    | Sensor.Position_X => 512
    | Sensor.Position_Y => 200
    | Sensor.Velocity_X => 0
    | Sensor.Velocity_Y => vy
    | Sensor.Angle => a)

/-! ### Rotations by the short way -/

/-- The distance bands of `VXlim` in `Lander_Control_M` (lines 717-720). -/
def Lander_Control_M_bands (e : Env) (m : Mem) : Act Dbl := do
  if Dbl.lt ((← Robust_PX e m) - Dbl.fin e.PLAT_X) (Dbl.fin (-20)) then pure (Dbl.fin 10)
  else if Dbl.gt (Dbl.fabs ((← Robust_PX e m) - Dbl.fin e.PLAT_X)) (Dbl.fin 200) then pure (Dbl.fin 15)
  else if Dbl.gt (Dbl.fabs ((← Robust_PX e m) - Dbl.fin e.PLAT_X)) (Dbl.fin 100) then pure (Dbl.fin 10)
  else pure (Dbl.fin 5)

/-- The distance bands of `VXlim` in `Lander_Control_L` (lines 486-489). -/
def Lander_Control_L_bands (e : Env) (m : Mem) : Act Dbl := do
  if Dbl.gt (Dbl.fabs ((← Robust_PX e m) - Dbl.fin e.PLAT_X)) (Dbl.fin 200) then pure (Dbl.fin 10)
  else if Dbl.gt (Dbl.fabs ((← Robust_PX e m) - Dbl.fin e.PLAT_X)) (Dbl.fin 100) then pure (Dbl.fin 15)
  else if Dbl.gt (Dbl.fabs ((← Robust_PX e m) - Dbl.fin e.PLAT_X)) (Dbl.fin 40) then pure (Dbl.fin 10)
  else pure (Dbl.fin 5)

/-- The first part of `Lander_Control_L` (lines 486-496): the two velocity
bounds `(VXlim, VYlim)` as the rest of the function uses them. -/
def Lander_Control_L_limits (e : Env) (m : Mem) : Act (Dbl × Dbl) := do
  let VXlim ← Lander_Control_L_bands e m
  let VYlim ← (do
    if Dbl.gt (Dbl.fin e.PLAT_Y - (← Robust_PY e m)) (Dbl.fin 200) then pure (Dbl.fin (-16))
    else if Dbl.gt (Dbl.fin e.PLAT_Y - (← Robust_PY e m)) (Dbl.fin 100) then pure (Dbl.fin (-7))
    else pure (Dbl.fin (-2)))
  let coupled := Dbl.gt
    (Dbl.fabs (Dbl.fin e.PLAT_X - (← Robust_PX e m)) / Dbl.fabs (← Robust_VX e m))
    (Dbl.fin (5 / 4) * Dbl.fabs (Dbl.fin e.PLAT_Y - (← Robust_PY e m)) / Dbl.fabs (← Robust_VY e m))
  let VYlim := if coupled then Dbl.fin 0 else VYlim
  let VXlim := if coupled then Dbl.fin 0 else VXlim
  pure (VXlim, VYlim)

/-- Steady readings over the platform at (500, 1000): the craft at `(px, 0)`
with velocity `(vx, vy)` and angle `a`, every sonar bin at 50; the thruster
health flags are the first three arguments. -/
def envAt (mt rt lt : Int) (px vx vy a : ℚ) : Env :=
  Env.steady mt rt lt 500 1000 50 (fun s =>
    match s with
    | Sensor.Position_X => px
    | Sensor.Position_Y => 0
    | Sensor.Velocity_X => vx
    | Sensor.Velocity_Y => vy
    | Sensor.Angle => a)

/-- The craft at the origin moves left at 10 units per second; the sonar
returns 10 in the bins 22..31 and no valid reading elsewhere. -/
def envWall (mt rt lt : Int) : Env :=
  { envAt mt rt lt 0 (-10) 0 0 with
    SONAR_DIST := fun i => if 22 ≤ i.val ∧ i.val ≤ 31 then 10 else -1 }

/-! ### Rounding to `double`

The operations of `Dbl` above are exact.  A C `double` operation returns the
exact result rounded to the nearest binary64 number, ties to even; the
functions below give that rounding, for the places where the rounded value
itself is the subject. -/

namespace Dbl

/-- The power `2 ^ k` for an integer `k`. -/
def pow2 (k : ℤ) : ℚ :=
  if 0 ≤ k then ((2 ^ k.toNat : ℕ) : ℚ) else 1 / ((2 ^ (-k).toNat : ℕ) : ℚ)

/-- Number of halvings that take `n` below 2, at most `fuel` of them. -/
def halvings : Nat → Nat → Nat
  | 0, _ => 0
  | fuel + 1, n => if 2 ≤ n then halvings fuel (n / 2) + 1 else 0

/-- Floor of the binary logarithm of the natural number `n ≠ 0`. -/
def nlog2 (n : Nat) : Nat := halvings n n

/-- Floor of the binary logarithm of `|q|`, for `q ≠ 0`. -/
def ilog2 (q : ℚ) : ℤ :=
  if q.den * 2 ^ nlog2 q.num.natAbs ≤ q.num.natAbs * 2 ^ nlog2 q.den then
    (nlog2 q.num.natAbs : ℤ) - nlog2 q.den
  else (nlog2 q.num.natAbs : ℤ) - nlog2 q.den - 1

/-- The integer nearest to `q`, the even one of the two in a tie. -/
def roundHalfEven (q : ℚ) : ℤ :=
  if q - ⌊q⌋ < 1 / 2 then ⌊q⌋
  else if 1 / 2 < q - ⌊q⌋ then ⌊q⌋ + 1
  else if ⌊q⌋ % 2 = 0 then ⌊q⌋ else ⌊q⌋ + 1

/-- The binary64 number nearest to `q`, ties to even: 53 significant bits,
least exponent -1074 (subnormal numbers included), an infinity from `2 ^ 1024`
on. -/
def rne (q : ℚ) : Dbl :=
  if q = 0 then fin 0
  else if pow2 1024 ≤ |(roundHalfEven (q / pow2 (max (ilog2 q - 52) (-1074))) : ℚ) *
      pow2 (max (ilog2 q - 52) (-1074))| then (if 0 < q then pinf else ninf)
  else fin ((roundHalfEven (q / pow2 (max (ilog2 q - 52) (-1074))) : ℚ) *
    pow2 (max (ilog2 q - 52) (-1074)))

/-- The result of a `double` operation whose exact result is `x`. -/
def round : Dbl → Dbl
  | fin q => rne q
  | x => x

end Dbl

/-! ### The estimators and the history update in `double` arithmetic

The functions of lines 230-304 once more, with the result of every
arithmetic operation rounded to `double` and `T_STEP` the `double` that the
literal `.005` denotes.  The reads, the tests and the order of the operations
are those of the definitions above. -/

/-- The macro `T_STEP`: the `double` nearest to `.005`. -/
def T_STEP_rounded : Dbl := Dbl.rne (5 / 1000)

/-- The function `Robust_Velocity_X` in `double` arithmetic. -/
def Robust_Velocity_X_rounded (m : Mem) : Dbl :=
  let r := (List.range 21).foldl (fun (dc : Dbl × Dbl) i =>
    if Dbl.eq (at22 m.POS_X i) (Dbl.fin 0) || Dbl.eq (at22 m.POS_X (i + 1)) (Dbl.fin 0) then dc
    else (Dbl.round (dc.1 + Dbl.round (at22 m.POS_X i - at22 m.POS_X (i + 1))),
      Dbl.round (dc.2 + Dbl.fin 1))) (Dbl.fin 0, Dbl.fin 0)
  Dbl.round (Dbl.round (Dbl.round (r.1 / r.2) / T_STEP_rounded) / S_SCALE)

/-- The function `Robust_Velocity_Y` in `double` arithmetic. -/
def Robust_Velocity_Y_rounded (m : Mem) : Dbl :=
  let r := (List.range 21).foldl (fun (dc : Dbl × Dbl) i =>
    if Dbl.eq (at22 m.POS_Y i) (Dbl.fin 0) || Dbl.eq (at22 m.POS_Y (i + 1)) (Dbl.fin 0) then dc
    else (Dbl.round (dc.1 + -Dbl.round (at22 m.POS_Y i - at22 m.POS_Y (i + 1))),
      Dbl.round (dc.2 + Dbl.fin 1))) (Dbl.fin 0, Dbl.fin 0)
  Dbl.round (Dbl.round (Dbl.round (r.1 / r.2) / T_STEP_rounded) / S_SCALE)

/-- A call through the pointer `Velocity_X_alt`, in `double` arithmetic. -/
def Velocity_X_alt_rounded (e : Env) (m : Mem) : Act Dbl :=
  match m.Velocity_X_alt with
  | Acc.raw => Velocity_X e
  | Acc.robust => pure (Robust_Velocity_X_rounded m)

/-- A call through the pointer `Velocity_Y_alt`, in `double` arithmetic. -/
def Velocity_Y_alt_rounded (e : Env) (m : Mem) : Act Dbl :=
  match m.Velocity_Y_alt with
  | Acc.raw => Velocity_Y e
  | Acc.robust => pure (Robust_Velocity_Y_rounded m)

/-- The function `Robust_Position_X` in `double` arithmetic. -/
def Robust_Position_X_rounded (e : Env) (m : Mem) : Act Dbl := do
  let velocity ← Velocity_X_alt_rounded e m
  pure (Dbl.round (at22 m.POS_X 0 +
    Dbl.round (Dbl.round (velocity * T_STEP_rounded) * S_SCALE)))

/-- The function `Robust_Position_Y` in `double` arithmetic. -/
def Robust_Position_Y_rounded (e : Env) (m : Mem) : Act Dbl := do
  let velocity ← Velocity_Y_alt_rounded e m
  pure (Dbl.round (at22 m.POS_Y 0 +
    Dbl.round (Dbl.round (velocity * T_STEP_rounded) * S_SCALE)))

/-- A call through the pointer `Position_X_alt`, in `double` arithmetic. -/
def Position_X_alt_rounded (e : Env) (m : Mem) : Act Dbl :=
  match m.Position_X_alt with
  | Acc.raw => Position_X e
  | Acc.robust => Robust_Position_X_rounded e m

/-- A call through the pointer `Position_Y_alt`, in `double` arithmetic. -/
def Position_Y_alt_rounded (e : Env) (m : Mem) : Act Dbl :=
  match m.Position_Y_alt with
  | Acc.raw => Position_Y e
  | Acc.robust => Robust_Position_Y_rounded e m

/-- The loop `for (int a = 0; a < 1000000; a++)` of `Setting_Up_Arrays` in
`double` arithmetic, with `n` iterations left and the two running sums. -/
def Setting_Up_Arrays_sum_rounded (e : Env) (m : Mem) : Nat → Dbl × Dbl → Act (Dbl × Dbl)
  | 0, s => pure s
  | n + 1, s => do
    let x ← Position_X_alt_rounded e m
    let y ← Position_Y_alt_rounded e m
    Setting_Up_Arrays_sum_rounded e m n (Dbl.round (s.1 + x), Dbl.round (s.2 + y))

/-- The function `Setting_Up_Arrays` in `double` arithmetic. -/
def Setting_Up_Arrays_rounded (e : Env) (m : Mem) : Act Mem := do
  let a := Setting_Up_Arrays_shift 21 (m.POS_X, m.POS_Y)
  let m := { m with POS_X := a.1, POS_Y := a.2 }
  let s ← Setting_Up_Arrays_sum_rounded e m 1000000 (Dbl.fin 0, Dbl.fin 0)
  let new_reading_x := Dbl.round (s.1 / Dbl.fin 1000000)
  let new_reading_y := Dbl.round (s.2 / Dbl.fin 1000000)
  pure { m with
    POS_X := Function.update m.POS_X 0 new_reading_x
    POS_Y := Function.update m.POS_Y 0 new_reading_y
    count := m.count + 1 }

/-! ### Vocabulary for the rounded functions -/

/-- Sum of a list of doubles in `double` arithmetic, accumulated from `s` in
list order. -/
def Dbl.sumFrom (s : Dbl) (l : List Dbl) : Dbl := l.foldl (fun s x => Dbl.round (s + x)) s

/-- The pairs of position values that `n` rounds of the averaging loop of
`Setting_Up_Arrays_rounded` read, in order, on the globals `m` and from the
read counters `r`. -/
def Position_samples_rounded (e : Env) (m : Mem) : Nat → (Sensor → Nat) → List (Dbl × Dbl)
  | 0, _ => []
  | n + 1, r =>
    ((Position_X_alt_rounded e m r).val,
      (Position_Y_alt_rounded e m (Position_X_alt_rounded e m r).reads).val) ::
      Position_samples_rounded e m n
        (Position_Y_alt_rounded e m (Position_X_alt_rounded e m r).reads).reads

/-- The position values read in one call of `Setting_Up_Arrays_rounded`: the
1,000,000 rounds of the averaging loop, which run on the shifted buffers. -/
def Setting_Up_Arrays_samples_rounded (e : Env) (m : Mem) (r : Sensor → Nat) :
    List (Dbl × Dbl) :=
  Position_samples_rounded e
    { m with
      POS_X := (Setting_Up_Arrays_shift 21 (m.POS_X, m.POS_Y)).1
      POS_Y := (Setting_Up_Arrays_shift 21 (m.POS_X, m.POS_Y)).2 }
    1000000 r

/-- Sum of the differences `p i - p (i+1)` over the valid pairs with `i < n`,
every difference and every partial sum rounded to `double`. -/
def sumPairs_rounded (p : Nat → ℚ) : Nat → Dbl
  | 0 => Dbl.fin 0
  | n + 1 =>
    if p n ≠ 0 ∧ p (n + 1) ≠ 0 then
      Dbl.round (sumPairs_rounded p n + Dbl.round (Dbl.fin (p n) - Dbl.fin (p (n + 1))))
    else sumPairs_rounded p n

/-- Sum of the differences `p i - p (i+1)` with `i < n`, every difference and
every partial sum rounded to `double`. -/
def sumDiffs_rounded (p : Nat → ℚ) : Nat → Dbl
  | 0 => Dbl.fin 0
  | n + 1 => Dbl.round (sumDiffs_rounded p n + Dbl.round (Dbl.fin (p n) - Dbl.fin (p (n + 1))))

/-- As `sumPairs_rounded`, every rounded difference negated. -/
def sumPairs_neg_rounded (p : Nat → ℚ) : Nat → Dbl
  | 0 => Dbl.fin 0
  | n + 1 =>
    if p n ≠ 0 ∧ p (n + 1) ≠ 0 then
      Dbl.round (sumPairs_neg_rounded p n + -Dbl.round (Dbl.fin (p n) - Dbl.fin (p (n + 1))))
    else sumPairs_neg_rounded p n

/-- As `sumDiffs_rounded`, every rounded difference negated. -/
def sumDiffs_neg_rounded (p : Nat → ℚ) : Nat → Dbl
  | 0 => Dbl.fin 0
  | n + 1 =>
    Dbl.round (sumDiffs_neg_rounded p n + -Dbl.round (Dbl.fin (p n) - Dbl.fin (p (n + 1))))

/-- A history whose first three slots hold 3, 10^16 and 1. -/
def spikeTrack : Nat → ℚ := fun i =>
  match i with
  | 0 => 3
  | 1 => 10000000000000000
  | 2 => 1
  | _ => 0

/-- A history whose first three slots hold the doubles nearest to 0.3, 0.2
and 0.1. -/
def tenthsTrack : Nat → ℚ := fun i =>
  match i with
  | 0 => 5404319552844595 / 18014398509481984
  | 1 => 3602879701896397 / 18014398509481984
  | 2 => 3602879701896397 / 36028797018963968
  | _ => 0

/-- The double nearest to 0.1. -/
def tenth : ℚ := 3602879701896397 / 36028797018963968

/-- Steady readings with both position sensors returning the double nearest
to 0.1. -/
def envTenth : Env :=
  Env.steady 1 1 1 500 1000 50 (fun s =>
    match s with
    | Sensor.Position_X => tenth
    | Sensor.Position_Y => tenth
    | _ => 0)

/-- The angle is more than 1 degree off upright: the test
`Robust_Ang() > 1 && Robust_Ang() < 359` of the last statement of
`Lander_Control_M` (line 778). -/
def outsideUpright (a : Dbl) : Bool :=
  if Dbl.gt a (Dbl.fin 1) = true then Dbl.lt a (Dbl.fin 359) else false

section ActLemmas

variable {α β : Type}

@[simp] theorem pure_val (a : α) (r : Sensor → Nat) : ((pure a : Act α) r).val = a := rfl
@[simp] theorem pure_reads (a : α) (r : Sensor → Nat) : ((pure a : Act α) r).reads = r := rfl
@[simp] theorem pure_cmds (a : α) (r : Sensor → Nat) : ((pure a : Act α) r).cmds = [] := rfl

@[simp] theorem bind_val (x : Act α) (f : α → Act β) (r : Sensor → Nat) :
    ((x >>= f) r).val = (f (x r).val (x r).reads).val := rfl
@[simp] theorem bind_reads (x : Act α) (f : α → Act β) (r : Sensor → Nat) :
    ((x >>= f) r).reads = (f (x r).val (x r).reads).reads := rfl
@[simp] theorem bind_cmds (x : Act α) (f : α → Act β) (r : Sensor → Nat) :
    ((x >>= f) r).cmds = (x r).cmds ++ (f (x r).val (x r).reads).cmds := rfl

@[simp] theorem read_val (e : Env) (s : Sensor) (r : Sensor → Nat) :
    (Act.read e s r).val = Dbl.fin (e.sense s (r s)) := rfl
@[simp] theorem read_reads (e : Env) (s : Sensor) (r : Sensor → Nat) :
    (Act.read e s r).reads = Function.update r s (r s + 1) := rfl
@[simp] theorem read_cmds (e : Env) (s : Sensor) (r : Sensor → Nat) :
    (Act.read e s r).cmds = [] := rfl
@[simp] theorem emit_reads (c : Cmd) (r : Sensor → Nat) : (Act.emit c r).reads = r := rfl
@[simp] theorem emit_cmds (c : Cmd) (r : Sensor → Nat) : (Act.emit c r).cmds = [c] := rfl

theorem ite_apply_act (c : Prop) [Decidable c] (a b : Act α) (r : Sensor → Nat) :
    (if c then a else b) r = if c then a r else b r := by
  split <;> rfl

theorem Silent_pure (a : α) : Silent (pure a : Act α) := fun _ => rfl

theorem Silent_bind {x : Act α} {f : α → Act β} (hx : Silent x) (hf : ∀ a, Silent (f a)) :
    Silent (x >>= f) := by
  intro r
  simp [hx r, hf _ _]

theorem Silent_ite {c : Prop} [Decidable c] {a b : Act α} (ha : Silent a) (hb : Silent b) :
    Silent (if c then a else b) := by
  split <;> assumption

theorem Silent_read (e : Env) (s : Sensor) : Silent (Act.read e s) := fun _ => rfl

theorem Silent_issues {P : Cmd → Prop} {a : Act α} (h : Silent a) : Issues P a := by
  intro r c hc
  simp [h r] at hc

theorem Issues_pure (P : Cmd → Prop) (a : α) : Issues P (pure a : Act α) := by
  intro r c hc
  simp at hc

theorem Issues_bind {P : Cmd → Prop} {x : Act α} {f : α → Act β} (hx : Issues P x)
    (hf : ∀ a, Issues P (f a)) : Issues P (x >>= f) := by
  intro r c hc
  simp only [bind_cmds, List.mem_append] at hc
  rcases hc with hc | hc
  · exact hx r c hc
  · exact hf _ _ c hc

theorem Issues_ite {P : Cmd → Prop} {c : Prop} [Decidable c] {a b : Act α} (ha : Issues P a)
    (hb : Issues P b) : Issues P (if c then a else b) := by
  split <;> assumption

theorem Issues_emit {P : Cmd → Prop} {c : Cmd} (h : P c) : Issues P (Act.emit c) := by
  intro r d hd
  simp only [emit_cmds, List.mem_singleton] at hd
  exact hd ▸ h

theorem Skips_pure (s : Sensor) (a : α) : Skips s (pure a : Act α) := fun _ => rfl

theorem Skips_bind {s : Sensor} {x : Act α} {f : α → Act β} (hx : Skips s x)
    (hf : ∀ a, Skips s (f a)) : Skips s (x >>= f) := by
  intro r
  rw [bind_reads, hf, hx]

theorem Skips_ite {s : Sensor} {c : Prop} [Decidable c] {a b : Act α} (ha : Skips s a)
    (hb : Skips s b) : Skips s (if c then a else b) := by
  split <;> assumption

theorem Skips_emit (s : Sensor) (c : Cmd) : Skips s (Act.emit c) := fun _ => rfl

theorem Skips_read (e : Env) {s q : Sensor} (h : q ≠ s) : Skips s (Act.read e q) := by
  intro r
  simp [Function.update, h.symm]

end ActLemmas


/-! ## The monitor, the selection and the history update on the globals -/

theorem Faulty_Checker_acc (e : Env) (m : Mem) (r : Sensor → Nat) (q : Sensor) :
    (Faulty_Checker e m r).val.acc q = m.acc q := by
  unfold Faulty_Checker
  generalize Faulty_Checker_loop e m 25 ⟨0, 0, 0, 0, 0⟩ = x
  cases q <;> rfl

theorem Faulty_Checker_ok_cases (e : Env) (m : Mem) (r : Sensor → Nat) (q : Sensor) :
    (Faulty_Checker e m r).val.ok q = 0 ∨ (Faulty_Checker e m r).val.ok q = m.ok q := by
  unfold Faulty_Checker
  generalize Faulty_Checker_loop e m 25 ⟨0, 0, 0, 0, 0⟩ = x
  cases q <;> simp only [bind_val, pure_val, Mem.ok] <;> split_ifs <;> simp

theorem Faulty_Checker_ok_zero (e : Env) (m : Mem) (r : Sensor → Nat) (q : Sensor)
    (h : m.ok q = 0) : (Faulty_Checker e m r).val.ok q = 0 := by
  rcases Faulty_Checker_ok_cases e m r q with h1 | h1
  · exact h1
  · rw [h1, h]

theorem Setting_Up_Arrays_ok (e : Env) (m : Mem) (r : Sensor → Nat) (q : Sensor) :
    (Setting_Up_Arrays e m r).val.ok q = m.ok q := by
  unfold Setting_Up_Arrays
  generalize Setting_Up_Arrays_shift 21 (m.POS_X, m.POS_Y) = a
  generalize Setting_Up_Arrays_sum e _ 1000000 (Dbl.fin 0, Dbl.fin 0) = x
  cases q <;> rfl

theorem Setting_Up_Arrays_acc (e : Env) (m : Mem) (r : Sensor → Nat) (q : Sensor) :
    (Setting_Up_Arrays e m r).val.acc q = m.acc q := by
  unfold Setting_Up_Arrays
  generalize Setting_Up_Arrays_shift 21 (m.POS_X, m.POS_Y) = a
  generalize Setting_Up_Arrays_sum e _ 1000000 (Dbl.fin 0, Dbl.fin 0) = x
  cases q <;> rfl

theorem Sensor_Adjustment_ok (m : Mem) (q : Sensor) : (Sensor_Adjustment m).ok q = m.ok q := by
  cases q <;> rfl

theorem Sensor_Adjustment_acc (m : Mem) (q : Sensor) :
    (Sensor_Adjustment m).acc q =
      if q ≠ Sensor.Angle ∧ m.ok q = 0 then Acc.robust else m.acc q := by
  cases q <;> simp [Sensor_Adjustment, Mem.acc, Mem.ok]

theorem Lander_Control_ok (e : Env) (m : Mem) (r : Sensor → Nat) (q : Sensor) :
    (Lander_Control e m r).val.ok q = (Faulty_Checker e m r).val.ok q := by
  have hS := Setting_Up_Arrays_ok e
  unfold Lander_Control
  generalize Setting_Up_Arrays e = S at hS ⊢
  generalize Faulty_Checker e m = X
  generalize Lander_Control_M e = G1
  generalize Lander_Control_R e = G2
  generalize Lander_Control_L e = G3
  simp only [bind_val]
  rw [← Sensor_Adjustment_ok (X r).val q, ← hS (Sensor_Adjustment (X r).val) (X r).reads q]
  generalize S (Sensor_Adjustment (X r).val) (X r).reads = o2
  split_ifs <;> simp only [bind_val, pure_val] <;> cases q <;> simp only [Mem.ok]

theorem Lander_Control_acc (e : Env) (m : Mem) (r : Sensor → Nat) (q : Sensor) :
    (Lander_Control e m r).val.acc q = (Sensor_Adjustment (Faulty_Checker e m r).val).acc q := by
  have hS := Setting_Up_Arrays_acc e
  unfold Lander_Control
  generalize Setting_Up_Arrays e = S at hS ⊢
  generalize Faulty_Checker e m = X
  generalize Lander_Control_M e = G1
  generalize Lander_Control_R e = G2
  generalize Lander_Control_L e = G3
  simp only [bind_val]
  rw [← hS (Sensor_Adjustment (X r).val) (X r).reads q]
  generalize S (Sensor_Adjustment (X r).val) (X r).reads = o2
  split_ifs <;> simp only [bind_val, pure_val] <;> cases q <;> simp only [Mem.acc]

theorem step_Safety_Override_val (t : Tick) (m : Mem) (r : Sensor → Nat)
    (h : t.entry = Entry.Safety_Override) : (step t m r).val = m := by
  unfold step
  rw [h]
  generalize Safety_Override t.env m = x
  simp only [bind_val, pure_val]

theorem step_Lander_Control (t : Tick) (m : Mem) (h : t.entry = Entry.Lander_Control) :
    step t m = Lander_Control t.env m := by
  unfold step
  rw [h]

theorem run_cons (t : Tick) (ts : List Tick) (m : Mem) (r : Sensor → Nat) :
    run (t :: ts) m r =
      ⟨(run ts (step t m r).val (step t m r).reads).val,
       (run ts (step t m r).val (step t m r).reads).reads,
       (step t m r).cmds ++ (run ts (step t m r).val (step t m r).reads).cmds⟩ := by
  rw [run]
  generalize step t m = x
  rfl

theorem step_ok_zero (t : Tick) (m : Mem) (r : Sensor → Nat) (q : Sensor) (h : m.ok q = 0) :
    (step t m r).val.ok q = 0 := by
  cases ht : t.entry with
  | Lander_Control =>
    rw [step_Lander_Control t m ht, Lander_Control_ok]
    exact Faulty_Checker_ok_zero _ m r q h
  | Safety_Override => rw [step_Safety_Override_val t m r ht]; exact h

theorem step_acc_robust (t : Tick) (m : Mem) (r : Sensor → Nat) (q : Sensor)
    (h : m.acc q = Acc.robust) : (step t m r).val.acc q = Acc.robust := by
  cases ht : t.entry with
  | Lander_Control =>
    rw [step_Lander_Control t m ht, Lander_Control_acc, Sensor_Adjustment_acc]
    split
    · rfl
    · rw [Faulty_Checker_acc]; exact h
  | Safety_Override => rw [step_Safety_Override_val t m r ht]; exact h

theorem Tracks_init : Tracks Mem.init := by
  simp [Tracks, Mem.init]

theorem Tracks_Sensor_Adjustment_Faulty_Checker (e : Env) (m : Mem) (r : Sensor → Nat)
    (h : Tracks m) : Tracks (Sensor_Adjustment (Faulty_Checker e m r).val) := by
  have a1 := Faulty_Checker_acc e m r
  have o1 := Faulty_Checker_ok_cases e m r
  generalize (Faulty_Checker e m r).val = m1 at a1 o1
  have a2 := Sensor_Adjustment_acc m1
  have o2 := Sensor_Adjustment_ok m1
  generalize Sensor_Adjustment m1 = m2 at a2 o2
  obtain ⟨h1, h2, h3, h4⟩ := h
  refine ⟨?_, ?_, ?_, ?_⟩
  · have a := a2 Sensor.Velocity_X; have b := o2 Sensor.Velocity_X
    have c := a1 Sensor.Velocity_X; have d := o1 Sensor.Velocity_X
    simp only [Mem.acc, Mem.ok] at a b c d
    rw [a, b, c]
    rcases d with d | d
    · simp [d]
    · simp only [ne_eq, not_false_eq_true, true_and, d]; split <;> simp_all
  · have a := a2 Sensor.Velocity_Y; have b := o2 Sensor.Velocity_Y
    have c := a1 Sensor.Velocity_Y; have d := o1 Sensor.Velocity_Y
    simp only [Mem.acc, Mem.ok] at a b c d
    rw [a, b, c]
    rcases d with d | d
    · simp [d]
    · simp only [ne_eq, not_false_eq_true, true_and, d]; split <;> simp_all
  · have a := a2 Sensor.Position_X; have b := o2 Sensor.Position_X
    have c := a1 Sensor.Position_X; have d := o1 Sensor.Position_X
    simp only [Mem.acc, Mem.ok] at a b c d
    rw [a, b, c]
    rcases d with d | d
    · simp [d]
    · simp only [ne_eq, not_false_eq_true, true_and, d]; split <;> simp_all
  · have a := a2 Sensor.Position_Y; have b := o2 Sensor.Position_Y
    have c := a1 Sensor.Position_Y; have d := o1 Sensor.Position_Y
    simp only [Mem.acc, Mem.ok] at a b c d
    rw [a, b, c]
    rcases d with d | d
    · simp [d]
    · simp only [ne_eq, not_false_eq_true, true_and, d]; split <;> simp_all


/-! ## The 25 trials of `Faulty_Checker` -/

/-- One test of the loop body: the flag, then two calls of the sensor. -/
theorem Faulty_Checker_body_step (e : Env) (ok : Int) (s : Sensor) (f : Dbl → Dbl → Bool)
    (r : Sensor → Nat) :
    cand (pure (decide (ok ≠ 0)))
        (Act.read e s >>= fun a => Act.read e s >>= fun b => pure (f a b)) r =
      ⟨decide (ok ≠ 0) && f (Dbl.fin (e.sense s (r s))) (Dbl.fin (e.sense s (r s + 1))),
       if ok ≠ 0 then Function.update r s (r s + 2) else r, []⟩ := by
  by_cases h : ok = 0
  · simp [cand, h, bind, Act.seq, pure, Act.ret]
  · simp [cand, h, bind, Act.seq, pure, Act.ret, Act.read]

theorem Faulty_Checker_body_get (e : Env) (m : Mem) (c : Faulty) (r : Sensor → Nat) (q : Sensor) :
    (Faulty_Checker_body e m c r).val.get q =
      c.get q + (if m.ok q ≠ 0 ∧
        Faulty_Checker_test q (Dbl.fin (e.sense q (r q))) (Dbl.fin (e.sense q (r q + 1))) = true
        then 1 else 0) := by
  unfold Faulty_Checker_body Position_X Position_Y Velocity_X Velocity_Y Angle
  simp only [bind_val, bind_reads, Faulty_Checker_body_step, pure_val]
  cases q
  all_goals simp only [Faulty.get, Mem.ok, Faulty_Checker_test]
  all_goals split_ifs <;> simp_all [Function.update]


theorem Faulty_Checker_body_reads (e : Env) (m : Mem) (c : Faulty) (r : Sensor → Nat)
    (q : Sensor) :
    (Faulty_Checker_body e m c r).reads q = if m.ok q ≠ 0 then r q + 2 else r q := by
  unfold Faulty_Checker_body Position_X Position_Y Velocity_X Velocity_Y Angle
  simp only [bind_val, bind_reads, Faulty_Checker_body_step, pure_reads]
  by_cases h1 : m.POSITION_X_OK = 0 <;> by_cases h2 : m.POSITION_Y_OK = 0 <;>
    by_cases h3 : m.VELOCITY_X_OK = 0 <;> by_cases h4 : m.VELOCITY_Y_OK = 0 <;>
    by_cases h5 : m.ANGLE_OK = 0 <;> cases q <;>
    simp [h1, h2, h3, h4, h5, Mem.ok, Function.update]

theorem Faulty_Checker_body_cmds (e : Env) (m : Mem) (c : Faulty) (r : Sensor → Nat) :
    (Faulty_Checker_body e m c r).cmds = [] := by
  unfold Faulty_Checker_body Position_X Position_Y Velocity_X Velocity_Y Angle
  simp only [bind_val, bind_reads, bind_cmds, Faulty_Checker_body_step, pure_cmds,
    List.append_nil]

theorem Faulty_Checker_loop_succ (e : Env) (m : Mem) (n : Nat) (c : Faulty) (r : Sensor → Nat) :
    Faulty_Checker_loop e m (n + 1) c r =
      ⟨(Faulty_Checker_loop e m n (Faulty_Checker_body e m c r).val
          (Faulty_Checker_body e m c r).reads).val,
       (Faulty_Checker_loop e m n (Faulty_Checker_body e m c r).val
          (Faulty_Checker_body e m c r).reads).reads,
       (Faulty_Checker_body e m c r).cmds ++
         (Faulty_Checker_loop e m n (Faulty_Checker_body e m c r).val
          (Faulty_Checker_body e m c r).reads).cmds⟩ := by
  rw [Faulty_Checker_loop]
  generalize Faulty_Checker_body e m c = x
  rfl

theorem Faulty_Checker_loop_get (e : Env) (m : Mem) (q : Sensor) (n : Nat) (c : Faulty)
    (r : Sensor → Nat) :
    (Faulty_Checker_loop e m n c r).val.get q =
      c.get q + (if m.ok q ≠ 0 then hits e q (r q) n else 0) := by
  induction n generalizing c r with
  | zero => simp [Faulty_Checker_loop, hits]
  | succ n ih =>
    rw [Faulty_Checker_loop_succ]
    simp only [ih, Faulty_Checker_body_get, Faulty_Checker_body_reads, hits]
    split_ifs
    all_goals simp_all
    all_goals ring

theorem Faulty_Checker_loop_reads (e : Env) (m : Mem) (q : Sensor) (n : Nat) (c : Faulty)
    (r : Sensor → Nat) :
    (Faulty_Checker_loop e m n c r).reads q = if m.ok q ≠ 0 then r q + 2 * n else r q := by
  induction n generalizing c r with
  | zero => simp [Faulty_Checker_loop]
  | succ n ih =>
    rw [Faulty_Checker_loop_succ]
    simp only [ih, Faulty_Checker_body_reads]
    split_ifs <;> ring

theorem Faulty_Checker_loop_cmds (e : Env) (m : Mem) (n : Nat) (c : Faulty)
    (r : Sensor → Nat) : (Faulty_Checker_loop e m n c r).cmds = [] := by
  induction n generalizing c r with
  | zero => rfl
  | succ n ih =>
    rw [Faulty_Checker_loop_succ]
    simp only [ih, Faulty_Checker_body_cmds, List.append_nil]

/-- The flag of `q` after `Faulty_Checker`, from the number of firing trials. -/
theorem Faulty_Checker_ok (e : Env) (m : Mem) (r : Sensor → Nat) (q : Sensor) :
    (Faulty_Checker e m r).val.ok q =
      if m.ok q ≠ 0 ∧ 1 ≤ hits e q (r q) 25 then 0 else m.ok q := by
  have h := Faulty_Checker_loop_get e m q 25 ⟨0, 0, 0, 0, 0⟩ r
  unfold Faulty_Checker
  generalize Faulty_Checker_loop e m 25 ⟨0, 0, 0, 0, 0⟩ = x at h ⊢
  generalize hits e q (r q) 25 = k at h ⊢
  simp only [bind_val, pure_val]
  cases q <;> simp only [Mem.ok, Faulty.get, AMOUNT_OF_FAULTY] at h ⊢ <;> rw [h] <;>
    split_ifs <;> simp_all

theorem Faulty_Checker_reads (e : Env) (m : Mem) (r : Sensor → Nat) (q : Sensor) :
    (Faulty_Checker e m r).reads q = if m.ok q ≠ 0 then r q + 50 else r q := by
  have h := Faulty_Checker_loop_reads e m q 25 ⟨0, 0, 0, 0, 0⟩ r
  unfold Faulty_Checker
  generalize Faulty_Checker_loop e m 25 ⟨0, 0, 0, 0, 0⟩ = x at h ⊢
  simp only [bind_reads, pure_reads]
  exact h

theorem Faulty_Checker_cmds (e : Env) (m : Mem) (r : Sensor → Nat) :
    (Faulty_Checker e m r).cmds = [] := by
  have h := Faulty_Checker_loop_cmds e m 25 ⟨0, 0, 0, 0, 0⟩ r
  unfold Faulty_Checker
  generalize Faulty_Checker_loop e m 25 ⟨0, 0, 0, 0, 0⟩ = x at h ⊢
  simp only [bind_cmds, pure_cmds, h, List.append_nil]

theorem hits_eq_zero (e : Env) (q : Sensor) (k n : Nat)
    (h : ∀ i, i < n →
      Faulty_Checker_test q (Dbl.fin (e.sense q (k + 2 * i))) (Dbl.fin (e.sense q (k + 2 * i + 1)))
        = false) :
    hits e q k n = 0 := by
  induction n generalizing k with
  | zero => simp [hits]
  | succ n ih =>
    rw [hits, ih (k + 2)]
    · have := h 0 (Nat.succ_pos n)
      simp only [Nat.mul_zero, Nat.add_zero] at this
      simp [this]
    · intro i hi
      have := h (i + 1) (Nat.succ_lt_succ hi)
      have e1 : k + 2 * (i + 1) = k + 2 + 2 * i := by ring
      rw [e1] at this
      exact this

theorem Dbl_fin_sub (a b : ℚ) : Dbl.fin a - Dbl.fin b = Dbl.fin (a - b) := by
  show Dbl.add (Dbl.fin a) (Dbl.neg (Dbl.fin b)) = _
  simp [Dbl.add, Dbl.neg, sub_eq_add_neg]

theorem Dbl_gt_fin (a b : ℚ) : Dbl.gt (Dbl.fin a) (Dbl.fin b) = decide (b < a) := rfl

theorem Dbl_fabs_fin (a : ℚ) : Dbl.fabs (Dbl.fin a) = Dbl.fin |a| := rfl

/-- Within the tolerance, the test of `Faulty_Checker` does not fire. -/
theorem Faulty_Checker_test_of_le (q : Sensor) (a b : ℚ) (h : |a - b| ≤ tol q) :
    Faulty_Checker_test q (Dbl.fin a) (Dbl.fin b) = false := by
  have h2 : a - b ≤ |a - b| := le_abs_self _
  cases q <;>
    simp only [Faulty_Checker_test, tol, Dbl_fin_sub, Dbl_fabs_fin, Dbl_gt_fin, EPSILON_POSITION_X,
      EPSILON_POSITION_Y, EPSILON_VELOCITY_X, EPSILON_VELOCITY_Y, EPSILON_ANGLE,
      decide_eq_false_iff_not, not_lt] at h ⊢ <;>
    linarith

theorem Faulty_Checker_clean (e : Env) (m : Mem) (r : Sensor → Nat) (q : Sensor)
    (h : CleanCall e m r q) : (Faulty_Checker e m r).val.ok q = m.ok q := by
  rw [Faulty_Checker_ok]
  by_cases h0 : m.ok q = 0
  · simp [h0]
  · rw [hits_eq_zero]
    · simp
    · intro i hi
      exact Faulty_Checker_test_of_le q _ _ (h h0 i hi)

theorem run_nil (m : Mem) (r : Sensor → Nat) : run [] m r = ⟨m, r, []⟩ := rfl

theorem Tracks_of_same {a b : Mem} (ho : ∀ q, a.ok q = b.ok q) (ha : ∀ q, a.acc q = b.acc q)
    (h : Tracks b) : Tracks a := by
  have o1 := ho Sensor.Velocity_X; have o2 := ho Sensor.Velocity_Y
  have o3 := ho Sensor.Position_X; have o4 := ho Sensor.Position_Y
  have a1 := ha Sensor.Velocity_X; have a2 := ha Sensor.Velocity_Y
  have a3 := ha Sensor.Position_X; have a4 := ha Sensor.Position_Y
  simp only [Mem.ok, Mem.acc] at o1 o2 o3 o4 a1 a2 a3 a4
  unfold Tracks at h ⊢
  rw [o1, o2, o3, o4, a1, a2, a3, a4]
  exact h

theorem Tracks_step (t : Tick) (m : Mem) (r : Sensor → Nat) (h : Tracks m) :
    Tracks (step t m r).val := by
  cases ht : t.entry with
  | Lander_Control =>
    rw [step_Lander_Control t m ht]
    refine Tracks_of_same (fun q => ?_) (fun q => ?_)
      (Tracks_Sensor_Adjustment_Faulty_Checker t.env m r h)
    · rw [Lander_Control_ok, Sensor_Adjustment_ok]
    · rw [Lander_Control_acc]
  | Safety_Override => rw [step_Safety_Override_val t m r ht]; exact h

theorem Tracks_run (ticks : List Tick) (m : Mem) (r : Sensor → Nat) (h : Tracks m) :
    Tracks (run ticks m r).val := by
  induction ticks generalizing m r with
  | nil => exact h
  | cons t ts ih =>
    rw [run_cons]
    exact ih _ _ (Tracks_step t m r h)

/-! ## What the accessors read and issue -/

theorem Silent_cand {a b : Act Bool} (ha : Silent a) (hb : Silent b) : Silent (cand a b) :=
  Silent_bind ha (fun _ => Silent_ite hb (Silent_pure _))

theorem Issues_cand {P : Cmd → Prop} {a b : Act Bool} (ha : Issues P a) (hb : Issues P b) :
    Issues P (cand a b) :=
  Issues_bind ha (fun _ => Issues_ite hb (Issues_pure _ _))

theorem Issues_cor {P : Cmd → Prop} {a b : Act Bool} (ha : Issues P a) (hb : Issues P b) :
    Issues P (cor a b) :=
  Issues_bind ha (fun _ => Issues_ite (Issues_pure _ _) hb)

theorem Skips_cand {s : Sensor} {a b : Act Bool} (ha : Skips s a) (hb : Skips s b) :
    Skips s (cand a b) :=
  Skips_bind ha (fun _ => Skips_ite hb (Skips_pure _ _))

theorem Skips_cor {s : Sensor} {a b : Act Bool} (ha : Skips s a) (hb : Skips s b) :
    Skips s (cor a b) :=
  Skips_bind ha (fun _ => Skips_ite (Skips_pure _ _) hb)

theorem Robust_Ang_silent (e : Env) : Silent (Robust_Ang e) := Silent_read e _

theorem Velocity_X_alt_silent (e : Env) (m : Mem) : Silent (Velocity_X_alt e m) := by
  unfold Velocity_X_alt; split
  · exact Silent_read e _
  · exact Silent_pure _

theorem Velocity_Y_alt_silent (e : Env) (m : Mem) : Silent (Velocity_Y_alt e m) := by
  unfold Velocity_Y_alt; split
  · exact Silent_read e _
  · exact Silent_pure _

theorem Position_X_alt_silent (e : Env) (m : Mem) : Silent (Position_X_alt e m) := by
  unfold Position_X_alt; split
  · exact Silent_read e _
  · exact Silent_bind (Velocity_X_alt_silent e m) (fun _ => Silent_pure _)

theorem Position_Y_alt_silent (e : Env) (m : Mem) : Silent (Position_Y_alt e m) := by
  unfold Position_Y_alt; split
  · exact Silent_read e _
  · exact Silent_bind (Velocity_Y_alt_silent e m) (fun _ => Silent_pure _)

theorem Robust_Ang_skips (e : Env) {q : Sensor} (hq : q ≠ Sensor.Angle) :
    Skips q (Robust_Ang e) := Skips_read e (Ne.symm hq)

theorem Velocity_X_alt_skips (e : Env) (m : Mem) {q : Sensor} (h : m.acc q = Acc.robust) :
    Skips q (Velocity_X_alt e m) := by
  unfold Velocity_X_alt; split
  · next h1 =>
    refine Skips_read e ?_
    rintro rfl
    simp [Mem.acc, h1] at h
  · exact Skips_pure _ _

theorem Velocity_Y_alt_skips (e : Env) (m : Mem) {q : Sensor} (h : m.acc q = Acc.robust) :
    Skips q (Velocity_Y_alt e m) := by
  unfold Velocity_Y_alt; split
  · next h1 =>
    refine Skips_read e ?_
    rintro rfl
    simp [Mem.acc, h1] at h
  · exact Skips_pure _ _

theorem Position_X_alt_skips (e : Env) (m : Mem) {q : Sensor} (h : m.acc q = Acc.robust) :
    Skips q (Position_X_alt e m) := by
  unfold Position_X_alt; split
  · next h1 =>
    refine Skips_read e ?_
    rintro rfl
    simp [Mem.acc, h1] at h
  · exact Skips_bind (Velocity_X_alt_skips e m h) (fun _ => Skips_pure _ _)

theorem Position_Y_alt_skips (e : Env) (m : Mem) {q : Sensor} (h : m.acc q = Acc.robust) :
    Skips q (Position_Y_alt e m) := by
  unfold Position_Y_alt; split
  · next h1 =>
    refine Skips_read e ?_
    rintro rfl
    simp [Mem.acc, h1] at h
  · exact Skips_bind (Velocity_Y_alt_skips e m h) (fun _ => Skips_pure _ _)

theorem acc_robust_ne_Angle {m : Mem} {q : Sensor} (h : m.acc q = Acc.robust) :
    q ≠ Sensor.Angle := by
  rintro rfl
  simp [Mem.acc] at h


theorem Robust_VX_silent (e : Env) (m : Mem) : Silent (Robust_VX e m) := Velocity_X_alt_silent e m
theorem Robust_VY_silent (e : Env) (m : Mem) : Silent (Robust_VY e m) := Velocity_Y_alt_silent e m
theorem Robust_PX_silent (e : Env) (m : Mem) : Silent (Robust_PX e m) := Position_X_alt_silent e m
theorem Robust_PY_silent (e : Env) (m : Mem) : Silent (Robust_PY e m) := Position_Y_alt_silent e m

theorem Robust_VX_skips (e : Env) (m : Mem) {q : Sensor} (h : m.acc q = Acc.robust) :
    Skips q (Robust_VX e m) := Velocity_X_alt_skips e m h
theorem Robust_VY_skips (e : Env) (m : Mem) {q : Sensor} (h : m.acc q = Acc.robust) :
    Skips q (Robust_VY e m) := Velocity_Y_alt_skips e m h
theorem Robust_PX_skips (e : Env) (m : Mem) {q : Sensor} (h : m.acc q = Acc.robust) :
    Skips q (Robust_PX e m) := Position_X_alt_skips e m h
theorem Robust_PY_skips (e : Env) (m : Mem) {q : Sensor} (h : m.acc q = Acc.robust) :
    Skips q (Robust_PY e m) := Position_Y_alt_skips e m h

theorem Main_Thruster_skips (q : Sensor) (p : Dbl) : Skips q (Main_Thruster p) := Skips_emit _ _
theorem Left_Thruster_skips (q : Sensor) (p : Dbl) : Skips q (Left_Thruster p) := Skips_emit _ _
theorem Right_Thruster_skips (q : Sensor) (p : Dbl) : Skips q (Right_Thruster p) := Skips_emit _ _
theorem Rotate_skips (q : Sensor) (a : Dbl) : Skips q (Rotate a) := Skips_emit _ _
theorem Robust_Rot_skips (q : Sensor) (a : Dbl) : Skips q (Robust_Rot a) := Skips_emit _ _

theorem Main_Thruster_issues {P : Cmd → Prop} (p : Dbl) (h : P (Cmd.thrust Thruster.Main p)) :
    Issues P (Main_Thruster p) := Issues_emit h
theorem Left_Thruster_issues {P : Cmd → Prop} (p : Dbl) (h : P (Cmd.thrust Thruster.Left p)) :
    Issues P (Left_Thruster p) := Issues_emit h
theorem Right_Thruster_issues {P : Cmd → Prop} (p : Dbl) (h : P (Cmd.thrust Thruster.Right p)) :
    Issues P (Right_Thruster p) := Issues_emit h
theorem Rotate_issues {P : Cmd → Prop} (a : Dbl) (h : P (Cmd.rotate a)) :
    Issues P (Rotate a) := Issues_emit h
theorem Robust_Rot_issues {P : Cmd → Prop} (a : Dbl) (h : P (Cmd.rotate a)) :
    Issues P (Robust_Rot a) := Issues_emit h

theorem sonar_scan_vx_issues {P : Cmd → Prop} (e : Env) {c : Act Bool} (hc : Issues P c)
    (i n : Nat) (s : Dbl × Int) : Issues P (sonar_scan_vx e c i n s) := by
  induction n generalizing i s with
  | zero => exact Issues_pure _ _
  | succ n ih =>
    rw [sonar_scan_vx]
    exact Issues_bind (Issues_cand (Issues_pure _ _) hc) (fun _ => Issues_ite (ih _ _) (ih _ _))

theorem sonar_scan_vx_skips {q : Sensor} (e : Env) {c : Act Bool} (hc : Skips q c)
    (i n : Nat) (s : Dbl × Int) : Skips q (sonar_scan_vx e c i n s) := by
  induction n generalizing i s with
  | zero => exact Skips_pure _ _
  | succ n ih =>
    rw [sonar_scan_vx]
    exact Skips_bind (Skips_cand (Skips_pure _ _) hc) (fun _ => Skips_ite (ih _ _) (ih _ _))

/-! ## The guidance and override variants -/

theorem Lander_Control_M_issues (e : Env) (m : Mem) (P : Cmd → Prop)
    (hT : ∀ p, P (Cmd.thrust Thruster.Main p)) (hR : ∀ a, P (Cmd.rotate a)) :
    Issues P (Lander_Control_M e m) := by
  unfold Lander_Control_M
  repeat' first
    | with_reducible intro _
    | dsimp only
    | with_reducible exact Issues_pure _ _
    | with_reducible exact Silent_issues (Robust_Ang_silent e)
    | with_reducible exact Silent_issues (Robust_VX_silent e m)
    | with_reducible exact Silent_issues (Robust_VY_silent e m)
    | with_reducible exact Silent_issues (Robust_PX_silent e m)
    | with_reducible exact Silent_issues (Robust_PY_silent e m)
    | with_reducible exact Main_Thruster_issues _ (hT _)
    | with_reducible exact Robust_Rot_issues _ (hR _)
    | with_reducible apply Issues_bind
    | with_reducible apply Issues_ite
    | with_reducible apply Issues_cand
    | with_reducible apply Issues_cor

theorem Lander_Control_M_skips (e : Env) (m : Mem) {q : Sensor} (h : m.acc q = Acc.robust) :
    Skips q (Lander_Control_M e m) := by
  have hA := acc_robust_ne_Angle h
  unfold Lander_Control_M
  repeat' first
    | with_reducible intro _
    | dsimp only
    | with_reducible exact Skips_pure _ _
    | with_reducible exact Robust_Ang_skips e hA
    | with_reducible exact Robust_VX_skips e m h
    | with_reducible exact Robust_VY_skips e m h
    | with_reducible exact Robust_PX_skips e m h
    | with_reducible exact Robust_PY_skips e m h
    | with_reducible exact Main_Thruster_skips _ _
    | with_reducible exact Robust_Rot_skips _ _
    | with_reducible apply Skips_bind
    | with_reducible apply Skips_ite
    | with_reducible apply Skips_cand
    | with_reducible apply Skips_cor

theorem Lander_Control_R_issues (e : Env) (m : Mem) (P : Cmd → Prop)
    (hT : ∀ p, P (Cmd.thrust Thruster.Right p)) (hR : ∀ a, P (Cmd.rotate a)) :
    Issues P (Lander_Control_R e m) := by
  unfold Lander_Control_R
  repeat' first
    | with_reducible intro _
    | dsimp only
    | with_reducible exact Issues_pure _ _
    | with_reducible exact Silent_issues (Robust_Ang_silent e)
    | with_reducible exact Silent_issues (Robust_VX_silent e m)
    | with_reducible exact Silent_issues (Robust_VY_silent e m)
    | with_reducible exact Silent_issues (Robust_PX_silent e m)
    | with_reducible exact Silent_issues (Robust_PY_silent e m)
    | with_reducible exact Right_Thruster_issues _ (hT _)
    | with_reducible exact Robust_Rot_issues _ (hR _)
    | with_reducible apply Issues_bind
    | with_reducible apply Issues_ite
    | with_reducible apply Issues_cand
    | with_reducible apply Issues_cor

theorem Lander_Control_R_skips (e : Env) (m : Mem) {q : Sensor} (h : m.acc q = Acc.robust) :
    Skips q (Lander_Control_R e m) := by
  have hA := acc_robust_ne_Angle h
  unfold Lander_Control_R
  repeat' first
    | with_reducible intro _
    | dsimp only
    | with_reducible exact Skips_pure _ _
    | with_reducible exact Robust_Ang_skips e hA
    | with_reducible exact Robust_VX_skips e m h
    | with_reducible exact Robust_VY_skips e m h
    | with_reducible exact Robust_PX_skips e m h
    | with_reducible exact Robust_PY_skips e m h
    | with_reducible exact Right_Thruster_skips _ _
    | with_reducible exact Robust_Rot_skips _ _
    | with_reducible apply Skips_bind
    | with_reducible apply Skips_ite
    | with_reducible apply Skips_cand
    | with_reducible apply Skips_cor

theorem Lander_Control_L_issues (e : Env) (m : Mem) (P : Cmd → Prop)
    (hT : ∀ p, P (Cmd.thrust Thruster.Left p)) (hR : ∀ a, P (Cmd.rotate a)) :
    Issues P (Lander_Control_L e m) := by
  unfold Lander_Control_L
  repeat' first
    | with_reducible intro _
    | dsimp only
    | with_reducible exact Issues_pure _ _
    | with_reducible exact Silent_issues (Robust_Ang_silent e)
    | with_reducible exact Silent_issues (Robust_VX_silent e m)
    | with_reducible exact Silent_issues (Robust_VY_silent e m)
    | with_reducible exact Silent_issues (Robust_PX_silent e m)
    | with_reducible exact Silent_issues (Robust_PY_silent e m)
    | with_reducible exact Left_Thruster_issues _ (hT _)
    | with_reducible exact Robust_Rot_issues _ (hR _)
    | with_reducible apply Issues_bind
    | with_reducible apply Issues_ite
    | with_reducible apply Issues_cand
    | with_reducible apply Issues_cor

theorem Lander_Control_L_skips (e : Env) (m : Mem) {q : Sensor} (h : m.acc q = Acc.robust) :
    Skips q (Lander_Control_L e m) := by
  have hA := acc_robust_ne_Angle h
  unfold Lander_Control_L
  repeat' first
    | with_reducible intro _
    | dsimp only
    | with_reducible exact Skips_pure _ _
    | with_reducible exact Robust_Ang_skips e hA
    | with_reducible exact Robust_VX_skips e m h
    | with_reducible exact Robust_VY_skips e m h
    | with_reducible exact Robust_PX_skips e m h
    | with_reducible exact Robust_PY_skips e m h
    | with_reducible exact Left_Thruster_skips _ _
    | with_reducible exact Robust_Rot_skips _ _
    | with_reducible apply Skips_bind
    | with_reducible apply Skips_ite
    | with_reducible apply Skips_cand
    | with_reducible apply Skips_cor

theorem Safety_Override_M_issues (e : Env) (m : Mem) (P : Cmd → Prop)
    (hT : ∀ p, P (Cmd.thrust Thruster.Main p)) (hR : ∀ a, P (Cmd.rotate a)) :
    Issues P (Safety_Override_M e m) := by
  unfold Safety_Override_M
  repeat' first
    | with_reducible intro _
    | dsimp only
    | with_reducible exact Issues_pure _ _
    | with_reducible exact Silent_issues (Robust_Ang_silent e)
    | with_reducible exact Silent_issues (Robust_VX_silent e m)
    | with_reducible exact Silent_issues (Robust_VY_silent e m)
    | with_reducible exact Silent_issues (Robust_PX_silent e m)
    | with_reducible exact Silent_issues (Robust_PY_silent e m)
    | with_reducible exact Main_Thruster_issues _ (hT _)
    | with_reducible exact Rotate_issues _ (hR _)
    | with_reducible exact Robust_Rot_issues _ (hR _)
    | with_reducible apply Issues_bind
    | with_reducible apply Issues_ite
    | with_reducible apply Issues_cand

theorem Safety_Override_M_skips (e : Env) (m : Mem) {q : Sensor} (h : m.acc q = Acc.robust) :
    Skips q (Safety_Override_M e m) := by
  have hA := acc_robust_ne_Angle h
  unfold Safety_Override_M
  repeat' first
    | with_reducible intro _
    | dsimp only
    | with_reducible exact Skips_pure _ _
    | with_reducible exact Robust_Ang_skips e hA
    | with_reducible exact Robust_VX_skips e m h
    | with_reducible exact Robust_VY_skips e m h
    | with_reducible exact Robust_PX_skips e m h
    | with_reducible exact Robust_PY_skips e m h
    | with_reducible exact Main_Thruster_skips _ _
    | with_reducible exact Rotate_skips _ _
    | with_reducible exact Robust_Rot_skips _ _
    | with_reducible apply Skips_bind
    | with_reducible apply Skips_ite
    | with_reducible apply Skips_cand

theorem Safety_Override_R_issues (e : Env) (m : Mem) (P : Cmd → Prop)
    (hT : ∀ p, P (Cmd.thrust Thruster.Right p)) (hR : ∀ a, P (Cmd.rotate a)) :
    Issues P (Safety_Override_R e m) := by
  unfold Safety_Override_R
  repeat' first
    | with_reducible intro _
    | dsimp only
    | with_reducible exact Issues_pure _ _
    | with_reducible exact Silent_issues (Robust_Ang_silent e)
    | with_reducible exact Silent_issues (Robust_VX_silent e m)
    | with_reducible exact Silent_issues (Robust_VY_silent e m)
    | with_reducible exact Silent_issues (Robust_PX_silent e m)
    | with_reducible exact Silent_issues (Robust_PY_silent e m)
    | with_reducible exact Right_Thruster_issues _ (hT _)
    | with_reducible exact Rotate_issues _ (hR _)
    | with_reducible exact Robust_Rot_issues _ (hR _)
    | with_reducible apply sonar_scan_vx_issues
    | with_reducible apply Issues_bind
    | with_reducible apply Issues_ite
    | with_reducible apply Issues_cand
    | with_reducible apply Issues_cor

theorem Safety_Override_R_skips (e : Env) (m : Mem) {q : Sensor} (h : m.acc q = Acc.robust) :
    Skips q (Safety_Override_R e m) := by
  have hA := acc_robust_ne_Angle h
  unfold Safety_Override_R
  repeat' first
    | with_reducible intro _
    | dsimp only
    | with_reducible exact Skips_pure _ _
    | with_reducible exact Robust_Ang_skips e hA
    | with_reducible exact Robust_VX_skips e m h
    | with_reducible exact Robust_VY_skips e m h
    | with_reducible exact Robust_PX_skips e m h
    | with_reducible exact Robust_PY_skips e m h
    | with_reducible exact Right_Thruster_skips _ _
    | with_reducible exact Rotate_skips _ _
    | with_reducible exact Robust_Rot_skips _ _
    | with_reducible apply sonar_scan_vx_skips
    | with_reducible apply Skips_bind
    | with_reducible apply Skips_ite
    | with_reducible apply Skips_cand
    | with_reducible apply Skips_cor

theorem Safety_Override_L_issues (e : Env) (m : Mem) (P : Cmd → Prop)
    (hT : ∀ p, P (Cmd.thrust Thruster.Left p)) (hR : ∀ a, P (Cmd.rotate a)) :
    Issues P (Safety_Override_L e m) := by
  unfold Safety_Override_L
  repeat' first
    | with_reducible intro _
    | dsimp only
    | with_reducible exact Issues_pure _ _
    | with_reducible exact Silent_issues (Robust_Ang_silent e)
    | with_reducible exact Silent_issues (Robust_VX_silent e m)
    | with_reducible exact Silent_issues (Robust_VY_silent e m)
    | with_reducible exact Silent_issues (Robust_PX_silent e m)
    | with_reducible exact Silent_issues (Robust_PY_silent e m)
    | with_reducible exact Left_Thruster_issues _ (hT _)
    | with_reducible exact Rotate_issues _ (hR _)
    | with_reducible exact Robust_Rot_issues _ (hR _)
    | with_reducible apply sonar_scan_vx_issues
    | with_reducible apply Issues_bind
    | with_reducible apply Issues_ite
    | with_reducible apply Issues_cand
    | with_reducible apply Issues_cor

theorem Safety_Override_L_skips (e : Env) (m : Mem) {q : Sensor} (h : m.acc q = Acc.robust) :
    Skips q (Safety_Override_L e m) := by
  have hA := acc_robust_ne_Angle h
  unfold Safety_Override_L
  repeat' first
    | with_reducible intro _
    | dsimp only
    | with_reducible exact Skips_pure _ _
    | with_reducible exact Robust_Ang_skips e hA
    | with_reducible exact Robust_VX_skips e m h
    | with_reducible exact Robust_VY_skips e m h
    | with_reducible exact Robust_PX_skips e m h
    | with_reducible exact Robust_PY_skips e m h
    | with_reducible exact Left_Thruster_skips _ _
    | with_reducible exact Rotate_skips _ _
    | with_reducible exact Robust_Rot_skips _ _
    | with_reducible apply sonar_scan_vx_skips
    | with_reducible apply Skips_bind
    | with_reducible apply Skips_ite
    | with_reducible apply Skips_cand
    | with_reducible apply Skips_cor


/-! ## The entry points -/

theorem Setting_Up_Arrays_sum_silent (e : Env) (m : Mem) (n : Nat) (s : Dbl × Dbl) :
    Silent (Setting_Up_Arrays_sum e m n s) := by
  induction n generalizing s with
  | zero => exact Silent_pure _
  | succ n ih =>
    rw [Setting_Up_Arrays_sum]
    exact Silent_bind (Position_X_alt_silent e m)
      (fun _ => Silent_bind (Position_Y_alt_silent e m) (fun _ => ih _))

theorem Setting_Up_Arrays_sum_skips (e : Env) (m : Mem) {q : Sensor} (h : m.acc q = Acc.robust)
    (n : Nat) (s : Dbl × Dbl) : Skips q (Setting_Up_Arrays_sum e m n s) := by
  induction n generalizing s with
  | zero => exact Skips_pure _ _
  | succ n ih =>
    rw [Setting_Up_Arrays_sum]
    exact Skips_bind (Position_X_alt_skips e m h)
      (fun _ => Skips_bind (Position_Y_alt_skips e m h) (fun _ => ih _))

theorem Setting_Up_Arrays_silent (e : Env) (m : Mem) : Silent (Setting_Up_Arrays e m) := by
  unfold Setting_Up_Arrays
  exact Silent_bind (Setting_Up_Arrays_sum_silent e _ _ _) (fun _ => Silent_pure _)

theorem Setting_Up_Arrays_skips (e : Env) (m : Mem) {q : Sensor} (h : m.acc q = Acc.robust) :
    Skips q (Setting_Up_Arrays e m) := by
  unfold Setting_Up_Arrays
  refine Skips_bind (Setting_Up_Arrays_sum_skips e _ ?_ _ _) (fun _ => Skips_pure _ _)
  generalize Setting_Up_Arrays_shift 21 (m.POS_X, m.POS_Y) = a
  cases q <;> exact h

theorem Faulty_Checker_silent (e : Env) (m : Mem) : Silent (Faulty_Checker e m) :=
  fun r => Faulty_Checker_cmds e m r

theorem Faulty_Checker_skips (e : Env) (m : Mem) {q : Sensor} (h : m.ok q = 0) :
    Skips q (Faulty_Checker e m) := by
  intro r
  rw [Faulty_Checker_reads]
  simp [h]

/-- Sequencing when what follows is only known for the values the first part
can return. -/
theorem Skips_bind_val {α β : Type} {s : Sensor} {x : Act α} {f : α → Act β} (Q : α → Prop)
    (hx : Skips s x) (hv : ∀ r, Q (x r).val) (hf : ∀ a, Q a → Skips s (f a)) :
    Skips s (x >>= f) := by
  intro r
  rw [bind_reads, hf _ (hv r), hx]

theorem Issues_ite_of {α : Type} {P : Cmd → Prop} {c : Prop} [Decidable c] {a b : Act α}
    (ha : c → Issues P a) (hb : ¬c → Issues P b) : Issues P (if c then a else b) := by
  split
  · exact ha ‹_›
  · exact hb ‹_›

theorem Lander_Control_issues (e : Env) (m : Mem) : Issues (Cmd.healthy e) (Lander_Control e m) := by
  have hX := Faulty_Checker_silent e m
  have hS := Setting_Up_Arrays_silent e
  have h1 : e.MT_OK ≠ 0 → ∀ m, Issues (Cmd.healthy e) (Lander_Control_M e m) :=
    fun h m => Lander_Control_M_issues e m _ (fun _ => h) (fun _ => trivial)
  have h2 : e.RT_OK ≠ 0 → ∀ m, Issues (Cmd.healthy e) (Lander_Control_R e m) :=
    fun h m => Lander_Control_R_issues e m _ (fun _ => h) (fun _ => trivial)
  have h3 : e.LT_OK ≠ 0 → ∀ m, Issues (Cmd.healthy e) (Lander_Control_L e m) :=
    fun h m => Lander_Control_L_issues e m _ (fun _ => h) (fun _ => trivial)
  unfold Lander_Control
  generalize Setting_Up_Arrays e = S at hS ⊢
  generalize Faulty_Checker e m = X at hX ⊢
  generalize Lander_Control_M e = G1 at h1 ⊢
  generalize Lander_Control_R e = G2 at h2 ⊢
  generalize Lander_Control_L e = G3 at h3 ⊢
  refine Issues_bind (Silent_issues hX) (fun m1 => ?_)
  refine Issues_bind (Silent_issues (hS _)) (fun m2 => ?_)
  dsimp only
  refine Issues_ite_of (fun c1 => Issues_bind (h1 c1 _) (fun _ => Issues_pure _ _)) (fun _ => ?_)
  refine Issues_ite_of (fun c2 => Issues_bind (h2 c2 _) (fun _ => Issues_pure _ _)) (fun _ => ?_)
  exact Issues_ite_of (fun c3 => Issues_bind (h3 c3 _) (fun _ => Issues_pure _ _))
    (fun _ => Issues_bind (Issues_pure _ _) (fun _ => Issues_pure _ _))

theorem Safety_Override_issues (e : Env) (m : Mem) :
    Issues (Cmd.healthy e) (Safety_Override e m) := by
  unfold Safety_Override
  split_ifs with c1 c2 c3
  · exact Safety_Override_M_issues e m _ (fun _ => c1) (fun _ => trivial)
  · exact Safety_Override_R_issues e m _ (fun _ => c2) (fun _ => trivial)
  · exact Safety_Override_L_issues e m _ (fun _ => c3) (fun _ => trivial)
  · exact Issues_pure _ _

theorem Safety_Override_skips (e : Env) (m : Mem) {q : Sensor} (h : m.acc q = Acc.robust) :
    Skips q (Safety_Override e m) := by
  unfold Safety_Override
  split_ifs
  · exact Safety_Override_M_skips e m h
  · exact Safety_Override_R_skips e m h
  · exact Safety_Override_L_skips e m h
  · exact Skips_pure _ _

theorem acc_report_flags (m : Mem) (a b c d f : Int) (q : Sensor) :
    Mem.acc { m with FLAGPOSX := a, FLAGPOSY := b, FLAGVELOX := c, FLAGVELOY := d, FLAGANGLE := f } q
      = m.acc q := by
  cases q <;> rfl

theorem Lander_Control_skips (e : Env) (m : Mem) {q : Sensor} (hq : q ≠ Sensor.Angle)
    (h : m.ok q = 0) : Skips q (Lander_Control e m) := by
  have hX := Faulty_Checker_skips e m h
  have hXv : ∀ r, (Sensor_Adjustment (Faulty_Checker e m r).val).acc q = Acc.robust := by
    intro r
    rw [Sensor_Adjustment_acc, if_pos ⟨hq, Faulty_Checker_ok_zero e m r q h⟩]
  have hS := fun m1 (h1 : m1.acc q = Acc.robust) => Setting_Up_Arrays_skips e m1 h1
  have hSv := Setting_Up_Arrays_acc e
  have h1 := fun m1 (h : m1.acc q = Acc.robust) => Lander_Control_M_skips e m1 h
  have h2 := fun m1 (h : m1.acc q = Acc.robust) => Lander_Control_R_skips e m1 h
  have h3 := fun m1 (h : m1.acc q = Acc.robust) => Lander_Control_L_skips e m1 h
  unfold Lander_Control
  generalize Setting_Up_Arrays e = S at hS hSv ⊢
  generalize Faulty_Checker e m = X at hX hXv ⊢
  generalize Lander_Control_M e = G1 at h1 ⊢
  generalize Lander_Control_R e = G2 at h2 ⊢
  generalize Lander_Control_L e = G3 at h3 ⊢
  refine Skips_bind_val (fun m1 => (Sensor_Adjustment m1).acc q = Acc.robust) hX hXv
    (fun m1 hm1 => ?_)
  refine Skips_bind_val (fun m2 => m2.acc q = Acc.robust) (hS _ hm1)
    (fun r => (hSv _ r q).trans hm1) (fun m2 hm2 => ?_)
  have hm3 := fun a b c d f => (acc_report_flags m2 a b c d f q).trans hm2
  dsimp only
  exact Skips_ite (Skips_bind (h1 _ (hm3 _ _ _ _ _)) (fun _ => Skips_pure _ _))
    (Skips_ite (Skips_bind (h2 _ (hm3 _ _ _ _ _)) (fun _ => Skips_pure _ _))
      (Skips_ite (Skips_bind (h3 _ (hm3 _ _ _ _ _)) (fun _ => Skips_pure _ _))
        (Skips_bind (Skips_pure _ _) (fun _ => Skips_pure _ _))))

theorem step_skips (t : Tick) (m : Mem) {q : Sensor} (h : m.acc q = Acc.robust)
    (h0 : m.ok q = 0) : Skips q (step t m) := by
  cases ht : t.entry with
  | Lander_Control =>
    rw [step_Lander_Control t m ht]
    exact Lander_Control_skips t.env m (acc_robust_ne_Angle h) h0
  | Safety_Override =>
    unfold step
    rw [ht]
    exact Skips_bind (Safety_Override_skips t.env m h) (fun _ => Skips_pure _ _)

theorem run_skips (ticks : List Tick) (m : Mem) (r : Sensor → Nat) {q : Sensor}
    (h : m.acc q = Acc.robust) (h0 : m.ok q = 0) : (run ticks m r).reads q = r q := by
  induction ticks generalizing m r with
  | nil => rfl
  | cons t ts ih =>
    rw [run_cons]
    show (run ts (step t m r).val (step t m r).reads).reads q = r q
    rw [ih _ _ (step_acc_robust t m r q h) (step_ok_zero t m r q h0), step_skips t m h h0]

theorem Tracks_acc {m : Mem} (hT : Tracks m) {q : Sensor} (hq : q ≠ Sensor.Angle)
    (h0 : m.ok q = 0) : m.acc q = Acc.robust := by
  obtain ⟨h1, h2, h3, h4⟩ := hT
  cases q
  · exact h1.2 h0
  · exact h2.2 h0
  · exact h3.2 h0
  · exact h4.2 h0
  · exact absurd rfl hq


theorem Lander_Control_reads_after_monitor (e : Env) (m : Mem) (r : Sensor → Nat) {q : Sensor}
    (hq : q ≠ Sensor.Angle) (h : (Faulty_Checker e m r).val.ok q = 0) :
    (Lander_Control e m r).reads q = (Faulty_Checker e m r).reads q := by
  have hS := fun m1 (h1 : m1.acc q = Acc.robust) => Setting_Up_Arrays_skips e m1 h1
  have hSv := Setting_Up_Arrays_acc e
  have h1 := fun m1 (h : m1.acc q = Acc.robust) => Lander_Control_M_skips e m1 h
  have h2 := fun m1 (h : m1.acc q = Acc.robust) => Lander_Control_R_skips e m1 h
  have h3 := fun m1 (h : m1.acc q = Acc.robust) => Lander_Control_L_skips e m1 h
  unfold Lander_Control
  generalize Setting_Up_Arrays e = S at hS hSv ⊢
  generalize Faulty_Checker e m = X at h ⊢
  generalize Lander_Control_M e = G1 at h1 ⊢
  generalize Lander_Control_R e = G2 at h2 ⊢
  generalize Lander_Control_L e = G3 at h3 ⊢
  rw [bind_reads]
  have hm1 : (Sensor_Adjustment (X r).val).acc q = Acc.robust := by
    rw [Sensor_Adjustment_acc, if_pos ⟨hq, h⟩]
  generalize (X r).val = m1 at hm1 ⊢
  generalize (X r).reads = r1
  revert r1
  show Skips q _
  refine Skips_bind_val (fun m2 => m2.acc q = Acc.robust) (hS _ hm1)
    (fun r => (hSv _ r q).trans hm1) (fun m2 hm2 => ?_)
  have hm3 := fun a b c d f => (acc_report_flags m2 a b c d f q).trans hm2
  dsimp only
  exact Skips_ite (Skips_bind (h1 _ (hm3 _ _ _ _ _)) (fun _ => Skips_pure _ _))
    (Skips_ite (Skips_bind (h2 _ (hm3 _ _ _ _ _)) (fun _ => Skips_pure _ _))
      (Skips_ite (Skips_bind (h3 _ (hm3 _ _ _ _ _)) (fun _ => Skips_pure _ _))
        (Skips_bind (Skips_pure _ _) (fun _ => Skips_pure _ _))))

/-! ## `Act` is a lawful monad -/

theorem Act_pure_bind {α β : Type} (a : α) (f : α → Act β) : (pure a >>= f) = f a := by
  funext r
  show (⟨_, _, [] ++ _⟩ : Out β) = _
  rw [List.nil_append]
  rfl

theorem Act_bind_assoc {α β γ : Type} (x : Act α) (f : α → Act β) (g : β → Act γ) :
    (x >>= f >>= g) = (x >>= fun a => f a >>= g) := by
  funext r
  show (⟨_, _, ((x r).cmds ++ _) ++ _⟩ : Out γ) = ⟨_, _, (x r).cmds ++ (_ ++ _)⟩
  rw [List.append_assoc]
  rfl

theorem Lander_Control_eq (e : Env) (m : Mem) :
    Lander_Control e m =
      (Lander_Control_prologue e m >>= fun m1 =>
        (match SelectMode e with
          | some v => guidance v e m1
          | none => pure ()) >>= fun _ => pure m1) := by
  unfold Lander_Control Lander_Control_prologue SelectMode
  generalize Setting_Up_Arrays e = S
  generalize Faulty_Checker e m = X
  rw [Act_bind_assoc]
  congr 1
  funext m1
  dsimp only
  rw [Act_bind_assoc]
  congr 1
  funext m2
  rw [Act_pure_bind]
  split_ifs <;> rfl

theorem Safety_Override_eq (e : Env) (m : Mem) :
    Safety_Override e m =
      (match SelectMode e with
        | some v => override v e m
        | none => pure ()) := by
  unfold Safety_Override SelectMode
  split_ifs <;> rfl

/-! ### Steady readings and raw accessors -/

theorem Blind_pure {α : Type} (a : α) : Blind (pure a : Act α) := fun _ _ => ⟨rfl, rfl⟩

theorem Blind_bind {α β : Type} {x : Act α} {f : α → Act β} (hx : Blind x)
    (hf : ∀ a, Blind (f a)) : Blind (x >>= f) := by
  intro r r2
  obtain ⟨h1, h2⟩ := hx r r2
  simp only [bind_val, bind_cmds, h1, h2]
  exact ⟨(hf _ _ _).1, by rw [(hf _ _ _).2]⟩

theorem Blind_ite {α : Type} {c : Prop} [Decidable c] {a b : Act α} (ha : Blind a)
    (hb : Blind b) : Blind (if c then a else b) := by
  split <;> assumption

theorem Blind_emit (c : Cmd) : Blind (Act.emit c) := fun _ _ => ⟨rfl, rfl⟩

theorem Blind_read (e : Env) (he : e.Steady) (s : Sensor) : Blind (Act.read e s) := by
  intro r r2
  exact ⟨by rw [read_val, read_val, he s (r s) (r2 s)], rfl⟩

theorem Blind_cand {a b : Act Bool} (ha : Blind a) (hb : Blind b) : Blind (cand a b) :=
  Blind_bind ha (fun _ => Blind_ite hb (Blind_pure _))

theorem Blind_cor {a b : Act Bool} (ha : Blind a) (hb : Blind b) : Blind (cor a b) :=
  Blind_bind ha (fun _ => Blind_ite (Blind_pure _) hb)

theorem Robust_Ang_blind (e : Env) (he : e.Steady) : Blind (Robust_Ang e) := Blind_read e he _

theorem Robust_VX_blind (e : Env) (he : e.Steady) (m : Mem) : Blind (Robust_VX e m) := by
  unfold Robust_VX Velocity_X_alt; split
  · exact Blind_read e he _
  · exact Blind_pure _

theorem Robust_VY_blind (e : Env) (he : e.Steady) (m : Mem) : Blind (Robust_VY e m) := by
  unfold Robust_VY Velocity_Y_alt; split
  · exact Blind_read e he _
  · exact Blind_pure _

theorem Robust_PX_blind (e : Env) (he : e.Steady) (m : Mem) : Blind (Robust_PX e m) := by
  unfold Robust_PX Position_X_alt; split
  · exact Blind_read e he _
  · exact Blind_bind (Robust_VX_blind e he m) (fun _ => Blind_pure _)

theorem Robust_PY_blind (e : Env) (he : e.Steady) (m : Mem) : Blind (Robust_PY e m) := by
  unfold Robust_PY Position_Y_alt; split
  · exact Blind_read e he _
  · exact Blind_bind (Robust_VY_blind e he m) (fun _ => Blind_pure _)

theorem Right_Thruster_blind (p : Dbl) : Blind (Right_Thruster p) := Blind_emit _
theorem Robust_Rot_blind (a : Dbl) : Blind (Robust_Rot a) := Blind_emit _

theorem Lander_Control_R_blind (e : Env) (he : e.Steady) (m : Mem) :
    Blind (Lander_Control_R e m) := by
  unfold Lander_Control_R
  repeat' first
    | with_reducible intro _
    | dsimp only
    | with_reducible exact Blind_pure _
    | with_reducible exact Robust_Ang_blind e he
    | with_reducible exact Robust_VX_blind e he m
    | with_reducible exact Robust_VY_blind e he m
    | with_reducible exact Robust_PX_blind e he m
    | with_reducible exact Robust_PY_blind e he m
    | with_reducible exact Right_Thruster_blind _
    | with_reducible exact Robust_Rot_blind _
    | with_reducible apply Blind_bind
    | with_reducible apply Blind_ite
    | with_reducible apply Blind_cand
    | with_reducible apply Blind_cor

/-- With the four pointers on the raw sensors, the guidance variant R uses
nothing else of the globals. -/
theorem Lander_Control_R_of_raw (e : Env) (m : Mem) (h : ∀ q, m.acc q = Acc.raw) :
    Lander_Control_R e m = Lander_Control_R e Mem.init := by
  have h1 : Robust_VX e m = Robust_VX e Mem.init := by
    have := h Sensor.Velocity_X
    simp only [Mem.acc] at this
    simp only [Robust_VX, Velocity_X_alt, this, Mem.init]
  have h2 : Robust_VY e m = Robust_VY e Mem.init := by
    have := h Sensor.Velocity_Y
    simp only [Mem.acc] at this
    simp only [Robust_VY, Velocity_Y_alt, this, Mem.init]
  have h3 : Robust_PX e m = Robust_PX e Mem.init := by
    have := h Sensor.Position_X
    simp only [Mem.acc] at this
    simp only [Robust_PX, Position_X_alt, this, Mem.init]
  have h4 : Robust_PY e m = Robust_PY e Mem.init := by
    have := h Sensor.Position_Y
    simp only [Mem.acc] at this
    simp only [Robust_PY, Position_Y_alt, this, Mem.init]
  unfold Lander_Control_R
  rw [h1, h2, h3, h4]

theorem CleanCall_steady (e : Env) (he : e.Steady) (m : Mem) (r : Sensor → Nat) (q : Sensor) :
    CleanCall e m r q := by
  intro _ i _
  simp only [trial]
  rw [he q (r q + 2 * i) (r q + 2 * i + 1), sub_self, abs_zero]
  cases q <;> norm_num [tol]

theorem Lander_Control_prologue_silent (e : Env) (m : Mem) :
    Silent (Lander_Control_prologue e m) := by
  unfold Lander_Control_prologue
  exact Silent_bind (Faulty_Checker_silent e m)
    (fun _ => Silent_bind (Setting_Up_Arrays_silent e _) (fun _ => Silent_pure _))

theorem Lander_Control_prologue_acc (e : Env) (m : Mem) (r : Sensor → Nat) (q : Sensor) :
    (Lander_Control_prologue e m r).val.acc q
      = (Sensor_Adjustment (Faulty_Checker e m r).val).acc q := by
  have hS := Setting_Up_Arrays_acc e
  unfold Lander_Control_prologue
  generalize Setting_Up_Arrays e = S at hS ⊢
  generalize Faulty_Checker e m = X
  simp only [bind_val, pure_val]
  rw [← hS (Sensor_Adjustment (X r).val) (X r).reads q]
  generalize S (Sensor_Adjustment (X r).val) (X r).reads = o2
  cases q <;> simp only [Mem.acc]

/-- From the initial globals, a prologue whose monitor call is clean for every
quantity leaves the four pointers on the raw sensors. -/
theorem Lander_Control_prologue_raw (e : Env) (r : Sensor → Nat)
    (h : ∀ q, CleanCall e Mem.init r q) (q : Sensor) :
    (Lander_Control_prologue e Mem.init r).val.acc q = Acc.raw := by
  rw [Lander_Control_prologue_acc, Sensor_Adjustment_acc, Faulty_Checker_acc,
    Faulty_Checker_clean e Mem.init r q (h q)]
  cases q <;> simp [Mem.ok, Mem.acc, Mem.init]

/-- The commands of a `Lander_Control` call in right-only mode are those of
the variant R, run on what the prologue leaves. -/
theorem Lander_Control_cmds_R (e : Env) (m : Mem) (r : Sensor → Nat) (h1 : e.MT_OK = 0)
    (h2 : e.RT_OK ≠ 0) :
    (Lander_Control e m r).cmds =
      (Lander_Control_R e (Lander_Control_prologue e m r).val
        (Lander_Control_prologue e m r).reads).cmds := by
  have hs : SelectMode e = some Mode.R := by simp [SelectMode, h1, h2]
  have hP := Lander_Control_prologue_silent e m r
  rw [Lander_Control_eq, hs]
  generalize Lander_Control_prologue e m = X at hP ⊢
  simp only [bind_cmds, pure_cmds, hP, List.nil_append, List.append_nil, guidance]

/-! ### Facts used by the claims below -/

/-- Steady readings make a clean call. -/
theorem CleanCall_envCalm (m : Mem) (r : Sensor → Nat) (q : Sensor) : CleanCall envCalm m r q := by
  intro _ i _
  cases q <;> norm_num [trial, envCalm, Env.steady, atRest, tol]

/-! ## The estimators on buffers of numbers -/

theorem Dbl_fin_add (a b : ℚ) : Dbl.fin a + Dbl.fin b = Dbl.fin (a + b) := rfl

theorem Dbl_fin_neg (a : ℚ) : -Dbl.fin a = Dbl.fin (-a) := rfl

theorem Dbl_fin_mul (a b : ℚ) : Dbl.fin a * Dbl.fin b = Dbl.fin (a * b) := rfl

theorem Dbl_fin_div (a b : ℚ) (hb : b ≠ 0) : Dbl.fin a / Dbl.fin b = Dbl.fin (a / b) := by
  show Dbl.div _ _ = _
  simp [Dbl.div, hb]

theorem Dbl_eq_fin (a b : ℚ) : Dbl.eq (Dbl.fin a) (Dbl.fin b) = decide (a = b) := rfl

theorem Dbl_nan_div (x : Dbl) : Dbl.nan / x = Dbl.nan := by
  cases x <;> rfl

theorem Dbl_zero_div_zero : Dbl.fin 0 / Dbl.fin 0 = Dbl.nan := by
  show Dbl.div _ _ = _
  simp [Dbl.div]

theorem sumPairs_eq_zero (p : Nat → ℚ) (n : Nat) (h : validPairs p n = 0) : sumPairs p n = 0 := by
  induction n with
  | zero => rfl
  | succ n ih =>
    simp only [validPairs] at h
    have h1 : validPairs p n = 0 := by omega
    have h2 : ¬(p n ≠ 0 ∧ p (n + 1) ≠ 0) := by
      intro hv
      rw [if_pos hv] at h
      omega
    simp only [sumPairs, ih h1, if_neg h2, add_zero]

/-- The loop of `Robust_Velocity_X` over a buffer of numbers: the sum of the
differences of the valid pairs, and their count. -/
theorem Robust_Velocity_X_loop (A : Fin 22 → Dbl) (p : Nat → ℚ) (hA : Holds A p) (n : Nat)
    (hn : n ≤ 21) :
    (List.range n).foldl (fun (dc : Dbl × Dbl) i =>
      if Dbl.eq (at22 A i) (Dbl.fin 0) || Dbl.eq (at22 A (i + 1)) (Dbl.fin 0) then dc
      else (dc.1 + (at22 A i - at22 A (i + 1)), dc.2 + Dbl.fin 1)) (Dbl.fin 0, Dbl.fin 0)
      = (Dbl.fin (sumPairs p n), Dbl.fin (validPairs p n)) := by
  induction n with
  | zero => simp [sumPairs, validPairs]
  | succ n ih =>
    rw [List.range_succ, List.foldl_append, ih (by omega)]
    simp only [List.foldl_cons, List.foldl_nil, hA n (by omega), hA (n + 1) (by omega),
      Dbl_eq_fin, sumPairs, validPairs, Dbl_fin_sub, Dbl_fin_add]
    by_cases h1 : p n = 0 <;> by_cases h2 : p (n + 1) = 0 <;> simp [h1, h2]

/-- The loop of `Robust_Velocity_Y`: as for X, with every difference negated. -/
theorem Robust_Velocity_Y_loop (A : Fin 22 → Dbl) (p : Nat → ℚ) (hA : Holds A p) (n : Nat)
    (hn : n ≤ 21) :
    (List.range n).foldl (fun (dc : Dbl × Dbl) i =>
      if Dbl.eq (at22 A i) (Dbl.fin 0) || Dbl.eq (at22 A (i + 1)) (Dbl.fin 0) then dc
      else (dc.1 + -(at22 A i - at22 A (i + 1)), dc.2 + Dbl.fin 1)) (Dbl.fin 0, Dbl.fin 0)
      = (Dbl.fin (-sumPairs p n), Dbl.fin (validPairs p n)) := by
  induction n with
  | zero => simp [sumPairs, validPairs]
  | succ n ih =>
    rw [List.range_succ, List.foldl_append, ih (by omega)]
    simp only [List.foldl_cons, List.foldl_nil, hA n (by omega), hA (n + 1) (by omega),
      Dbl_eq_fin, sumPairs, validPairs, Dbl_fin_sub, Dbl_fin_add, Dbl_fin_neg]
    by_cases h1 : p n = 0
    · simp [h1]
    · by_cases h2 : p (n + 1) = 0
      · simp [h2]
      · simp only [h1, h2, decide_False, Bool.or_self, Bool.false_eq_true, if_false, ne_eq,
          not_false_eq_true, and_self, if_true, Nat.cast_add, Nat.cast_one, Prod.mk.injEq,
          Dbl.fin.injEq, and_true]
        ring

/-- The value of `Robust_Velocity_X` on a buffer of numbers. -/
theorem Robust_Velocity_X_eq (m : Mem) (p : Nat → ℚ) (hA : Holds m.POS_X p) :
    Robust_Velocity_X m =
      if validPairs p 21 = 0 then Dbl.nan
      else Dbl.fin (sumPairs p 21 / validPairs p 21 / (5 / 1000) / 5) := by
  unfold Robust_Velocity_X
  rw [Robust_Velocity_X_loop m.POS_X p hA 21 (le_refl _)]
  by_cases h : validPairs p 21 = 0
  · have hs : sumPairs p 21 = 0 := sumPairs_eq_zero p 21 h
    simp only [h, hs, Nat.cast_zero, if_true, Dbl_zero_div_zero, Dbl_nan_div]
  · have h2 : ((validPairs p 21 : ℕ) : ℚ) ≠ 0 := by exact_mod_cast h
    simp only [h, if_false, T_STEP, S_SCALE]
    rw [Dbl_fin_div _ _ h2, Dbl_fin_div _ _ (by norm_num), Dbl_fin_div _ _ (by norm_num)]

/-- The value of `Robust_Velocity_Y` on a buffer of numbers. -/
theorem Robust_Velocity_Y_eq (m : Mem) (p : Nat → ℚ) (hA : Holds m.POS_Y p) :
    Robust_Velocity_Y m =
      if validPairs p 21 = 0 then Dbl.nan
      else Dbl.fin (-sumPairs p 21 / validPairs p 21 / (5 / 1000) / 5) := by
  unfold Robust_Velocity_Y
  rw [Robust_Velocity_Y_loop m.POS_Y p hA 21 (le_refl _)]
  by_cases h : validPairs p 21 = 0
  · have hs : sumPairs p 21 = 0 := sumPairs_eq_zero p 21 h
    simp only [h, hs, Nat.cast_zero, if_true, neg_zero, Dbl_zero_div_zero, Dbl_nan_div]
  · have h2 : ((validPairs p 21 : ℕ) : ℚ) ≠ 0 := by exact_mod_cast h
    simp only [h, if_false, T_STEP, S_SCALE]
    rw [Dbl_fin_div _ _ h2, Dbl_fin_div _ _ (by norm_num), Dbl_fin_div _ _ (by norm_num)]

/-- On a buffer whose populated slots are exactly the first `k`, the valid
pairs are the first `k - 1` and their differences telescope. -/
theorem pairs_prefix (p : Nat → ℚ) (k : Nat) (hk : 1 ≤ k)
    (hpre : ∀ i, i < 22 → (p i ≠ 0 ↔ i < k)) (n : Nat) (hn : n ≤ 21) :
    validPairs p n = min n (k - 1) ∧ sumPairs p n = p 0 - p (min n (k - 1)) := by
  induction n with
  | zero => simp [validPairs, sumPairs]
  | succ n ih =>
    obtain ⟨ih1, ih2⟩ := ih (by omega)
    simp only [validPairs, sumPairs, ih1, ih2]
    by_cases h : n + 1 < k
    · have hv : p n ≠ 0 ∧ p (n + 1) ≠ 0 :=
        ⟨(hpre n (by omega)).2 (by omega), (hpre (n + 1) (by omega)).2 h⟩
      rw [if_pos hv, if_pos hv]
      have e1 : min n (k - 1) = n := by omega
      have e2 : min (n + 1) (k - 1) = n + 1 := by omega
      rw [e1, e2]
      exact ⟨rfl, by ring⟩
    · have hv : ¬(p n ≠ 0 ∧ p (n + 1) ≠ 0) := fun hv =>
        h ((hpre (n + 1) (by omega)).1 hv.2)
      rw [if_neg hv, if_neg hv]
      have e1 : min n (k - 1) = k - 1 := by omega
      have e2 : min (n + 1) (k - 1) = k - 1 := by omega
      rw [e1, e2]
      exact ⟨rfl, by ring⟩

/-- On a constant-step track `Robust_Velocity_X` is the step per tick. -/
theorem Robust_Velocity_X_track (m : Mem) (p : Nat → ℚ) (d : ℚ) (hA : Holds m.POS_X p)
    (hne : ∀ i, i < 22 → p i ≠ 0) (hd : ∀ i, i < 21 → p i - p (i + 1) = d) :
    Robust_Velocity_X m = Dbl.fin (d / (5 / 1000) / 5) := by
  have hp := pairs_prefix p 22 (by omega) (fun i hi => ⟨fun _ => hi, fun _ => hne i hi⟩) 21
    (le_refl _)
  have hs : p 0 - p 21 = 21 * d := by
    have := hd 0 (by omega); have := hd 1 (by omega); have := hd 2 (by omega)
    have := hd 3 (by omega); have := hd 4 (by omega); have := hd 5 (by omega)
    have := hd 6 (by omega); have := hd 7 (by omega); have := hd 8 (by omega)
    have := hd 9 (by omega); have := hd 10 (by omega); have := hd 11 (by omega)
    have := hd 12 (by omega); have := hd 13 (by omega); have := hd 14 (by omega)
    have := hd 15 (by omega); have := hd 16 (by omega); have := hd 17 (by omega)
    have := hd 18 (by omega); have := hd 19 (by omega); have := hd 20 (by omega)
    linarith
  rw [Robust_Velocity_X_eq m p hA, hp.1, hp.2]
  simp only [show min 21 (22 - 1) = 21 from rfl, show (21 : ℕ) ≠ 0 by omega, if_false, hs]
  congr 1
  push_cast
  ring

theorem Robust_Velocity_Y_track (m : Mem) (p : Nat → ℚ) (d : ℚ) (hA : Holds m.POS_Y p)
    (hne : ∀ i, i < 22 → p i ≠ 0) (hd : ∀ i, i < 21 → p i - p (i + 1) = d) :
    Robust_Velocity_Y m = Dbl.fin (-d / (5 / 1000) / 5) := by
  have hp := pairs_prefix p 22 (by omega) (fun i hi => ⟨fun _ => hi, fun _ => hne i hi⟩) 21
    (le_refl _)
  have hs : p 0 - p 21 = 21 * d := by
    have := hd 0 (by omega); have := hd 1 (by omega); have := hd 2 (by omega)
    have := hd 3 (by omega); have := hd 4 (by omega); have := hd 5 (by omega)
    have := hd 6 (by omega); have := hd 7 (by omega); have := hd 8 (by omega)
    have := hd 9 (by omega); have := hd 10 (by omega); have := hd 11 (by omega)
    have := hd 12 (by omega); have := hd 13 (by omega); have := hd 14 (by omega)
    have := hd 15 (by omega); have := hd 16 (by omega); have := hd 17 (by omega)
    have := hd 18 (by omega); have := hd 19 (by omega); have := hd 20 (by omega)
    linarith
  rw [Robust_Velocity_Y_eq m p hA, hp.1, hp.2]
  simp only [show min 21 (22 - 1) = 21 from rfl, show (21 : ℕ) ≠ 0 by omega, if_false, hs]
  congr 1
  push_cast
  ring

/-- The horizontal position fallback on a constant-step track: the next
point `POS_X[0] + d`. -/
theorem Robust_Position_X_track (e : Env) (m : Mem) (p : Nat → ℚ) (d : ℚ)
    (hacc : m.Velocity_X_alt = Acc.robust) (hA : Holds m.POS_X p)
    (hne : ∀ i, i < 22 → p i ≠ 0) (hd : ∀ i, i < 21 → p i - p (i + 1) = d)
    (r : Sensor → Nat) :
    (Robust_Position_X e m r).val = Dbl.fin (p 0 + d) := by
  simp only [Robust_Position_X, Velocity_X_alt, hacc, bind_val, pure_val,
    Robust_Velocity_X_track m p d hA hne hd, hA 0 (by omega), T_STEP, S_SCALE, Dbl_fin_mul,
    Dbl_fin_add]
  congr 1
  ring

/-- The vertical position fallback on a constant-step track: `POS_Y[0] - d`,
the previous point of the track. -/
theorem Robust_Position_Y_track (e : Env) (m : Mem) (p : Nat → ℚ) (d : ℚ)
    (hacc : m.Velocity_Y_alt = Acc.robust) (hA : Holds m.POS_Y p)
    (hne : ∀ i, i < 22 → p i ≠ 0) (hd : ∀ i, i < 21 → p i - p (i + 1) = d)
    (r : Sensor → Nat) :
    (Robust_Position_Y e m r).val = Dbl.fin (p 0 - d) := by
  simp only [Robust_Position_Y, Velocity_Y_alt, hacc, bind_val, pure_val,
    Robust_Velocity_Y_track m p d hA hne hd, hA 0 (by omega), T_STEP, S_SCALE, Dbl_fin_mul,
    Dbl_fin_add]
  congr 1
  ring

theorem Holds_memTrackX (p : Nat → ℚ) : Holds (memTrackX p).POS_X p := by
  intro i hi
  simp only [at22, memTrackX, Fin.ofNat, Nat.mod_eq_of_lt hi]

theorem Holds_memTrackY (p : Nat → ℚ) : Holds (memTrackY p).POS_Y p := by
  intro i hi
  simp only [at22, memTrackY, Fin.ofNat, Nat.mod_eq_of_lt hi]

theorem unitTrack_ne (i : Nat) (hi : i < 22) : unitTrack i ≠ 0 := by
  have h : (i : ℚ) < 22 := by exact_mod_cast hi
  simp only [unitTrack]
  linarith

theorem unitTrack_step (i : Nat) : unitTrack i - unitTrack (i + 1) = 1 := by
  simp only [unitTrack]
  push_cast
  ring

/-! ## The history update -/

theorem ofNat22_val (i : Nat) (hi : i < 22) : (Fin.ofNat i : Fin 22).val = i :=
  Nat.mod_eq_of_lt hi

theorem ofNat22_ne (i j : Nat) (hi : i < 22) (hj : j < 22) (h : i ≠ j) :
    (Fin.ofNat i : Fin 22) ≠ Fin.ofNat j := by
  intro hc
  have := congrArg Fin.val hc
  rw [ofNat22_val i hi, ofNat22_val j hj] at this
  exact h this

/-- The shift loop entered with `i = n` moves slot `j - 1` into slot `j` for
`1 <= j <= n` and leaves the other slots alone. -/
theorem Setting_Up_Arrays_shift_eq (n : Nat) (hn : n ≤ 21) (a : (Fin 22 → Dbl) × (Fin 22 → Dbl))
    (j : Nat) (hj : j < 22) :
    at22 (Setting_Up_Arrays_shift n a).1 j
        = (if 1 ≤ j ∧ j ≤ n then at22 a.1 (j - 1) else at22 a.1 j) ∧
      at22 (Setting_Up_Arrays_shift n a).2 j
        = (if 1 ≤ j ∧ j ≤ n then at22 a.2 (j - 1) else at22 a.2 j) := by
  induction n generalizing a with
  | zero =>
    have h : ¬(1 ≤ j ∧ j ≤ 0) := by omega
    simp only [Setting_Up_Arrays_shift, if_neg h, and_self]
  | succ n ih =>
    rw [Setting_Up_Arrays_shift]
    obtain ⟨h1, h2⟩ := ih (by omega) (Function.update a.1 (Fin.ofNat (n + 1)) (at22 a.1 n),
      Function.update a.2 (Fin.ofNat (n + 1)) (at22 a.2 n))
    rw [h1, h2]
    by_cases c1 : 1 ≤ j ∧ j ≤ n
    · have c2 : 1 ≤ j ∧ j ≤ n + 1 := by omega
      rw [if_pos c1, if_pos c1, if_pos c2, if_pos c2]
      simp only [at22]
      rw [Function.update_noteq (ofNat22_ne _ _ (by omega) (by omega) (by omega)),
        Function.update_noteq (ofNat22_ne _ _ (by omega) (by omega) (by omega))]
      exact ⟨rfl, rfl⟩
    · rw [if_neg c1, if_neg c1]
      by_cases c3 : j = n + 1
      · subst c3
        have c2 : 1 ≤ n + 1 ∧ n + 1 ≤ n + 1 := by omega
        rw [if_pos c2, if_pos c2]
        simp only [at22, Function.update_same, Nat.add_sub_cancel, and_self]
      · have c2 : ¬(1 ≤ j ∧ j ≤ n + 1) := by omega
        rw [if_neg c2, if_neg c2]
        simp only [at22]
        rw [Function.update_noteq (ofNat22_ne _ _ hj (by omega) c3),
          Function.update_noteq (ofNat22_ne _ _ hj (by omega) c3)]
        exact ⟨rfl, rfl⟩

/-- The averaging loop adds the samples to the running sums in order. -/
theorem Setting_Up_Arrays_sum_val (e : Env) (m : Mem) (n : Nat) (s : Dbl × Dbl)
    (r : Sensor → Nat) :
    (Setting_Up_Arrays_sum e m n s r).val =
      (((Position_samples e m n r).map Prod.fst).foldl (fun s x => s + x) s.1,
       ((Position_samples e m n r).map Prod.snd).foldl (fun s x => s + x) s.2) := by
  induction n generalizing s r with
  | zero => rfl
  | succ n ih =>
    simp only [Setting_Up_Arrays_sum, Position_samples, bind_val, ih, List.map_cons,
      List.foldl_cons]

theorem Position_samples_length (e : Env) (m : Mem) (n : Nat) (r : Sensor → Nat) :
    (Position_samples e m n r).length = n := by
  induction n generalizing r with
  | zero => rfl
  | succ n ih => simp only [Position_samples, List.length_cons, ih]

theorem cast_million : ((1000000 : ℕ) : ℚ) = 1000000 := Nat.cast_ofNat

/-- The buffers after `Setting_Up_Arrays`: the shifted buffers with the means
of the samples in slot 0. -/
theorem Setting_Up_Arrays_POS (e : Env) (m : Mem) (r : Sensor → Nat) :
    (Setting_Up_Arrays e m r).val.POS_X =
        Function.update (Setting_Up_Arrays_shift 21 (m.POS_X, m.POS_Y)).1 0
          (Dbl.mean ((Setting_Up_Arrays_samples e m r).map Prod.fst)) ∧
      (Setting_Up_Arrays e m r).val.POS_Y =
        Function.update (Setting_Up_Arrays_shift 21 (m.POS_X, m.POS_Y)).2 0
          (Dbl.mean ((Setting_Up_Arrays_samples e m r).map Prod.snd)) := by
  unfold Setting_Up_Arrays Setting_Up_Arrays_samples Dbl.mean Dbl.sum
  generalize Setting_Up_Arrays_shift 21 (m.POS_X, m.POS_Y) = a
  have hs := fun m1 => Setting_Up_Arrays_sum_val e m1 1000000 (Dbl.fin 0, Dbl.fin 0) r
  have hl := fun m1 => Position_samples_length e m1 1000000 r
  simp only [bind_val, pure_val, List.length_map, hl, cast_million, hs, and_self]

theorem Faulty_Checker_POS (e : Env) (m : Mem) (r : Sensor → Nat) :
    (Faulty_Checker e m r).val.POS_X = m.POS_X ∧ (Faulty_Checker e m r).val.POS_Y = m.POS_Y := by
  unfold Faulty_Checker
  generalize Faulty_Checker_loop e m 25 ⟨0, 0, 0, 0, 0⟩ = x
  exact ⟨rfl, rfl⟩

theorem Sensor_Adjustment_POS (m : Mem) :
    (Sensor_Adjustment m).POS_X = m.POS_X ∧ (Sensor_Adjustment m).POS_Y = m.POS_Y :=
  ⟨rfl, rfl⟩

/-- The globals after `Lander_Control` are those its prologue leaves. -/
theorem Lander_Control_val (e : Env) (m : Mem) (r : Sensor → Nat) :
    (Lander_Control e m r).val = (Lander_Control_prologue e m r).val := by
  rw [Lander_Control_eq]
  generalize Lander_Control_prologue e m = P
  rw [bind_val, bind_val, pure_val]

theorem Lander_Control_prologue_POS (e : Env) (m : Mem) (r : Sensor → Nat) :
    (Lander_Control_prologue e m r).val.POS_X =
        (Setting_Up_Arrays e (Sensor_Adjustment (Faulty_Checker e m r).val)
          (Faulty_Checker e m r).reads).val.POS_X ∧
      (Lander_Control_prologue e m r).val.POS_Y =
        (Setting_Up_Arrays e (Sensor_Adjustment (Faulty_Checker e m r).val)
          (Faulty_Checker e m r).reads).val.POS_Y := by
  unfold Lander_Control_prologue
  generalize Setting_Up_Arrays e = S
  generalize Faulty_Checker e m = X
  simp only [bind_val, pure_val, and_self]

theorem Lander_Control_POS (e : Env) (m : Mem) (r : Sensor → Nat) :
    (Lander_Control e m r).val.POS_X =
        (Setting_Up_Arrays e (Sensor_Adjustment (Faulty_Checker e m r).val)
          (Faulty_Checker e m r).reads).val.POS_X ∧
      (Lander_Control e m r).val.POS_Y =
        (Setting_Up_Arrays e (Sensor_Adjustment (Faulty_Checker e m r).val)
          (Faulty_Checker e m r).reads).val.POS_Y := by
  rw [Lander_Control_val]
  exact Lander_Control_prologue_POS e m r

/-- One tick on the buffers: every old slot moves one place up and slot 0
receives the means of the samples read by the tick. -/
theorem Lander_Control_slots (e : Env) (m : Mem) (r : Sensor → Nat) :
    (∀ i, i < 21 →
      at22 (Lander_Control e m r).val.POS_X (i + 1) = at22 m.POS_X i ∧
      at22 (Lander_Control e m r).val.POS_Y (i + 1) = at22 m.POS_Y i) ∧
    at22 (Lander_Control e m r).val.POS_X 0 =
      Dbl.mean ((Setting_Up_Arrays_samples e (Sensor_Adjustment (Faulty_Checker e m r).val)
        (Faulty_Checker e m r).reads).map Prod.fst) ∧
    at22 (Lander_Control e m r).val.POS_Y 0 =
      Dbl.mean ((Setting_Up_Arrays_samples e (Sensor_Adjustment (Faulty_Checker e m r).val)
        (Faulty_Checker e m r).reads).map Prod.snd) := by
  obtain ⟨hx, hy⟩ := Lander_Control_POS e m r
  obtain ⟨sx, sy⟩ := Setting_Up_Arrays_POS e (Sensor_Adjustment (Faulty_Checker e m r).val)
    (Faulty_Checker e m r).reads
  obtain ⟨fx, fy⟩ := Faulty_Checker_POS e m r
  have ax := (Sensor_Adjustment_POS (Faulty_Checker e m r).val).1.trans fx
  have ay := (Sensor_Adjustment_POS (Faulty_Checker e m r).val).2.trans fy
  rw [hx, hy, sx, sy, ax, ay]
  generalize Dbl.mean _ = vx
  generalize Dbl.mean _ = vy
  refine ⟨fun i hi => ?_, ?_, ?_⟩
  · obtain ⟨h1, h2⟩ := Setting_Up_Arrays_shift_eq 21 (le_refl _) (m.POS_X, m.POS_Y) (i + 1)
      (by omega)
    have c : 1 ≤ i + 1 ∧ i + 1 ≤ 21 := by omega
    rw [if_pos c] at h1 h2
    have hne : (Fin.ofNat (i + 1) : Fin 22) ≠ 0 :=
      ofNat22_ne (i + 1) 0 (by omega) (by omega) (by omega)
    simp only [at22] at h1 h2 ⊢
    rw [Function.update_noteq hne, Function.update_noteq hne]
    exact ⟨h1, h2⟩
  · simp only [at22]
    exact Function.update_same _ _ _
  · simp only [at22]
    exact Function.update_same _ _ _

theorem run_append (l1 l2 : List Tick) (m : Mem) (r : Sensor → Nat) :
    (run (l1 ++ l2) m r).val = (run l2 (run l1 m r).val (run l1 m r).reads).val ∧
    (run (l1 ++ l2) m r).reads = (run l2 (run l1 m r).val (run l1 m r).reads).reads := by
  induction l1 generalizing m r with
  | nil => exact ⟨rfl, rfl⟩
  | cons t ts ih =>
    rw [List.cons_append, run_cons, run_cons]
    exact ih _ _

theorem controlTicks_snoc (es : List Env) (e : Env) :
    controlTicks (es ++ [e]) = controlTicks es ++ [⟨Entry.Lander_Control, e⟩] := by
  simp only [controlTicks, List.map_append, List.map_cons, List.map_nil]

theorem run_single (t : Tick) (m : Mem) (r : Sensor → Nat) :
    (run [t] m r).val = (step t m r).val := by
  rw [run]
  generalize step t m = x
  rfl

/-- The globals after one more tick of a run. -/
theorem run_snoc_val (es : List Env) (e : Env) (m : Mem) (r : Sensor → Nat) :
    (run (controlTicks (es ++ [e])) m r).val =
      (Lander_Control e (run (controlTicks es) m r).val (run (controlTicks es) m r).reads).val := by
  rw [controlTicks_snoc, (run_append _ _ m r).1, run_single, step_Lander_Control _ _ rfl]

/-- With steady readings and both position pointers on the raw sensors every
sample is the pair of the two readings. -/
theorem Position_samples_steady (e : Env) (he : e.Steady) (m : Mem)
    (hx : m.Position_X_alt = Acc.raw) (hy : m.Position_Y_alt = Acc.raw) (n : Nat)
    (r : Sensor → Nat) :
    ∀ v ∈ Position_samples e m n r,
      v = (Dbl.fin (e.sense Sensor.Position_X 0), Dbl.fin (e.sense Sensor.Position_Y 0)) := by
  induction n generalizing r with
  | zero => intro v hv; cases hv
  | succ n ih =>
    intro v hv
    simp only [Position_samples, List.mem_cons] at hv
    rcases hv with hv | hv
    · rw [hv]
      simp only [Position_X_alt, Position_Y_alt, hx, hy, Position_X, Position_Y, read_val]
      rw [he Sensor.Position_X _ 0, he Sensor.Position_Y _ 0]
    · exact ih _ v hv

theorem Setting_Up_Arrays_samples_steady (e : Env) (he : e.Steady) (m : Mem)
    (hx : m.Position_X_alt = Acc.raw) (hy : m.Position_Y_alt = Acc.raw) (r : Sensor → Nat) :
    ∀ v ∈ Setting_Up_Arrays_samples e m r,
      v = (Dbl.fin (e.sense Sensor.Position_X 0), Dbl.fin (e.sense Sensor.Position_Y 0)) := by
  intro v hv
  unfold Setting_Up_Arrays_samples at hv
  exact Position_samples_steady e he _ (by exact hx) (by exact hy) 1000000 r v hv

theorem Env_steady_Steady (mt rt lt : Int) (platX platY sonarDist : ℚ) (v : Sensor → ℚ) :
    (Env.steady mt rt lt platX platY sonarDist v).Steady := fun _ _ _ => rfl

theorem at22_init (i : Nat) : at22 Mem.init.POS_X i = Dbl.fin 0 ∧ at22 Mem.init.POS_Y i = Dbl.fin 0 :=
  ⟨rfl, rfl⟩

/-- From the initial buffers, the tick that follows the ticks `es1` and is
followed by the ticks `es2` has its averaged samples in slot `es2.length`. -/
theorem run_slot_inserted (es1 : List Env) (e : Env) (es2 : List Env) (r : Sensor → Nat)
    (h : es2.length < 22) :
    at22 (run (controlTicks (es1 ++ e :: es2)) Mem.init r).val.POS_X es2.length
        = (insertedSample es1 e r).1 ∧
      at22 (run (controlTicks (es1 ++ e :: es2)) Mem.init r).val.POS_Y es2.length
        = (insertedSample es1 e r).2 := by
  induction es2 using List.reverseRecOn with
  | nil =>
    rw [run_snoc_val]
    obtain ⟨_, h2, h3⟩ := Lander_Control_slots e (run (controlTicks es1) Mem.init r).val
      (run (controlTicks es1) Mem.init r).reads
    exact ⟨h2, h3⟩
  | append_singleton l a ih =>
    rw [List.length_append, List.length_singleton] at h ⊢
    have hl : es1 ++ e :: (l ++ [a]) = (es1 ++ e :: l) ++ [a] := by simp
    rw [hl, run_snoc_val]
    obtain ⟨h1, _⟩ := Lander_Control_slots a (run (controlTicks (es1 ++ e :: l)) Mem.init r).val
      (run (controlTicks (es1 ++ e :: l)) Mem.init r).reads
    obtain ⟨i1, i2⟩ := ih (by omega)
    obtain ⟨k1, k2⟩ := h1 l.length (by omega)
    exact ⟨k1.trans i1, k2.trans i2⟩

/-- From the initial buffers, the slots from index `es.length` on are still 0
after the ticks `es`. -/
theorem run_slot_zero (es : List Env) (r : Sensor → Nat) (i : Nat) (h : es.length ≤ i)
    (hi : i ≤ 21) :
    at22 (run (controlTicks es) Mem.init r).val.POS_X i = Dbl.fin 0 ∧
      at22 (run (controlTicks es) Mem.init r).val.POS_Y i = Dbl.fin 0 := by
  induction es using List.reverseRecOn generalizing i with
  | nil => exact at22_init i
  | append_singleton l a ih =>
    rw [List.length_append, List.length_singleton] at h
    obtain ⟨j, rfl⟩ : ∃ j, i = j + 1 := ⟨i - 1, by omega⟩
    rw [run_snoc_val]
    obtain ⟨h1, _⟩ := Lander_Control_slots a (run (controlTicks l) Mem.init r).val
      (run (controlTicks l) Mem.init r).reads
    obtain ⟨k1, k2⟩ := h1 j (by omega)
    obtain ⟨i1, i2⟩ := ih j (by omega) (by omega)
    exact ⟨k1.trans i1, k2.trans i2⟩

/-! ## Counting rotation commands -/

theorem rotations_nil : rotations [] = 0 := rfl

theorem rotations_append (a b : List Cmd) : rotations (a ++ b) = rotations a + rotations b :=
  List.countP_append _ _ _

theorem Rots_pure {α : Type} (a : α) : Rots 0 (pure a : Act α) := fun _ => le_refl _

theorem Rots_of_silent {α : Type} {a : Act α} (h : Silent a) : Rots 0 a := by
  intro r
  rw [h r]
  exact le_refl _

theorem Rots_bind {α β : Type} {j k : Nat} {x : Act α} {f : α → Act β} (hx : Rots j x)
    (hf : ∀ a, Rots k (f a)) : Rots (j + k) (x >>= f) := by
  intro r
  rw [bind_cmds, rotations_append]
  exact Nat.add_le_add (hx r) (hf _ _)

theorem Rots_ite {α : Type} {j k : Nat} {c : Prop} [Decidable c] {a b : Act α} (ha : Rots j a)
    (hb : Rots k b) : Rots (max j k) (if c then a else b) := by
  intro r
  split
  · exact le_trans (ha r) (le_max_left _ _)
  · exact le_trans (hb r) (le_max_right _ _)

theorem Rots_cand {j k : Nat} {a b : Act Bool} (ha : Rots j a) (hb : Rots k b) :
    Rots (j + max k 0) (cand a b) :=
  Rots_bind ha (fun _ => Rots_ite hb (Rots_pure _))

theorem Rots_cor {j k : Nat} {a b : Act Bool} (ha : Rots j a) (hb : Rots k b) :
    Rots (j + max 0 k) (cor a b) :=
  Rots_bind ha (fun _ => Rots_ite (Rots_pure _) hb)

theorem Rots_mono {α : Type} {j k : Nat} {a : Act α} (h : Rots j a) (hjk : j ≤ k) : Rots k a :=
  fun r => le_trans (h r) hjk

theorem Main_Thruster_rots (p : Dbl) : Rots 0 (Main_Thruster p) := fun _ => le_refl _
theorem Left_Thruster_rots (p : Dbl) : Rots 0 (Left_Thruster p) := fun _ => le_refl _
theorem Right_Thruster_rots (p : Dbl) : Rots 0 (Right_Thruster p) := fun _ => le_refl _
theorem Rotate_rots (a : Dbl) : Rots 1 (Rotate a) := fun _ => le_refl _
theorem Robust_Rot_rots (a : Dbl) : Rots 1 (Robust_Rot a) := fun _ => le_refl _

theorem sonar_scan_vx_silent (e : Env) {c : Act Bool} (hc : Silent c) (i n : Nat)
    (s : Dbl × Int) : Silent (sonar_scan_vx e c i n s) := by
  induction n generalizing i s with
  | zero => exact Silent_pure _
  | succ n ih =>
    rw [sonar_scan_vx]
    exact Silent_bind (Silent_cand (Silent_pure _) hc) (fun _ => Silent_ite (ih _ _) (ih _ _))

/-- The guidance variant M issues at most one rotation command. -/
theorem Lander_Control_M_rots (e : Env) (m : Mem) : Rots 1 (Lander_Control_M e m) := by
  apply Rots_mono
  · unfold Lander_Control_M
    repeat' first
      | with_reducible intro _
      | dsimp only
      | with_reducible exact Rots_pure _
      | with_reducible exact Rots_of_silent (Robust_Ang_silent e)
      | with_reducible exact Rots_of_silent (Robust_VX_silent e m)
      | with_reducible exact Rots_of_silent (Robust_VY_silent e m)
      | with_reducible exact Rots_of_silent (Robust_PX_silent e m)
      | with_reducible exact Rots_of_silent (Robust_PY_silent e m)
      | with_reducible exact Main_Thruster_rots _
      | with_reducible exact Robust_Rot_rots _
      | with_reducible apply Rots_bind
      | with_reducible apply Rots_ite
      | with_reducible apply Rots_cand
      | with_reducible apply Rots_cor
  · decide

/-- The guidance variant R issues at most one rotation command. -/
theorem Lander_Control_R_rots (e : Env) (m : Mem) : Rots 1 (Lander_Control_R e m) := by
  apply Rots_mono
  · unfold Lander_Control_R
    repeat' first
      | with_reducible intro _
      | dsimp only
      | with_reducible exact Rots_pure _
      | with_reducible exact Rots_of_silent (Robust_Ang_silent e)
      | with_reducible exact Rots_of_silent (Robust_VX_silent e m)
      | with_reducible exact Rots_of_silent (Robust_VY_silent e m)
      | with_reducible exact Rots_of_silent (Robust_PX_silent e m)
      | with_reducible exact Rots_of_silent (Robust_PY_silent e m)
      | with_reducible exact Right_Thruster_rots _
      | with_reducible exact Robust_Rot_rots _
      | with_reducible apply Rots_bind
      | with_reducible apply Rots_ite
      | with_reducible apply Rots_cand
      | with_reducible apply Rots_cor
  · decide

/-- The guidance variant L issues at most one rotation command. -/
theorem Lander_Control_L_rots (e : Env) (m : Mem) : Rots 1 (Lander_Control_L e m) := by
  apply Rots_mono
  · unfold Lander_Control_L
    repeat' first
      | with_reducible intro _
      | dsimp only
      | with_reducible exact Rots_pure _
      | with_reducible exact Rots_of_silent (Robust_Ang_silent e)
      | with_reducible exact Rots_of_silent (Robust_VX_silent e m)
      | with_reducible exact Rots_of_silent (Robust_VY_silent e m)
      | with_reducible exact Rots_of_silent (Robust_PX_silent e m)
      | with_reducible exact Rots_of_silent (Robust_PY_silent e m)
      | with_reducible exact Left_Thruster_rots _
      | with_reducible exact Robust_Rot_rots _
      | with_reducible apply Rots_bind
      | with_reducible apply Rots_ite
      | with_reducible apply Rots_cand
      | with_reducible apply Rots_cor
  · decide

/-- The override variant M issues at most two rotation commands. -/
theorem Safety_Override_M_rots (e : Env) (m : Mem) : Rots 2 (Safety_Override_M e m) := by
  apply Rots_mono
  · unfold Safety_Override_M
    repeat' first
      | with_reducible intro _
      | dsimp only
      | with_reducible exact Rots_pure _
      | with_reducible exact Rots_of_silent (Robust_Ang_silent e)
      | with_reducible exact Rots_of_silent (Robust_VX_silent e m)
      | with_reducible exact Rots_of_silent (Robust_VY_silent e m)
      | with_reducible exact Rots_of_silent (Robust_PX_silent e m)
      | with_reducible exact Rots_of_silent (Robust_PY_silent e m)
      | with_reducible exact Main_Thruster_rots _
      | with_reducible exact Rotate_rots _
      | with_reducible apply Rots_bind
      | with_reducible apply Rots_ite
      | with_reducible apply Rots_cand
  · decide

/-- The override variant R issues at most two rotation commands. -/
theorem Safety_Override_R_rots (e : Env) (m : Mem) : Rots 2 (Safety_Override_R e m) := by
  apply Rots_mono
  · unfold Safety_Override_R
    repeat' first
      | with_reducible intro _
      | dsimp only
      | with_reducible exact Rots_pure _
      | with_reducible exact Rots_of_silent (Robust_Ang_silent e)
      | with_reducible exact Rots_of_silent (Robust_VX_silent e m)
      | with_reducible exact Rots_of_silent (Robust_VY_silent e m)
      | with_reducible exact Rots_of_silent (Robust_PX_silent e m)
      | with_reducible exact Rots_of_silent (Robust_PY_silent e m)
      | with_reducible exact Rots_of_silent (sonar_scan_vx_silent e
          (Silent_bind (Robust_VX_silent e m) (fun _ => Silent_pure _)) _ _ _)
      | with_reducible exact Right_Thruster_rots _
      | with_reducible exact Rotate_rots _
      | with_reducible exact Robust_Rot_rots _
      | with_reducible apply Rots_bind
      | with_reducible apply Rots_ite
      | with_reducible apply Rots_cand
      | with_reducible apply Rots_cor
  · decide

/-- The override variant L issues at most two rotation commands. -/
theorem Safety_Override_L_rots (e : Env) (m : Mem) : Rots 2 (Safety_Override_L e m) := by
  apply Rots_mono
  · unfold Safety_Override_L
    repeat' first
      | with_reducible intro _
      | dsimp only
      | with_reducible exact Rots_pure _
      | with_reducible exact Rots_of_silent (Robust_Ang_silent e)
      | with_reducible exact Rots_of_silent (Robust_VX_silent e m)
      | with_reducible exact Rots_of_silent (Robust_VY_silent e m)
      | with_reducible exact Rots_of_silent (Robust_PX_silent e m)
      | with_reducible exact Rots_of_silent (Robust_PY_silent e m)
      | with_reducible exact Rots_of_silent (sonar_scan_vx_silent e
          (Silent_bind (Robust_VX_silent e m) (fun _ => Silent_pure _)) _ _ _)
      | with_reducible exact Left_Thruster_rots _
      | with_reducible exact Rotate_rots _
      | with_reducible exact Robust_Rot_rots _
      | with_reducible apply Rots_bind
      | with_reducible apply Rots_ite
      | with_reducible apply Rots_cand
      | with_reducible apply Rots_cor
  · decide

theorem Lander_Control_rots (e : Env) (m : Mem) : Rots 1 (Lander_Control e m) := by
  rw [Lander_Control_eq]
  intro r
  have hP := Lander_Control_prologue_silent e m r
  generalize Lander_Control_prologue e m = P at hP ⊢
  rw [bind_cmds, bind_cmds, pure_cmds, hP, List.nil_append, List.append_nil]
  cases h : SelectMode e with
  | none => exact Nat.zero_le _
  | some v =>
    cases v
    · exact Lander_Control_M_rots e _ _
    · exact Lander_Control_R_rots e _ _
    · exact Lander_Control_L_rots e _ _

theorem Safety_Override_rots (e : Env) (m : Mem) : Rots 2 (Safety_Override e m) := by
  rw [Safety_Override_eq]
  cases h : SelectMode e with
  | none => exact fun _ => Nat.zero_le _
  | some v =>
    cases v
    · exact Safety_Override_M_rots e m
    · exact Safety_Override_R_rots e m
    · exact Safety_Override_L_rots e m

example : (Safety_Override envDrift Mem.init noReads).cmds =
    [Cmd.thrust Thruster.Main (Dbl.fin 1), Cmd.rotate (Dbl.fin 140),
     Cmd.thrust Thruster.Main (Dbl.fin 1), Cmd.rotate (Dbl.fin (-90))] := by decide!

/-! ## Calls with steady readings -/

theorem Evals_pure {α : Type} (a : α) : Evals (pure a : Act α) a [] := fun _ => ⟨rfl, rfl⟩

theorem Evals_bind {α β : Type} {x : Act α} {f : α → Act β} {v : α} {w : β} {cs ds : List Cmd}
    (hx : Evals x v cs) (hf : Evals (f v) w ds) : Evals (x >>= f) w (cs ++ ds) := by
  intro r
  rw [bind_val, bind_cmds, (hx r).1, (hx r).2]
  exact ⟨(hf _).1, by rw [(hf _).2]⟩

theorem Evals_ite {α : Type} {b : Bool} {x y : Act α} {v w : α} {cs ds : List Cmd}
    (hx : Evals x v cs) (hy : Evals y w ds) :
    Evals (if b = true then x else y) (if b = true then v else w)
      (if b = true then cs else ds) := by
  cases b
  · exact hy
  · exact hx

theorem Evals_ite_true {α : Type} {b : Bool} {x y : Act α} {v : α} {cs : List Cmd}
    (h : b = true) (hx : Evals x v cs) : Evals (if b = true then x else y) v cs := by
  rw [if_pos h]
  exact hx

theorem Evals_ite_false {α : Type} {b : Bool} {x y : Act α} {w : α} {ds : List Cmd}
    (h : b = false) (hy : Evals y w ds) : Evals (if b = true then x else y) w ds := by
  subst h
  exact hy

theorem Evals_cand {a b : Act Bool} {va vb : Bool} {ca cb : List Cmd} (ha : Evals a va ca)
    (hb : Evals b vb cb) :
    Evals (cand a b) (if va = true then vb else false) (ca ++ if va = true then cb else []) :=
  Evals_bind ha (Evals_ite hb (Evals_pure _))

theorem Evals_cor {a b : Act Bool} {va vb : Bool} {ca cb : List Cmd} (ha : Evals a va ca)
    (hb : Evals b vb cb) :
    Evals (cor a b) (if va = true then true else vb) (ca ++ if va = true then [] else cb) :=
  Evals_bind ha (Evals_ite (Evals_pure _) hb)

theorem Evals_emit (c : Cmd) : Evals (Act.emit c) () [c] := fun _ => ⟨rfl, rfl⟩

theorem Main_Thruster_evals (p : Dbl) :
    Evals (Main_Thruster p) () [Cmd.thrust Thruster.Main p] := Evals_emit _
theorem Left_Thruster_evals (p : Dbl) :
    Evals (Left_Thruster p) () [Cmd.thrust Thruster.Left p] := Evals_emit _
theorem Right_Thruster_evals (p : Dbl) :
    Evals (Right_Thruster p) () [Cmd.thrust Thruster.Right p] := Evals_emit _
theorem Rotate_evals (a : Dbl) : Evals (Rotate a) () [Cmd.rotate a] := Evals_emit _
theorem Robust_Rot_evals (a : Dbl) : Evals (Robust_Rot a) () [Cmd.rotate a] := Evals_emit _

theorem Robust_PX_evals (e : Env) (he : e.Steady) (m : Mem) :
    Evals (Robust_PX e m) (steadyPX e m) [] :=
  fun r => ⟨(Robust_PX_blind e he m r noReads).1, Robust_PX_silent e m r⟩

theorem Robust_PY_evals (e : Env) (he : e.Steady) (m : Mem) :
    Evals (Robust_PY e m) (steadyPY e m) [] :=
  fun r => ⟨(Robust_PY_blind e he m r noReads).1, Robust_PY_silent e m r⟩

theorem Robust_VX_evals (e : Env) (he : e.Steady) (m : Mem) :
    Evals (Robust_VX e m) (steadyVX e m) [] :=
  fun r => ⟨(Robust_VX_blind e he m r noReads).1, Robust_VX_silent e m r⟩

theorem Robust_VY_evals (e : Env) (he : e.Steady) (m : Mem) :
    Evals (Robust_VY e m) (steadyVY e m) [] :=
  fun r => ⟨(Robust_VY_blind e he m r noReads).1, Robust_VY_silent e m r⟩

theorem Robust_Ang_evals (e : Env) (he : e.Steady) :
    Evals (Robust_Ang e) (steadyAng e) [] :=
  fun r => ⟨(Robust_Ang_blind e he r noReads).1, Robust_Ang_silent e r⟩

theorem Evals_cmds {α : Type} {a : Act α} {v : α} {cs ds : List Cmd} (h : Evals a v cs)
    (hcs : cs = ds) (r : Sensor → Nat) : (a r).cmds = ds :=
  (h r).2.trans hcs

/-- Inside its proximity box the override variant M issues no command. -/
theorem Safety_Override_M_box (e : Env) (he : e.Steady) (m : Mem) (hbox : inBoxM e m = true)
    (r : Sensor → Nat) : (Safety_Override_M e m r).cmds = [] := by
  unfold inBoxM at hbox
  apply Evals_cmds
  · unfold Safety_Override_M
    repeat' first
      | dsimp only
      | with_reducible exact Evals_pure _
      | with_reducible exact Robust_VX_evals e he m
      | with_reducible exact Robust_VY_evals e he m
      | with_reducible exact Robust_PX_evals e he m
      | with_reducible exact Robust_PY_evals e he m
      | (with_reducible apply Evals_ite_true; case h => assumption)
      | with_reducible apply Evals_bind
      | with_reducible apply Evals_cand
  · simp only [List.append_nil, List.nil_append, ite_self]

/-- Inside its proximity box the override variant R only rotates to upright,
with its thruster at 0, when the craft is in the landing box and tilted. -/
theorem Safety_Override_R_box (e : Env) (he : e.Steady) (m : Mem)
    (hbox : inBox e m 50 200 = true) (r : Sensor → Nat) :
    (Safety_Override_R e m r).cmds =
      if inBox e m 40 30 = true ∧ tilted (steadyAng e) = true then
        [Cmd.thrust Thruster.Right (Dbl.fin 0), Cmd.rotate (toUpright (steadyAng e))]
      else [] := by
  unfold inBox at hbox
  apply Evals_cmds
  · unfold Safety_Override_R
    repeat' first
      | dsimp only
      | with_reducible exact Evals_pure _
      | with_reducible exact Robust_Ang_evals e he
      | with_reducible exact Robust_VX_evals e he m
      | with_reducible exact Robust_VY_evals e he m
      | with_reducible exact Robust_PX_evals e he m
      | with_reducible exact Robust_PY_evals e he m
      | with_reducible exact Right_Thruster_evals _
      | with_reducible exact Robust_Rot_evals _
      | (with_reducible apply Evals_ite_true; case h => assumption)
      | with_reducible apply Evals_bind
      | with_reducible apply Evals_ite
      | with_reducible apply Evals_cand
  · simp only [List.append_nil, List.nil_append, ite_self, inBox, tilted, toUpright]
    split_ifs <;> simp_all

/-- Inside its proximity box the override variant L only rotates to upright,
with its thruster at 0, when the craft is in the landing box and tilted. -/
theorem Safety_Override_L_box (e : Env) (he : e.Steady) (m : Mem)
    (hbox : inBox e m 50 200 = true) (r : Sensor → Nat) :
    (Safety_Override_L e m r).cmds =
      if inBox e m 50 30 = true ∧ tilted (steadyAng e) = true then
        [Cmd.thrust Thruster.Left (Dbl.fin 0), Cmd.rotate (toUpright (steadyAng e))]
      else [] := by
  unfold inBox at hbox
  apply Evals_cmds
  · unfold Safety_Override_L
    repeat' first
      | dsimp only
      | with_reducible exact Evals_pure _
      | with_reducible exact Robust_Ang_evals e he
      | with_reducible exact Robust_VX_evals e he m
      | with_reducible exact Robust_VY_evals e he m
      | with_reducible exact Robust_PX_evals e he m
      | with_reducible exact Robust_PY_evals e he m
      | with_reducible exact Left_Thruster_evals _
      | with_reducible exact Rotate_evals _
      | (with_reducible apply Evals_ite_true; case h => assumption)
      | with_reducible apply Evals_bind
      | with_reducible apply Evals_ite
      | with_reducible apply Evals_cand
  · simp only [List.append_nil, List.nil_append, ite_self, inBox, tilted, toUpright]
    split_ifs <;> simp_all

/-- The descent branch of `Lander_Control_M`: full power, then the rotation
to upright if the angle test holds, else full power again. -/
theorem Lander_Control_M_descent (e : Env) (he : e.Steady) (m : Mem)
    (hd : Dbl.lt (steadyVY e m) (Lander_Control_M_VYlim e m) = true) (r : Sensor → Nat) :
    (Lander_Control_M e m r).cmds =
      Cmd.thrust Thruster.Main (Dbl.fin 1) ::
        (if offUpright (steadyAng e) = true then [Cmd.rotate (toUpright (steadyAng e))]
         else [Cmd.thrust Thruster.Main (Dbl.fin 1)]) := by
  unfold Lander_Control_M_VYlim coupled at hd
  apply Evals_cmds
  · unfold Lander_Control_M
    repeat' first
      | dsimp only
      | with_reducible exact Evals_pure _
      | with_reducible exact Robust_Ang_evals e he
      | with_reducible exact Robust_VX_evals e he m
      | with_reducible exact Robust_VY_evals e he m
      | with_reducible exact Robust_PX_evals e he m
      | with_reducible exact Robust_PY_evals e he m
      | with_reducible exact Main_Thruster_evals _
      | with_reducible exact Robust_Rot_evals _
      | (with_reducible apply Evals_ite_true; case h => assumption)
      | with_reducible apply Evals_bind
      | with_reducible apply Evals_ite
      | with_reducible apply Evals_cand
  · simp only [List.append_nil, List.nil_append, ite_self, offUpright, toUpright]
    split_ifs <;> simp_all

/-- The descent branch of `Lander_Control_R`: full power, then power 0 inside
the landing box, else the rotation towards 90 degrees if the angle test holds,
else full power again. -/
theorem Lander_Control_R_descent (e : Env) (he : e.Steady) (m : Mem)
    (hd : Dbl.lt (steadyVY e m) (Lander_Control_R_VYlim e m) = true) (r : Sensor → Nat) :
    (Lander_Control_R e m r).cmds =
      Cmd.thrust Thruster.Right (Dbl.fin 1) ::
        (if inBox e m 40 30 = true then [Cmd.thrust Thruster.Right (Dbl.fin 0)]
         else if off90 (steadyAng e) = true then [Cmd.rotate (to90 (steadyAng e))]
         else [Cmd.thrust Thruster.Right (Dbl.fin 1)]) := by
  unfold Lander_Control_R_VYlim coupled at hd
  apply Evals_cmds
  · unfold Lander_Control_R
    repeat' first
      | dsimp only
      | with_reducible exact Evals_pure _
      | with_reducible exact Robust_Ang_evals e he
      | with_reducible exact Robust_VX_evals e he m
      | with_reducible exact Robust_VY_evals e he m
      | with_reducible exact Robust_PX_evals e he m
      | with_reducible exact Robust_PY_evals e he m
      | with_reducible exact Right_Thruster_evals _
      | with_reducible exact Robust_Rot_evals _
      | (with_reducible apply Evals_ite_true; case h => assumption)
      | with_reducible apply Evals_bind
      | with_reducible apply Evals_ite
      | with_reducible apply Evals_cand
      | with_reducible apply Evals_cor
  · simp only [List.append_nil, List.nil_append, ite_self, inBox, off90, to90]
    split_ifs <;> simp_all

/-- The descent branch of `Lander_Control_L`: full power, then power 0 inside
the landing box, else the rotation towards 270 degrees if the angle test
holds, else full power again. -/
theorem Lander_Control_L_descent (e : Env) (he : e.Steady) (m : Mem)
    (hd : Dbl.lt (steadyVY e m) (Lander_Control_R_VYlim e m) = true) (r : Sensor → Nat) :
    (Lander_Control_L e m r).cmds =
      Cmd.thrust Thruster.Left (Dbl.fin 1) ::
        (if inBox e m 40 30 = true then [Cmd.thrust Thruster.Left (Dbl.fin 0)]
         else if off270 (steadyAng e) = true then [Cmd.rotate (to270 (steadyAng e))]
         else [Cmd.thrust Thruster.Left (Dbl.fin 1)]) := by
  unfold Lander_Control_R_VYlim coupled at hd
  apply Evals_cmds
  · unfold Lander_Control_L
    repeat' first
      | dsimp only
      | with_reducible exact Evals_pure _
      | with_reducible exact Robust_Ang_evals e he
      | with_reducible exact Robust_VX_evals e he m
      | with_reducible exact Robust_VY_evals e he m
      | with_reducible exact Robust_PX_evals e he m
      | with_reducible exact Robust_PY_evals e he m
      | with_reducible exact Left_Thruster_evals _
      | with_reducible exact Robust_Rot_evals _
      | (with_reducible apply Evals_ite_true; case h => assumption)
      | with_reducible apply Evals_bind
      | with_reducible apply Evals_ite
      | with_reducible apply Evals_cand
      | with_reducible apply Evals_cor
  · simp only [List.append_nil, List.nil_append, ite_self, inBox, off270, to270]
    split_ifs <;> simp_all

/-! ## No thruster left -/

theorem Act_bind_pure {α : Type} (x : Act α) : (x >>= fun a => pure a) = x := by
  funext r
  show (⟨_, _, (x r).cmds ++ []⟩ : Out α) = x r
  rw [List.append_nil]
  rfl

/-- With all three thruster flags at 0 `Lander_Control` is its prologue. -/
theorem Lander_Control_all_failed (e : Env) (m : Mem) (h1 : e.MT_OK = 0) (h2 : e.RT_OK = 0)
    (h3 : e.LT_OK = 0) : Lander_Control e m = Lander_Control_prologue e m := by
  have hs : SelectMode e = none := by simp [SelectMode, h1, h2, h3]
  rw [Lander_Control_eq, hs]
  generalize Lander_Control_prologue e m = P
  simp only [Act_pure_bind, Act_bind_pure]

/-- With all three thruster flags at 0 `Safety_Override` does nothing. -/
theorem Safety_Override_all_failed (e : Env) (m : Mem) (h1 : e.MT_OK = 0) (h2 : e.RT_OK = 0)
    (h3 : e.LT_OK = 0) : Safety_Override e m = pure () := by
  have hs : SelectMode e = none := by simp [SelectMode, h1, h2, h3]
  rw [Safety_Override_eq, hs]

/-! ## The horizontal control on steady readings -/

theorem Evals_ite_cand_true {α : Type} {a b : Bool} {x y : Act α} {v : α} {cs : List Cmd}
    (ha : a = true) (hb : b = true) (hx : Evals x v cs) :
    Evals (if (if a = true then b else false) = true then x else y) v cs := by
  subst ha hb
  exact hx

theorem Evals_ite_cand_left {α : Type} {a b : Bool} {x y : Act α} {w : α} {ds : List Cmd}
    (ha : a = false) (hy : Evals y w ds) :
    Evals (if (if a = true then b else false) = true then x else y) w ds := by
  subst ha
  exact hy

theorem Evals_ite_cand_right {α : Type} {a b : Bool} {x y : Act α} {w : α} {ds : List Cmd}
    (hb : b = false) (hy : Evals y w ds) :
    Evals (if (if a = true then b else false) = true then x else y) w ds := by
  subst hb
  cases a <;> exact hy

/-- In its dead-band, with the vertical velocity not below `VYlim`,
`Lander_Control_M` only sets its thruster to 0. -/
theorem Lander_Control_M_dead_band (e : Env) (he : e.Steady) (m : Mem)
    (hd : Dbl.lt (steadyVY e m) (Lander_Control_M_VYlim e m) = false)
    (hb : Dbl.lt (Dbl.fabs (steadyPX e m - Dbl.fin e.PLAT_X)) (Dbl.fin 30) = true)
    (r : Sensor → Nat) :
    (Lander_Control_M e m r).cmds = [Cmd.thrust Thruster.Main (Dbl.fin 0)] := by
  unfold Lander_Control_M_VYlim coupled at hd
  apply Evals_cmds
  · unfold Lander_Control_M
    repeat' first
      | dsimp only
      | with_reducible exact Evals_pure _
      | with_reducible exact Robust_Ang_evals e he
      | with_reducible exact Robust_VX_evals e he m
      | with_reducible exact Robust_VY_evals e he m
      | with_reducible exact Robust_PX_evals e he m
      | with_reducible exact Robust_PY_evals e he m
      | with_reducible exact Main_Thruster_evals _
      | with_reducible exact Robust_Rot_evals _
      | (with_reducible apply Evals_ite_true; case h => assumption)
      | (with_reducible apply Evals_ite_false; case h => assumption)
      | with_reducible apply Evals_bind
      | with_reducible apply Evals_ite
  · simp only [List.append_nil, List.nil_append, ite_self]


theorem Dbl_gt_weaken (x : Dbl) (a b : ℚ) (h : Dbl.gt x (Dbl.fin a) = true) (hab : b ≤ a) :
    Dbl.gt x (Dbl.fin b) = true := by
  cases x <;> simp_all [Dbl.gt, Dbl.lt]
  linarith

theorem Dbl_lt_of_gt (x : Dbl) (a b : ℚ) (h : Dbl.gt x (Dbl.fin a) = true) (hab : b ≤ a) :
    Dbl.lt x (Dbl.fin b) = false := by
  cases x <;> simp_all [Dbl.gt, Dbl.lt]
  linarith

theorem Dbl_fabs_lt_of_gt (x : Dbl) (a b : ℚ) (h : Dbl.gt x (Dbl.fin a) = true)
    (hab : b ≤ a) : Dbl.lt (Dbl.fabs x) (Dbl.fin b) = false := by
  cases x <;> simp_all [Dbl.gt, Dbl.lt, Dbl.fabs]
  rename_i q
  have := le_abs_self q
  linarith

theorem Dbl_fin_sub_swap (p : ℚ) (x : Dbl) : Dbl.fin p - x = -(x - Dbl.fin p) := by
  cases x
  · show Dbl.fin _ = Dbl.fin _
    congr 1
    ring
  · rfl
  · rfl
  · rfl

theorem Dbl_neg_pinf : -Dbl.pinf = Dbl.ninf := rfl
theorem Dbl_neg_ninf : -Dbl.ninf = Dbl.pinf := rfl
theorem Dbl_neg_nan : -Dbl.nan = Dbl.nan := rfl

theorem Dbl_gt_of_neg_gt (x : Dbl) (a b : ℚ) (h : Dbl.gt (-x) (Dbl.fin a) = true)
    (hab : -a ≤ b) : Dbl.gt x (Dbl.fin b) = false := by
  cases x <;>
    simp_all [Dbl.gt, Dbl.lt, Dbl_fin_neg, Dbl_neg_pinf, Dbl_neg_ninf, Dbl_neg_nan]
  linarith

theorem Dbl_fabs_lt_of_neg_gt (x : Dbl) (a b : ℚ) (h : Dbl.gt (-x) (Dbl.fin a) = true)
    (hab : b ≤ a) : Dbl.lt (Dbl.fabs x) (Dbl.fin b) = false := by
  cases x <;>
    simp_all [Dbl.gt, Dbl.lt, Dbl.fabs, Dbl_fin_neg, Dbl_neg_pinf, Dbl_neg_ninf, Dbl_neg_nan]
  rename_i q
  have := neg_le_abs q
  linarith

/-- The variant M coasts when the craft, right of the platform beyond the
dead-band, moves towards it within the bound. -/
theorem Lander_Control_M_coast_right (e : Env) (he : e.Steady) (m : Mem)
    (hd : Dbl.lt (steadyVY e m) (Lander_Control_M_VYlim e m) = false)
    (hoff : Dbl.gt (steadyPX e m - Dbl.fin e.PLAT_X) (Dbl.fin 30) = true)
    (hv1 : Dbl.gt (steadyVX e m) (-Lander_Control_M_VXlim e m) = true)
    (hv2 : Dbl.lt (steadyVX e m) (Dbl.fin 0) = true) (r : Sensor → Nat) :
    (Lander_Control_M e m r).cmds =
      [Cmd.thrust Thruster.Main (Dbl.fin 0), Cmd.thrust Thruster.Main (Dbl.fin 0)] := by
  unfold Lander_Control_M_VYlim coupled at hd
  unfold Lander_Control_M_VXlim at hv1
  have h30 := Dbl_fabs_lt_of_gt _ 30 30 hoff (le_refl _)
  have h20 := Dbl_fabs_lt_of_gt _ 30 20 hoff (by norm_num)
  have hg := Dbl_gt_weaken _ 30 20 hoff (by norm_num)
  apply Evals_cmds
  · unfold Lander_Control_M
    repeat' first
      | dsimp only
      | with_reducible exact Evals_pure _
      | with_reducible exact Robust_VX_evals e he m
      | with_reducible exact Robust_VY_evals e he m
      | with_reducible exact Robust_PX_evals e he m
      | with_reducible exact Robust_PY_evals e he m
      | with_reducible exact Main_Thruster_evals _
      | (with_reducible apply Evals_ite_cand_true; (case ha => assumption); (case hb => assumption))
      | (with_reducible apply Evals_ite_true; case h => assumption)
      | (with_reducible apply Evals_ite_false; case h => assumption)
      | with_reducible apply Evals_bind
      | with_reducible apply Evals_ite
      | with_reducible apply Evals_cand
  · simp only [List.append_nil, List.nil_append, ite_self]
    rfl

/-- The variant M coasts when the craft, left of the platform beyond the
dead-band, moves towards it within the bound. -/
theorem Lander_Control_M_coast_left (e : Env) (he : e.Steady) (m : Mem)
    (hd : Dbl.lt (steadyVY e m) (Lander_Control_M_VYlim e m) = false)
    (hoff : Dbl.gt (Dbl.fin e.PLAT_X - steadyPX e m) (Dbl.fin 30) = true)
    (hv1 : Dbl.lt (steadyVX e m) (Lander_Control_M_VXlim e m) = true)
    (hv2 : Dbl.gt (steadyVX e m) (Dbl.fin 0) = true) (r : Sensor → Nat) :
    (Lander_Control_M e m r).cmds =
      [Cmd.thrust Thruster.Main (Dbl.fin 0), Cmd.thrust Thruster.Main (Dbl.fin 0)] := by
  unfold Lander_Control_M_VYlim coupled at hd
  unfold Lander_Control_M_VXlim at hv1
  have hg := Dbl_gt_weaken _ 30 20 hoff (by norm_num)
  have hoff2 := hoff
  rw [Dbl_fin_sub_swap] at hoff2
  have h30 := Dbl_fabs_lt_of_neg_gt _ 30 30 hoff2 (le_refl _)
  have h20 := Dbl_fabs_lt_of_neg_gt _ 30 20 hoff2 (by norm_num)
  have hr := Dbl_gt_of_neg_gt _ 30 20 hoff2 (by norm_num)
  apply Evals_cmds
  · unfold Lander_Control_M
    repeat' first
      | dsimp only
      | with_reducible exact Evals_pure _
      | with_reducible exact Robust_VX_evals e he m
      | with_reducible exact Robust_VY_evals e he m
      | with_reducible exact Robust_PX_evals e he m
      | with_reducible exact Robust_PY_evals e he m
      | with_reducible exact Main_Thruster_evals _
      | (with_reducible apply Evals_ite_cand_true; (case ha => assumption); (case hb => assumption))
      | (with_reducible apply Evals_ite_cand_left; case ha => assumption)
      | (with_reducible apply Evals_ite_true; case h => assumption)
      | (with_reducible apply Evals_ite_false; case h => assumption)
      | with_reducible apply Evals_bind
      | with_reducible apply Evals_ite
      | with_reducible apply Evals_cand
  · simp only [List.append_nil, List.nil_append, ite_self]
    rfl

/-- The variant R coasts when the craft, right of the platform beyond the
dead-band, moves towards it within the bound. -/
theorem Lander_Control_R_coast_right (e : Env) (he : e.Steady) (m : Mem)
    (hd : Dbl.lt (steadyVY e m) (Lander_Control_R_VYlim e m) = false)
    (hoff : Dbl.gt (steadyPX e m - Dbl.fin e.PLAT_X) (Dbl.fin 25) = true)
    (hv1 : Dbl.gt (steadyVX e m) (-Lander_Control_R_VXlim e m) = true)
    (hv2 : Dbl.lt (steadyVX e m) (Dbl.fin 0) = true) (r : Sensor → Nat) :
    (Lander_Control_R e m r).cmds =
      [Cmd.thrust Thruster.Right (Dbl.fin 0), Cmd.thrust Thruster.Right (Dbl.fin 0)] := by
  unfold Lander_Control_R_VYlim coupled at hd
  unfold Lander_Control_R_VXlim coupled at hv1
  have h25 := Dbl_lt_of_gt _ 25 25 hoff (le_refl _)
  have h15 := Dbl_lt_of_gt _ 25 15 hoff (by norm_num)
  have hf15 := Dbl_fabs_lt_of_gt _ 25 15 hoff (by norm_num)
  have hg15 := Dbl_gt_weaken _ 25 15 hoff (by norm_num)
  have hg20 := Dbl_gt_weaken _ 25 20 hoff (by norm_num)
  have hin : (if Dbl.gt (steadyPX e m - Dbl.fin e.PLAT_X) (Dbl.fin (-20)) = true then
      Dbl.lt (steadyPX e m - Dbl.fin e.PLAT_X) (Dbl.fin 25) else false) = false := by
    rw [h25]
    exact ite_self _
  apply Evals_cmds
  · unfold Lander_Control_R
    repeat' first
      | dsimp only
      | with_reducible exact Evals_pure _
      | with_reducible exact Robust_VX_evals e he m
      | with_reducible exact Robust_VY_evals e he m
      | with_reducible exact Robust_PX_evals e he m
      | with_reducible exact Robust_PY_evals e he m
      | with_reducible exact Right_Thruster_evals _
      | (with_reducible apply Evals_ite_cand_true; (case ha => assumption); (case hb => assumption))
      | (with_reducible apply Evals_ite_cand_left; case ha => assumption)
      | (with_reducible apply Evals_ite_cand_right; case hb => assumption)
      | (with_reducible apply Evals_ite_true; case h => assumption)
      | (with_reducible apply Evals_ite_false; case h => assumption)
      | with_reducible apply Evals_bind
      | with_reducible apply Evals_ite
      | with_reducible apply Evals_cand
  · simp only [List.append_nil, List.nil_append, ite_self]
    rfl

/-- The variant R coasts when the craft, left of the platform beyond the
dead-band, moves towards it within the bound. -/
theorem Lander_Control_R_coast_left (e : Env) (he : e.Steady) (m : Mem)
    (hd : Dbl.lt (steadyVY e m) (Lander_Control_R_VYlim e m) = false)
    (hoff : Dbl.gt (Dbl.fin e.PLAT_X - steadyPX e m) (Dbl.fin 20) = true)
    (hv1 : Dbl.lt (steadyVX e m) (Lander_Control_R_VXlim e m) = true)
    (hv2 : Dbl.gt (steadyVX e m) (Dbl.fin 0) = true) (r : Sensor → Nat) :
    (Lander_Control_R e m r).cmds =
      [Cmd.thrust Thruster.Right (Dbl.fin 0), Cmd.thrust Thruster.Right (Dbl.fin 0)] := by
  unfold Lander_Control_R_VYlim coupled at hd
  unfold Lander_Control_R_VXlim coupled at hv1
  have hg := Dbl_gt_weaken _ 20 15 hoff (by norm_num)
  have hoff2 := hoff
  rw [Dbl_fin_sub_swap] at hoff2
  have hm20 := Dbl_gt_of_neg_gt _ 20 (-20) hoff2 (le_refl _)
  have h0 := Dbl_gt_of_neg_gt _ 20 0 hoff2 (by norm_num)
  have h15 := Dbl_gt_of_neg_gt _ 20 15 hoff2 (by norm_num)
  have h20 := Dbl_gt_of_neg_gt _ 20 20 hoff2 (by norm_num)
  have hf15 := Dbl_fabs_lt_of_neg_gt _ 20 15 hoff2 (by norm_num)
  have hin : (if Dbl.gt (steadyPX e m - Dbl.fin e.PLAT_X) (Dbl.fin (-20)) = true then
      Dbl.lt (steadyPX e m - Dbl.fin e.PLAT_X) (Dbl.fin 25) else false) = false := by
    rw [hm20]
    rfl
  apply Evals_cmds
  · unfold Lander_Control_R
    repeat' first
      | dsimp only
      | with_reducible exact Evals_pure _
      | with_reducible exact Robust_VX_evals e he m
      | with_reducible exact Robust_VY_evals e he m
      | with_reducible exact Robust_PX_evals e he m
      | with_reducible exact Robust_PY_evals e he m
      | with_reducible exact Right_Thruster_evals _
      | (with_reducible apply Evals_ite_cand_true; (case ha => assumption); (case hb => assumption))
      | (with_reducible apply Evals_ite_cand_left; case ha => assumption)
      | (with_reducible apply Evals_ite_true; case h => assumption)
      | (with_reducible apply Evals_ite_false; case h => assumption)
      | with_reducible apply Evals_bind
      | with_reducible apply Evals_ite
      | with_reducible apply Evals_cand
  · simp only [List.append_nil, List.nil_append, ite_self]
    rfl

/-- The variant L coasts when the craft, right of the platform beyond the
dead-band, moves towards it within the bound. -/
theorem Lander_Control_L_coast_right (e : Env) (he : e.Steady) (m : Mem)
    (hd : Dbl.lt (steadyVY e m) (Lander_Control_R_VYlim e m) = false)
    (hoff : Dbl.gt (steadyPX e m - Dbl.fin e.PLAT_X) (Dbl.fin 25) = true)
    (hv1 : Dbl.gt (steadyVX e m) (-Lander_Control_L_VXlim e m) = true)
    (hv2 : Dbl.lt (steadyVX e m) (Dbl.fin 0) = true) (r : Sensor → Nat) :
    (Lander_Control_L e m r).cmds =
      [Cmd.thrust Thruster.Left (Dbl.fin 0), Cmd.thrust Thruster.Left (Dbl.fin 0)] := by
  unfold Lander_Control_R_VYlim coupled at hd
  unfold Lander_Control_L_VXlim coupled at hv1
  have h25 := Dbl_lt_of_gt _ 25 25 hoff (le_refl _)
  have h15 := Dbl_lt_of_gt _ 25 15 hoff (by norm_num)
  have hf15 := Dbl_fabs_lt_of_gt _ 25 15 hoff (by norm_num)
  have hg15 := Dbl_gt_weaken _ 25 15 hoff (by norm_num)
  have hg20 := Dbl_gt_weaken _ 25 20 hoff (by norm_num)
  have hin : (if Dbl.gt (steadyPX e m - Dbl.fin e.PLAT_X) (Dbl.fin (-20)) = true then
      Dbl.lt (steadyPX e m - Dbl.fin e.PLAT_X) (Dbl.fin 25) else false) = false := by
    rw [h25]
    exact ite_self _
  apply Evals_cmds
  · unfold Lander_Control_L
    repeat' first
      | dsimp only
      | with_reducible exact Evals_pure _
      | with_reducible exact Robust_VX_evals e he m
      | with_reducible exact Robust_VY_evals e he m
      | with_reducible exact Robust_PX_evals e he m
      | with_reducible exact Robust_PY_evals e he m
      | with_reducible exact Left_Thruster_evals _
      | (with_reducible apply Evals_ite_cand_true; (case ha => assumption); (case hb => assumption))
      | (with_reducible apply Evals_ite_cand_left; case ha => assumption)
      | (with_reducible apply Evals_ite_true; case h => assumption)
      | (with_reducible apply Evals_ite_false; case h => assumption)
      | with_reducible apply Evals_bind
      | with_reducible apply Evals_ite
      | with_reducible apply Evals_cand
  · simp only [List.append_nil, List.nil_append, ite_self]
    rfl

/-- The variant L coasts when the craft, left of the platform beyond the
dead-band, moves towards it within the bound. -/
theorem Lander_Control_L_coast_left (e : Env) (he : e.Steady) (m : Mem)
    (hd : Dbl.lt (steadyVY e m) (Lander_Control_R_VYlim e m) = false)
    (hoff : Dbl.gt (Dbl.fin e.PLAT_X - steadyPX e m) (Dbl.fin 20) = true)
    (hv1 : Dbl.lt (steadyVX e m) (Lander_Control_L_VXlim e m) = true)
    (hv2 : Dbl.gt (steadyVX e m) (Dbl.fin 0) = true) (r : Sensor → Nat) :
    (Lander_Control_L e m r).cmds =
      [Cmd.thrust Thruster.Left (Dbl.fin 0), Cmd.thrust Thruster.Left (Dbl.fin 0)] := by
  unfold Lander_Control_R_VYlim coupled at hd
  unfold Lander_Control_L_VXlim coupled at hv1
  have hg := Dbl_gt_weaken _ 20 15 hoff (by norm_num)
  have hoff2 := hoff
  rw [Dbl_fin_sub_swap] at hoff2
  have hm20 := Dbl_gt_of_neg_gt _ 20 (-20) hoff2 (le_refl _)
  have h0 := Dbl_gt_of_neg_gt _ 20 0 hoff2 (by norm_num)
  have h15 := Dbl_gt_of_neg_gt _ 20 15 hoff2 (by norm_num)
  have h20 := Dbl_gt_of_neg_gt _ 20 20 hoff2 (by norm_num)
  have hf15 := Dbl_fabs_lt_of_neg_gt _ 20 15 hoff2 (by norm_num)
  have hin : (if Dbl.gt (steadyPX e m - Dbl.fin e.PLAT_X) (Dbl.fin (-20)) = true then
      Dbl.lt (steadyPX e m - Dbl.fin e.PLAT_X) (Dbl.fin 25) else false) = false := by
    rw [hm20]
    rfl
  apply Evals_cmds
  · unfold Lander_Control_L
    repeat' first
      | dsimp only
      | with_reducible exact Evals_pure _
      | with_reducible exact Robust_VX_evals e he m
      | with_reducible exact Robust_VY_evals e he m
      | with_reducible exact Robust_PX_evals e he m
      | with_reducible exact Robust_PY_evals e he m
      | with_reducible exact Left_Thruster_evals _
      | (with_reducible apply Evals_ite_cand_true; (case ha => assumption); (case hb => assumption))
      | (with_reducible apply Evals_ite_cand_left; case ha => assumption)
      | (with_reducible apply Evals_ite_true; case h => assumption)
      | (with_reducible apply Evals_ite_false; case h => assumption)
      | with_reducible apply Evals_bind
      | with_reducible apply Evals_ite
      | with_reducible apply Evals_cand
  · simp only [List.append_nil, List.nil_append, ite_self]
    rfl

theorem Dbl_lt_fin (a b : ℚ) : Dbl.lt (Dbl.fin a) (Dbl.fin b) = decide (a < b) := rfl

theorem Dbl_gt_nan (x : Dbl) : Dbl.gt Dbl.nan x = false := by
  cases x <;> rfl

/-- The example of a craft in the dead-band of the variant M: at (512, 200)
over the platform at (512, 1000), no horizontal velocity, vertical velocity
not below -20. -/
theorem envPad_dead_band (vy a : ℚ) (h1 : -20 ≤ vy) (r : Sensor → Nat) :
    (Lander_Control_M (envPad vy a) Mem.init r).cmds = [Cmd.thrust Thruster.Main (Dbl.fin 0)] := by
  have hx : steadyPX (envPad vy a) Mem.init = Dbl.fin 512 := rfl
  have hy : steadyPY (envPad vy a) Mem.init = Dbl.fin 200 := rfl
  have hvx : steadyVX (envPad vy a) Mem.init = Dbl.fin 0 := rfl
  have hvy : steadyVY (envPad vy a) Mem.init = Dbl.fin vy := rfl
  have hpx : (envPad vy a).PLAT_X = 512 := rfl
  have hpy : (envPad vy a).PLAT_Y = 1000 := rfl
  apply Lander_Control_M_dead_band (envPad vy a) (Env_steady_Steady _ _ _ _ _ _ _) Mem.init
  · unfold Lander_Control_M_VYlim coupled
    rw [hx, hy, hvx, hvy, hpx, hpy]
    have h0 : Dbl.fabs (Dbl.fin 512 - Dbl.fin 512) / Dbl.fabs (Dbl.fin 0) = Dbl.nan := by
      rw [Dbl_fin_sub, Dbl_fabs_fin, Dbl_fabs_fin]
      norm_num [Dbl_zero_div_zero]
    have h2 : Dbl.gt (Dbl.fin 1000 - Dbl.fin 200) (Dbl.fin 200) = true := by
      rw [Dbl_fin_sub, Dbl_gt_fin]
      norm_num
    rw [h0, Dbl_gt_nan, h2]
    simp only [Bool.false_eq_true, if_false, if_true, Dbl_lt_fin, decide_eq_false_iff_not, not_lt]
    exact h1
  · rw [hx, hpx, Dbl_fin_sub, Dbl_fabs_fin, Dbl_lt_fin]
    norm_num

/-! ## Rotations by the short way -/

theorem halvings_spec (f : Nat) : ∀ n : Nat, n ≠ 0 → n ≤ f →
    2 ^ Dbl.halvings f n ≤ n ∧ n < 2 ^ (Dbl.halvings f n + 1) := by
  induction f with
  | zero =>
    intro n hn hf
    omega
  | succ f ih =>
    intro n hn hf
    unfold Dbl.halvings
    by_cases h : 2 ≤ n
    · rw [if_pos h]
      obtain ⟨h1, h2⟩ := ih (n / 2) (by omega) (by omega)
      constructor
      · rw [pow_succ]
        omega
      · rw [pow_succ]
        omega
    · rw [if_neg h]
      constructor
      · simp only [pow_zero]
        omega
      · simp only [zero_add, pow_one]
        omega

theorem nlog2_spec (n : Nat) (hn : n ≠ 0) :
    2 ^ Dbl.nlog2 n ≤ n ∧ n < 2 ^ (Dbl.nlog2 n + 1) :=
  halvings_spec n n hn (le_refl n)

theorem pow2_eq (k : ℤ) : Dbl.pow2 k = (2 : ℚ) ^ k := by
  unfold Dbl.pow2
  by_cases h : 0 ≤ k
  · rw [if_pos h]
    obtain ⟨n, rfl⟩ := Int.eq_ofNat_of_zero_le h
    simp
  · rw [if_neg h]
    obtain ⟨n, hn⟩ := Int.eq_ofNat_of_zero_le (show 0 ≤ -k by omega)
    have hk : k = -(n : ℤ) := by omega
    subst hk
    simp

theorem pow2_pos (k : ℤ) : 0 < Dbl.pow2 k := by
  rw [pow2_eq]
  positivity

theorem pow2_add (j k : ℤ) : Dbl.pow2 (j + k) = Dbl.pow2 j * Dbl.pow2 k := by
  rw [pow2_eq, pow2_eq, pow2_eq, zpow_add₀ (by norm_num)]

theorem pow2_le (j k : ℤ) (h : j ≤ k) : Dbl.pow2 j ≤ Dbl.pow2 k := by
  rw [pow2_eq, pow2_eq]
  exact zpow_le_zpow_right₀ (by norm_num) h

theorem pow2_lt (j k : ℤ) (h : j < k) : Dbl.pow2 j < Dbl.pow2 k := by
  rw [pow2_eq, pow2_eq]
  exact zpow_lt_zpow_right₀ (by norm_num) h

theorem pow2_natCast (n : Nat) : Dbl.pow2 (n : ℤ) = (2 : ℚ) ^ n := by
  rw [pow2_eq, zpow_natCast]

/-- The binary logarithm `ilog2 q` is the exponent of the binade of `q`. -/
theorem ilog2_spec (q : ℚ) (hq : q ≠ 0) :
    Dbl.pow2 (Dbl.ilog2 q) ≤ |q| ∧ |q| < Dbl.pow2 (Dbl.ilog2 q + 1) := by
  have hn : q.num.natAbs ≠ 0 := by
    simpa using hq
  have hd : q.den ≠ 0 := q.den_nz
  obtain ⟨a1, a2⟩ := nlog2_spec _ hn
  obtain ⟨b1, b2⟩ := nlog2_spec _ hd
  have hdq : (0 : ℚ) < q.den := by exact_mod_cast Nat.pos_of_ne_zero hd
  have habs : |q| = (q.num.natAbs : ℚ) / (q.den : ℚ) := by
    conv_lhs => rw [← Rat.num_div_den q]
    rw [abs_div, Nat.abs_cast, Nat.cast_natAbs, Int.cast_abs]
  unfold Dbl.ilog2
  rw [habs]
  clear habs
  generalize Dbl.nlog2 q.num.natAbs = a at *
  generalize Dbl.nlog2 q.den = b at *
  generalize q.num.natAbs = n at *
  generalize q.den = d at *
  have pa : Dbl.pow2 ((a : ℤ) - b) = (2 : ℚ) ^ a / (2 : ℚ) ^ b := by
    rw [pow2_eq, zpow_sub₀ (by norm_num), zpow_natCast, zpow_natCast]
  have pb : Dbl.pow2 ((a : ℤ) - b - 1) = (2 : ℚ) ^ a / (2 : ℚ) ^ (b + 1) := by
    rw [show (a : ℤ) - b - 1 = (a : ℤ) - ((b + 1 : ℕ) : ℤ) by push_cast; ring, pow2_eq,
      zpow_sub₀ (by norm_num), zpow_natCast, zpow_natCast]
  have pc : Dbl.pow2 ((a : ℤ) - b + 1) = (2 : ℚ) ^ (a + 1) / (2 : ℚ) ^ b := by
    rw [show (a : ℤ) - b + 1 = ((a + 1 : ℕ) : ℤ) - (b : ℤ) by push_cast; ring, pow2_eq,
      zpow_sub₀ (by norm_num), zpow_natCast, zpow_natCast]
  have h2b : (0 : ℚ) < (2 : ℚ) ^ b := by positivity
  have h2b1 : (0 : ℚ) < (2 : ℚ) ^ (b + 1) := by positivity
  have qa1 : ((2 : ℚ) ^ a) ≤ n := by exact_mod_cast a1
  have qa2 : (n : ℚ) < (2 : ℚ) ^ (a + 1) := by exact_mod_cast a2
  have qb1 : ((2 : ℚ) ^ b) ≤ d := by exact_mod_cast b1
  have qb2 : (d : ℚ) < (2 : ℚ) ^ (b + 1) := by exact_mod_cast b2
  have hn0 : (0 : ℚ) ≤ n := Nat.cast_nonneg n
  by_cases h : d * 2 ^ a ≤ n * 2 ^ b
  · rw [if_pos h, pa, pc]
    have hq : (d : ℚ) * 2 ^ a ≤ n * 2 ^ b := by exact_mod_cast h
    constructor
    · rw [div_le_div_iff₀ h2b hdq]
      linarith
    · rw [div_lt_div_iff₀ hdq h2b]
      nlinarith
  · rw [if_neg h, pb]
    have hq : (n : ℚ) * 2 ^ b < d * 2 ^ a := by
      have := not_le.1 h
      exact_mod_cast this
    constructor
    · rw [div_le_div_iff₀ h2b1 hdq]
      have : (0 : ℚ) < 2 ^ a := by positivity
      nlinarith
    · rw [show (a : ℤ) - b - 1 + 1 = (a : ℤ) - b by ring, pa, div_lt_div_iff₀ hdq h2b]
      linarith

theorem ilog2_unique (q : ℚ) (k : ℤ) (h1 : Dbl.pow2 k ≤ |q|) (h2 : |q| < Dbl.pow2 (k + 1)) :
    Dbl.ilog2 q = k := by
  have hq : q ≠ 0 := by
    rintro rfl
    have := pow2_pos k
    rw [abs_zero] at h1
    linarith
  obtain ⟨s1, s2⟩ := ilog2_spec q hq
  by_contra hne
  rcases lt_or_gt_of_ne hne with h | h
  · have := pow2_le (Dbl.ilog2 q + 1) k (by omega)
    linarith
  · have := pow2_le (k + 1) (Dbl.ilog2 q) (by omega)
    linarith

theorem roundHalfEven_near (q : ℚ) (z : ℤ) (h : |q - z| < 1 / 2) : Dbl.roundHalfEven q = z := by
  obtain ⟨h1, h2⟩ := abs_lt.1 h
  unfold Dbl.roundHalfEven
  by_cases hz : ⌊q⌋ = z
  · rw [hz, if_pos (by linarith)]
  · have hz1 : ⌊q⌋ = z - 1 := by
      rw [Int.floor_eq_iff]
      constructor
      · push_cast
        linarith
      · push_cast
        by_contra hc
        apply hz
        rw [Int.floor_eq_iff]
        constructor
        · linarith
        · linarith
    rw [hz1]
    push_cast
    rw [if_neg (by linarith), if_pos (by linarith)]
    ring

theorem roundHalfEven_int (z : ℤ) : Dbl.roundHalfEven (z : ℚ) = z :=
  roundHalfEven_near z z (by simp)

theorem roundHalfEven_dist (q : ℚ) : |(Dbl.roundHalfEven q : ℚ) - q| ≤ 1 / 2 := by
  have h1 := Int.floor_le q
  have h2 := Int.lt_floor_add_one q
  unfold Dbl.roundHalfEven
  rw [abs_le]
  split_ifs <;> push_cast <;> constructor <;> linarith

theorem rne_eq (q : ℚ) (k : ℤ) (hq : q ≠ 0) (hk : max (Dbl.ilog2 q - 52) (-1074) = k)
    (hr : |(Dbl.roundHalfEven (q / Dbl.pow2 k) : ℚ) * Dbl.pow2 k| < Dbl.pow2 1024) :
    Dbl.rne q = Dbl.fin ((Dbl.roundHalfEven (q / Dbl.pow2 k) : ℚ) * Dbl.pow2 k) := by
  unfold Dbl.rne
  rw [if_neg hq, hk, if_neg (not_le.2 hr)]

/-- Rounding inside a binade of normal numbers: with `2 ^ (k + 52) <= |q| <
2 ^ (k + 53)` the result is the multiple of `2 ^ k` nearest to `q`. -/
theorem rne_binade (q : ℚ) (k : ℤ) (hk1 : -1074 ≤ k) (hk2 : k ≤ 970)
    (h1 : Dbl.pow2 (k + 52) ≤ |q|) (h2 : |q| < Dbl.pow2 (k + 53)) :
    Dbl.rne q = Dbl.fin ((Dbl.roundHalfEven (q / Dbl.pow2 k) : ℚ) * Dbl.pow2 k) := by
  have hq : q ≠ 0 := by
    rintro rfl
    have := pow2_pos (k + 52)
    rw [abs_zero] at h1
    linarith
  have he : Dbl.ilog2 q = k + 52 := ilog2_unique q (k + 52) h1 (by
    rw [show k + 52 + 1 = k + 53 by ring]
    exact h2)
  have hp := pow2_pos k
  apply rne_eq q k hq
  · rw [he]
    omega
  · rw [abs_mul, abs_of_pos hp]
    have hd := roundHalfEven_dist (q / Dbl.pow2 k)
    have hqk : |q / Dbl.pow2 k| < Dbl.pow2 53 := by
      rw [abs_div, abs_of_pos hp, div_lt_iff₀ hp, ← pow2_add]
      rw [show (53 : ℤ) + k = k + 53 by ring]
      exact h2
    have h3 : |(Dbl.roundHalfEven (q / Dbl.pow2 k) : ℚ)| ≤ Dbl.pow2 53 + 1 / 2 := by
      have := abs_sub_abs_le_abs_sub ((Dbl.roundHalfEven (q / Dbl.pow2 k) : ℚ)) (q / Dbl.pow2 k)
      linarith
    have h4 : Dbl.pow2 1024 = Dbl.pow2 (1024 - k) * Dbl.pow2 k := by
      rw [← pow2_add]
      congr 1
      ring
    rw [h4]
    apply mul_lt_mul_of_pos_right _ hp
    have h5 : Dbl.pow2 54 ≤ Dbl.pow2 (1024 - k) := pow2_le _ _ (by omega)
    have h6 : Dbl.pow2 53 + 1 / 2 < Dbl.pow2 54 := by
      rw [pow2_eq, pow2_eq]
      norm_num
    linarith

/-- A multiple `z * 2 ^ j` with `|z| < 2 ^ 53` and `-1074 <= j <= 970` is a
`double`: rounding returns it unchanged. -/
theorem rne_exact (z j : ℤ) (hz : |z| < 2 ^ 53) (hj1 : -1074 ≤ j) (hj2 : j ≤ 970) :
    Dbl.rne ((z : ℚ) * Dbl.pow2 j) = Dbl.fin ((z : ℚ) * Dbl.pow2 j) := by
  by_cases hz0 : z = 0
  · subst hz0
    simp [Dbl.rne]
  have hpj := pow2_pos j
  have hq : (z : ℚ) * Dbl.pow2 j ≠ 0 := mul_ne_zero (by exact_mod_cast hz0) (ne_of_gt hpj)
  obtain ⟨s1, _⟩ := ilog2_spec _ hq
  have hzq : |(z : ℚ)| < Dbl.pow2 53 := by
    rw [pow2_eq]
    have : ((|z| : ℤ) : ℚ) < ((2 ^ 53 : ℤ) : ℚ) := by exact_mod_cast hz
    rw [Int.cast_abs] at this
    rw [show ((53 : ℤ)) = ((53 : ℕ) : ℤ) by rfl, zpow_natCast]
    exact_mod_cast this
  have hle : Dbl.ilog2 ((z : ℚ) * Dbl.pow2 j) - 52 ≤ j := by
    by_contra hc
    have h1 : Dbl.pow2 (53 + j) ≤ Dbl.pow2 (Dbl.ilog2 ((z : ℚ) * Dbl.pow2 j)) :=
      pow2_le _ _ (by omega)
    rw [abs_mul, abs_of_pos hpj] at s1
    rw [pow2_add] at h1
    have : |(z : ℚ)| * Dbl.pow2 j < Dbl.pow2 53 * Dbl.pow2 j :=
      mul_lt_mul_of_pos_right hzq hpj
    linarith
  generalize hk : max (Dbl.ilog2 ((z : ℚ) * Dbl.pow2 j) - 52) (-1074) = k
  have hkj : k ≤ j := by
    rw [← hk]
    omega
  have hpk := pow2_pos k
  obtain ⟨n, hn⟩ := Int.eq_ofNat_of_zero_le (show 0 ≤ j - k by omega)
  have hdiv : (z : ℚ) * Dbl.pow2 j / Dbl.pow2 k = ((z * 2 ^ n : ℤ) : ℚ) := by
    rw [show j = (j - k) + k by ring, pow2_add, hn, pow2_natCast]
    field_simp
    ring
  have hval : ((z * 2 ^ n : ℤ) : ℚ) * Dbl.pow2 k = (z : ℚ) * Dbl.pow2 j := by
    rw [← hdiv]
    field_simp
  have hres := rne_eq _ k hq hk (by
    rw [hdiv, roundHalfEven_int, hval, abs_mul, abs_of_pos hpj]
    have h1 : |(z : ℚ)| * Dbl.pow2 j < Dbl.pow2 53 * Dbl.pow2 j :=
      mul_lt_mul_of_pos_right hzq hpj
    have h2 : Dbl.pow2 53 * Dbl.pow2 j ≤ Dbl.pow2 1024 := by
      rw [← pow2_add]
      exact pow2_le _ _ (by omega)
    linarith)
  rw [hres, hdiv, roundHalfEven_int, hval]

/-! ## The estimators in `double` arithmetic -/

theorem pow2_zero : Dbl.pow2 0 = 1 := by
  rw [pow2_eq, zpow_zero]

/-- A natural number below `2 ^ 53` is a `double`. -/
theorem rne_natCast (n : Nat) (hn : n < 2 ^ 53) : Dbl.rne (n : ℚ) = Dbl.fin (n : ℚ) := by
  have h := rne_exact (n : ℤ) 0 (by rw [abs_of_nonneg (by positivity)]; exact_mod_cast hn)
    (by norm_num) (by norm_num)
  rw [pow2_zero, mul_one, Int.cast_natCast] at h
  exact h

theorem round_fin (q : ℚ) : Dbl.round (Dbl.fin q) = Dbl.rne q := rfl

/-- The loop of `Robust_Velocity_X_rounded` over a buffer of numbers: the
rounded sum of the rounded differences of the valid pairs, and their count. -/
theorem Robust_Velocity_X_rounded_loop (A : Fin 22 → Dbl) (p : Nat → ℚ) (hA : Holds A p)
    (n : Nat) (hn : n ≤ 21) :
    (List.range n).foldl (fun (dc : Dbl × Dbl) i =>
      if Dbl.eq (at22 A i) (Dbl.fin 0) || Dbl.eq (at22 A (i + 1)) (Dbl.fin 0) then dc
      else (Dbl.round (dc.1 + Dbl.round (at22 A i - at22 A (i + 1))),
        Dbl.round (dc.2 + Dbl.fin 1))) (Dbl.fin 0, Dbl.fin 0)
      = (sumPairs_rounded p n, Dbl.fin (validPairs p n)) := by
  induction n with
  | zero => simp [sumPairs_rounded, validPairs]
  | succ n ih =>
    have hv : validPairs p n + 1 < 2 ^ 53 := by
      have : ∀ j, validPairs p j ≤ j := by
        intro j
        induction j with
        | zero => simp [validPairs]
        | succ j ihj =>
          simp only [validPairs]
          split_ifs <;> omega
      have := this n
      have h2 : (21 : ℕ) + 1 < 2 ^ 53 := by norm_num
      omega
    have hc : Dbl.round (Dbl.fin (validPairs p n) + Dbl.fin 1) =
        Dbl.fin ((validPairs p n + 1 : ℕ) : ℚ) := by
      rw [Dbl_fin_add, round_fin, ← rne_natCast _ hv]
      push_cast
      rfl
    rw [List.range_succ, List.foldl_append, ih (by omega)]
    simp only [List.foldl_cons, List.foldl_nil, hA n (by omega), hA (n + 1) (by omega),
      Dbl_eq_fin, sumPairs_rounded, validPairs, hc]
    by_cases h1 : p n = 0
    · simp [h1]
    · by_cases h2 : p (n + 1) = 0
      · simp [h2]
      · simp [h1, h2]

/-- The loop of `Robust_Velocity_Y_rounded`: as for X, with every rounded
difference negated. -/
theorem Robust_Velocity_Y_rounded_loop (A : Fin 22 → Dbl) (p : Nat → ℚ) (hA : Holds A p)
    (n : Nat) (hn : n ≤ 21) :
    (List.range n).foldl (fun (dc : Dbl × Dbl) i =>
      if Dbl.eq (at22 A i) (Dbl.fin 0) || Dbl.eq (at22 A (i + 1)) (Dbl.fin 0) then dc
      else (Dbl.round (dc.1 + -Dbl.round (at22 A i - at22 A (i + 1))),
        Dbl.round (dc.2 + Dbl.fin 1))) (Dbl.fin 0, Dbl.fin 0)
      = (sumPairs_neg_rounded p n, Dbl.fin (validPairs p n)) := by
  induction n with
  | zero => simp [sumPairs_neg_rounded, validPairs]
  | succ n ih =>
    have hv : validPairs p n + 1 < 2 ^ 53 := by
      have : ∀ j, validPairs p j ≤ j := by
        intro j
        induction j with
        | zero => simp [validPairs]
        | succ j ihj =>
          simp only [validPairs]
          split_ifs <;> omega
      have := this n
      have h2 : (21 : ℕ) + 1 < 2 ^ 53 := by norm_num
      omega
    have hc : Dbl.round (Dbl.fin (validPairs p n) + Dbl.fin 1) =
        Dbl.fin ((validPairs p n + 1 : ℕ) : ℚ) := by
      rw [Dbl_fin_add, round_fin, ← rne_natCast _ hv]
      push_cast
      rfl
    rw [List.range_succ, List.foldl_append, ih (by omega)]
    simp only [List.foldl_cons, List.foldl_nil, hA n (by omega), hA (n + 1) (by omega),
      Dbl_eq_fin, sumPairs_neg_rounded, validPairs, hc]
    by_cases h1 : p n = 0
    · simp [h1]
    · by_cases h2 : p (n + 1) = 0
      · simp [h2]
      · simp [h1, h2]

/-- The value of `Robust_Velocity_X_rounded` on a buffer of numbers. -/
theorem Robust_Velocity_X_rounded_eq (m : Mem) (p : Nat → ℚ) (hA : Holds m.POS_X p) :
    Robust_Velocity_X_rounded m =
      Dbl.round (Dbl.round (Dbl.round (sumPairs_rounded p 21 / Dbl.fin (validPairs p 21)) /
        T_STEP_rounded) / S_SCALE) := by
  unfold Robust_Velocity_X_rounded
  rw [Robust_Velocity_X_rounded_loop m.POS_X p hA 21 (le_refl _)]

/-- The value of `Robust_Velocity_Y_rounded` on a buffer of numbers. -/
theorem Robust_Velocity_Y_rounded_eq (m : Mem) (p : Nat → ℚ) (hA : Holds m.POS_Y p) :
    Robust_Velocity_Y_rounded m =
      Dbl.round (Dbl.round (Dbl.round (sumPairs_neg_rounded p 21 / Dbl.fin (validPairs p 21)) /
        T_STEP_rounded) / S_SCALE) := by
  unfold Robust_Velocity_Y_rounded
  rw [Robust_Velocity_Y_rounded_loop m.POS_Y p hA 21 (le_refl _)]

/-- On a buffer whose populated slots are exactly the first `k`, the rounded
sums run over the first `k - 1` differences. -/
theorem pairs_prefix_rounded (p : Nat → ℚ) (k : Nat) (hk : 1 ≤ k)
    (hpre : ∀ i, i < 22 → (p i ≠ 0 ↔ i < k)) (n : Nat) (hn : n ≤ 21) :
    sumPairs_rounded p n = sumDiffs_rounded p (min n (k - 1)) ∧
      sumPairs_neg_rounded p n = sumDiffs_neg_rounded p (min n (k - 1)) := by
  induction n with
  | zero => simp [sumPairs_rounded, sumDiffs_rounded, sumPairs_neg_rounded, sumDiffs_neg_rounded]
  | succ n ih =>
    obtain ⟨ih1, ih2⟩ := ih (by omega)
    simp only [sumPairs_rounded, sumPairs_neg_rounded, ih1, ih2]
    by_cases h : n + 1 < k
    · have hv : p n ≠ 0 ∧ p (n + 1) ≠ 0 :=
        ⟨(hpre n (by omega)).2 (by omega), (hpre (n + 1) (by omega)).2 h⟩
      rw [if_pos hv, if_pos hv]
      have e1 : min n (k - 1) = n := by omega
      have e2 : min (n + 1) (k - 1) = n + 1 := by omega
      rw [e1, e2]
      exact ⟨rfl, rfl⟩
    · have hv : ¬(p n ≠ 0 ∧ p (n + 1) ≠ 0) := fun hv =>
        h ((hpre (n + 1) (by omega)).1 hv.2)
      rw [if_neg hv, if_neg hv]
      have e1 : min n (k - 1) = k - 1 := by omega
      have e2 : min (n + 1) (k - 1) = k - 1 := by omega
      rw [e1, e2]
      exact ⟨rfl, rfl⟩

/-! ## The history update in `double` arithmetic -/

theorem sumFrom_replicate_add (s c : Dbl) (i j n : Nat) (h : n = i + j) :
    Dbl.sumFrom s (List.replicate n c) =
      Dbl.sumFrom (Dbl.sumFrom s (List.replicate i c)) (List.replicate j c) := by
  subst h
  unfold Dbl.sumFrom
  rw [List.replicate_add, List.foldl_append]

theorem sumFrom_replicate_succ (s c : Dbl) (n : Nat) :
    Dbl.sumFrom s (List.replicate (n + 1) c) =
      Dbl.sumFrom (Dbl.round (s + c)) (List.replicate n c) := by
  unfold Dbl.sumFrom
  rw [List.replicate_succ, List.foldl_cons]

/-- One addition inside a binade: with `s = a * 2 ^ j`, `2 ^ 52 <= a`,
`a + b < 2 ^ 53` and `b * 2 ^ j` the multiple of `2 ^ j` nearest to `c > 0`,
the rounded sum `s + c` is `(a + b) * 2 ^ j`. -/
theorem round_add_binade (c : ℚ) (j : ℤ) (b : ℕ) (hj1 : -1074 ≤ j) (hj2 : j ≤ 970) (hc : 0 < c)
    (hb : |c - b * Dbl.pow2 j| < Dbl.pow2 j / 2) (a : ℕ) (ha : 2 ^ 52 ≤ a)
    (hab : a + b < 2 ^ 53) :
    Dbl.round (Dbl.fin ((a : ℕ) * Dbl.pow2 j) + Dbl.fin c) =
      Dbl.fin (((a + b : ℕ) : ℚ) * Dbl.pow2 j) := by
  have hu := pow2_pos j
  obtain ⟨hb1, hb2⟩ := abs_lt.1 hb
  have haq : ((2 : ℚ) ^ 52) ≤ (a : ℚ) := by exact_mod_cast ha
  have habq : ((a : ℚ) + b) + 1 ≤ (2 : ℚ) ^ 53 := by exact_mod_cast hab
  have h52 : Dbl.pow2 (j + 52) = (2 : ℚ) ^ 52 * Dbl.pow2 j := by
    rw [add_comm, pow2_add, show (52 : ℤ) = ((52 : ℕ) : ℤ) by rfl, pow2_natCast]
  have h53 : Dbl.pow2 (j + 53) = (2 : ℚ) ^ 53 * Dbl.pow2 j := by
    rw [add_comm, pow2_add, show (53 : ℤ) = ((53 : ℕ) : ℤ) by rfl, pow2_natCast]
  have hpos : 0 < (a : ℚ) * Dbl.pow2 j + c := by positivity
  rw [Dbl_fin_add, round_fin, rne_binade _ j hj1 hj2]
  · have hr : Dbl.roundHalfEven (((a : ℚ) * Dbl.pow2 j + c) / Dbl.pow2 j) = ((a + b : ℕ) : ℤ) := by
      apply roundHalfEven_near
      have e : ((a : ℚ) * Dbl.pow2 j + c) / Dbl.pow2 j - (((a + b : ℕ) : ℤ) : ℚ) =
          (c - b * Dbl.pow2 j) / Dbl.pow2 j := by
        push_cast
        field_simp
        ring
      rw [e, abs_div, abs_of_pos hu, div_lt_iff₀ hu]
      linarith
    rw [hr]
    push_cast
    rfl
  · rw [abs_of_pos hpos, h52]
    nlinarith
  · rw [abs_of_pos hpos, h53]
    nlinarith

/-- A run of additions inside a binade: as long as `a + J * b < 2 ^ 53`, `J`
additions of `c` to `a * 2 ^ j` give `(a + J * b) * 2 ^ j`. -/
theorem sumFrom_phase (c : ℚ) (j : ℤ) (b : ℕ) (hj1 : -1074 ≤ j) (hj2 : j ≤ 970) (hc : 0 < c)
    (hb : |c - b * Dbl.pow2 j| < Dbl.pow2 j / 2) (J : ℕ) :
    ∀ a : ℕ, 2 ^ 52 ≤ a → a + J * b < 2 ^ 53 →
      Dbl.sumFrom (Dbl.fin ((a : ℕ) * Dbl.pow2 j)) (List.replicate J (Dbl.fin c)) =
        Dbl.fin (((a + J * b : ℕ) : ℚ) * Dbl.pow2 j) := by
  induction J with
  | zero =>
    intro a _ _
    simp [Dbl.sumFrom]
  | succ J ih =>
    intro a ha hJ
    have hab : a + b < 2 ^ 53 := by
      have : a + b ≤ a + (J + 1) * b := by
        have : b ≤ (J + 1) * b := Nat.le_mul_of_pos_left b (by omega)
        omega
      omega
    rw [sumFrom_replicate_succ, round_add_binade c j b hj1 hj2 hc hb a ha hab,
      ih (a + b) (by omega) (by
        have : a + b + J * b = a + (J + 1) * b := by ring
        omega)]
    congr 3
    ring

/-- One million additions of the double nearest to 0.1 in `double` arithmetic,
from 0: the sum is 100000.00000133288 (6871947673691595 * 2^(-36)). -/
theorem sumFrom_tenth_million :
    Dbl.sumFrom (Dbl.fin 0) (List.replicate 1000000 (Dbl.fin tenth)) =
      Dbl.fin ((6871947673691595 : ℕ) * Dbl.pow2 (-36)) := by
  have h1 : Dbl.sumFrom (Dbl.fin 0) (List.replicate 1 (Dbl.fin tenth)) =
      Dbl.fin ((7205759403792794 : ℕ) * Dbl.pow2 (-56)) := by decide!
  have h2 : Dbl.sumFrom (Dbl.fin 0) (List.replicate 2 (Dbl.fin tenth)) =
      Dbl.fin ((7205759403792794 : ℕ) * Dbl.pow2 (-55)) := by
    rw [sumFrom_replicate_add (Dbl.fin 0) (Dbl.fin tenth) 1 1 2 rfl, h1]
    decide!
  have h3 : Dbl.sumFrom (Dbl.fin 0) (List.replicate 3 (Dbl.fin tenth)) =
      Dbl.fin ((5404319552844596 : ℕ) * Dbl.pow2 (-54)) := by
    rw [sumFrom_replicate_add (Dbl.fin 0) (Dbl.fin tenth) 2 1 3 rfl, h2]
    decide!
  have h4 : Dbl.sumFrom (Dbl.fin 0) (List.replicate 4 (Dbl.fin tenth)) =
      Dbl.fin ((7205759403792794 : ℕ) * Dbl.pow2 (-54)) := by
    rw [sumFrom_replicate_add (Dbl.fin 0) (Dbl.fin tenth) 3 1 4 rfl, h3]
    decide!
  have h5 : Dbl.sumFrom (Dbl.fin 0) (List.replicate 5 (Dbl.fin tenth)) =
      Dbl.fin ((4503599627370496 : ℕ) * Dbl.pow2 (-53)) := by
    rw [sumFrom_replicate_add (Dbl.fin 0) (Dbl.fin tenth) 4 1 5 rfl, h4]
    decide!
  have h6 : Dbl.sumFrom (Dbl.fin 0) (List.replicate 10 (Dbl.fin tenth)) =
      Dbl.fin ((9007199254740991 : ℕ) * Dbl.pow2 (-53)) := by
    rw [sumFrom_replicate_add (Dbl.fin 0) (Dbl.fin tenth) 5 5 10 rfl, h5]
    exact sumFrom_phase tenth (-53) 900719925474099 (by norm_num) (by norm_num) (by norm_num [tenth])
      (by decide!) 5 4503599627370496 (by norm_num) (by norm_num)
  have h7 : Dbl.sumFrom (Dbl.fin 0) (List.replicate 11 (Dbl.fin tenth)) =
      Dbl.fin ((4953959590107545 : ℕ) * Dbl.pow2 (-52)) := by
    rw [sumFrom_replicate_add (Dbl.fin 0) (Dbl.fin tenth) 10 1 11 rfl, h6]
    decide!
  have h8 : Dbl.sumFrom (Dbl.fin 0) (List.replicate 19 (Dbl.fin tenth)) =
      Dbl.fin ((8556839292003945 : ℕ) * Dbl.pow2 (-52)) := by
    rw [sumFrom_replicate_add (Dbl.fin 0) (Dbl.fin tenth) 11 8 19 rfl, h7]
    exact sumFrom_phase tenth (-52) 450359962737050 (by norm_num) (by norm_num) (by norm_num [tenth])
      (by decide!) 8 4953959590107545 (by norm_num) (by norm_num)
  have h9 : Dbl.sumFrom (Dbl.fin 0) (List.replicate 20 (Dbl.fin tenth)) =
      Dbl.fin ((4503599627370497 : ℕ) * Dbl.pow2 (-51)) := by
    rw [sumFrom_replicate_add (Dbl.fin 0) (Dbl.fin tenth) 19 1 20 rfl, h8]
    decide!
  have h10 : Dbl.sumFrom (Dbl.fin 0) (List.replicate 39 (Dbl.fin tenth)) =
      Dbl.fin ((8782019273372472 : ℕ) * Dbl.pow2 (-51)) := by
    rw [sumFrom_replicate_add (Dbl.fin 0) (Dbl.fin tenth) 20 19 39 rfl, h9]
    exact sumFrom_phase tenth (-51) 225179981368525 (by norm_num) (by norm_num) (by norm_num [tenth])
      (by decide!) 19 4503599627370497 (by norm_num) (by norm_num)
  have h11 : Dbl.sumFrom (Dbl.fin 0) (List.replicate 40 (Dbl.fin tenth)) =
      Dbl.fin ((4503599627370498 : ℕ) * Dbl.pow2 (-50)) := by
    rw [sumFrom_replicate_add (Dbl.fin 0) (Dbl.fin tenth) 39 1 40 rfl, h10]
    decide!
  have h12 : Dbl.sumFrom (Dbl.fin 0) (List.replicate 80 (Dbl.fin tenth)) =
      Dbl.fin ((9007199254740978 : ℕ) * Dbl.pow2 (-50)) := by
    rw [sumFrom_replicate_add (Dbl.fin 0) (Dbl.fin tenth) 40 40 80 rfl, h11]
    exact sumFrom_phase tenth (-50) 112589990684262 (by norm_num) (by norm_num) (by norm_num [tenth])
      (by decide!) 40 4503599627370498 (by norm_num) (by norm_num)
  have h13 : Dbl.sumFrom (Dbl.fin 0) (List.replicate 81 (Dbl.fin tenth)) =
      Dbl.fin ((4559894622712620 : ℕ) * Dbl.pow2 (-49)) := by
    rw [sumFrom_replicate_add (Dbl.fin 0) (Dbl.fin tenth) 80 1 81 rfl, h12]
    decide!
  have h14 : Dbl.sumFrom (Dbl.fin 0) (List.replicate 160 (Dbl.fin tenth)) =
      Dbl.fin ((9007199254740969 : ℕ) * Dbl.pow2 (-49)) := by
    rw [sumFrom_replicate_add (Dbl.fin 0) (Dbl.fin tenth) 81 79 160 rfl, h13]
    exact sumFrom_phase tenth (-49) 56294995342131 (by norm_num) (by norm_num) (by norm_num [tenth])
      (by decide!) 79 4559894622712620 (by norm_num) (by norm_num)
  have h15 : Dbl.sumFrom (Dbl.fin 0) (List.replicate 161 (Dbl.fin tenth)) =
      Dbl.fin ((4531747125041550 : ℕ) * Dbl.pow2 (-48)) := by
    rw [sumFrom_replicate_add (Dbl.fin 0) (Dbl.fin tenth) 160 1 161 rfl, h14]
    decide!
  have h16 : Dbl.sumFrom (Dbl.fin 0) (List.replicate 319 (Dbl.fin tenth)) =
      Dbl.fin ((8979051757069978 : ℕ) * Dbl.pow2 (-48)) := by
    rw [sumFrom_replicate_add (Dbl.fin 0) (Dbl.fin tenth) 161 158 319 rfl, h15]
    exact sumFrom_phase tenth (-48) 28147497671066 (by norm_num) (by norm_num) (by norm_num [tenth])
      (by decide!) 158 4531747125041550 (by norm_num) (by norm_num)
  have h17 : Dbl.sumFrom (Dbl.fin 0) (List.replicate 320 (Dbl.fin tenth)) =
      Dbl.fin ((4503599627370522 : ℕ) * Dbl.pow2 (-47)) := by
    rw [sumFrom_replicate_add (Dbl.fin 0) (Dbl.fin tenth) 319 1 320 rfl, h16]
    decide!
  have h18 : Dbl.sumFrom (Dbl.fin 0) (List.replicate 639 (Dbl.fin tenth)) =
      Dbl.fin ((8993125505905549 : ℕ) * Dbl.pow2 (-47)) := by
    rw [sumFrom_replicate_add (Dbl.fin 0) (Dbl.fin tenth) 320 319 639 rfl, h17]
    exact sumFrom_phase tenth (-47) 14073748835533 (by norm_num) (by norm_num) (by norm_num [tenth])
      (by decide!) 319 4503599627370522 (by norm_num) (by norm_num)
  have h19 : Dbl.sumFrom (Dbl.fin 0) (List.replicate 640 (Dbl.fin tenth)) =
      Dbl.fin ((4503599627370541 : ℕ) * Dbl.pow2 (-46)) := by
    rw [sumFrom_replicate_add (Dbl.fin 0) (Dbl.fin tenth) 639 1 640 rfl, h18]
    decide!
  have h20 : Dbl.sumFrom (Dbl.fin 0) (List.replicate 1280 (Dbl.fin tenth)) =
      Dbl.fin ((9007199254740781 : ℕ) * Dbl.pow2 (-46)) := by
    rw [sumFrom_replicate_add (Dbl.fin 0) (Dbl.fin tenth) 640 640 1280 rfl, h19]
    exact sumFrom_phase tenth (-46) 7036874417766 (by norm_num) (by norm_num) (by norm_num [tenth])
      (by decide!) 640 4503599627370541 (by norm_num) (by norm_num)
  have h21 : Dbl.sumFrom (Dbl.fin 0) (List.replicate 1281 (Dbl.fin tenth)) =
      Dbl.fin ((4507118064579274 : ℕ) * Dbl.pow2 (-45)) := by
    rw [sumFrom_replicate_add (Dbl.fin 0) (Dbl.fin tenth) 1280 1 1281 rfl, h20]
    decide!
  have h22 : Dbl.sumFrom (Dbl.fin 0) (List.replicate 2560 (Dbl.fin tenth)) =
      Dbl.fin ((9007199254740631 : ℕ) * Dbl.pow2 (-45)) := by
    rw [sumFrom_replicate_add (Dbl.fin 0) (Dbl.fin tenth) 1281 1279 2560 rfl, h21]
    exact sumFrom_phase tenth (-45) 3518437208883 (by norm_num) (by norm_num) (by norm_num [tenth])
      (by decide!) 1279 4507118064579274 (by norm_num) (by norm_num)
  have h23 : Dbl.sumFrom (Dbl.fin 0) (List.replicate 2561 (Dbl.fin tenth)) =
      Dbl.fin ((4505358845974757 : ℕ) * Dbl.pow2 (-44)) := by
    rw [sumFrom_replicate_add (Dbl.fin 0) (Dbl.fin tenth) 2560 1 2561 rfl, h22]
    decide!
  have h24 : Dbl.sumFrom (Dbl.fin 0) (List.replicate 5119 (Dbl.fin tenth)) =
      Dbl.fin ((9005440036137393 : ℕ) * Dbl.pow2 (-44)) := by
    rw [sumFrom_replicate_add (Dbl.fin 0) (Dbl.fin tenth) 2561 2558 5119 rfl, h23]
    exact sumFrom_phase tenth (-44) 1759218604442 (by norm_num) (by norm_num) (by norm_num [tenth])
      (by decide!) 2558 4505358845974757 (by norm_num) (by norm_num)
  have h25 : Dbl.sumFrom (Dbl.fin 0) (List.replicate 5120 (Dbl.fin tenth)) =
      Dbl.fin ((4503599627370917 : ℕ) * Dbl.pow2 (-43)) := by
    rw [sumFrom_replicate_add (Dbl.fin 0) (Dbl.fin tenth) 5119 1 5120 rfl, h24]
    decide!
  have h26 : Dbl.sumFrom (Dbl.fin 0) (List.replicate 10239 (Dbl.fin tenth)) =
      Dbl.fin ((9006319645440216 : ℕ) * Dbl.pow2 (-43)) := by
    rw [sumFrom_replicate_add (Dbl.fin 0) (Dbl.fin tenth) 5120 5119 10239 rfl, h25]
    exact sumFrom_phase tenth (-43) 879609302221 (by norm_num) (by norm_num) (by norm_num [tenth])
      (by decide!) 5119 4503599627370917 (by norm_num) (by norm_num)
  have h27 : Dbl.sumFrom (Dbl.fin 0) (List.replicate 10240 (Dbl.fin tenth)) =
      Dbl.fin ((4503599627371218 : ℕ) * Dbl.pow2 (-42)) := by
    rw [sumFrom_replicate_add (Dbl.fin 0) (Dbl.fin tenth) 10239 1 10240 rfl, h26]
    decide!
  have h28 : Dbl.sumFrom (Dbl.fin 0) (List.replicate 20480 (Dbl.fin tenth)) =
      Dbl.fin ((9007199254737618 : ℕ) * Dbl.pow2 (-42)) := by
    rw [sumFrom_replicate_add (Dbl.fin 0) (Dbl.fin tenth) 10240 10240 20480 rfl, h27]
    exact sumFrom_phase tenth (-42) 439804651110 (by norm_num) (by norm_num) (by norm_num [tenth])
      (by decide!) 10240 4503599627371218 (by norm_num) (by norm_num)
  have h29 : Dbl.sumFrom (Dbl.fin 0) (List.replicate 20481 (Dbl.fin tenth)) =
      Dbl.fin ((4503819529694364 : ℕ) * Dbl.pow2 (-41)) := by
    rw [sumFrom_replicate_add (Dbl.fin 0) (Dbl.fin tenth) 20480 1 20481 rfl, h28]
    decide!
  have h30 : Dbl.sumFrom (Dbl.fin 0) (List.replicate 40960 (Dbl.fin tenth)) =
      Dbl.fin ((9007199254735209 : ℕ) * Dbl.pow2 (-41)) := by
    rw [sumFrom_replicate_add (Dbl.fin 0) (Dbl.fin tenth) 20481 20479 40960 rfl, h29]
    exact sumFrom_phase tenth (-41) 219902325555 (by norm_num) (by norm_num) (by norm_num [tenth])
      (by decide!) 20479 4503819529694364 (by norm_num) (by norm_num)
  have h31 : Dbl.sumFrom (Dbl.fin 0) (List.replicate 40961 (Dbl.fin tenth)) =
      Dbl.fin ((4503709578530382 : ℕ) * Dbl.pow2 (-40)) := by
    rw [sumFrom_replicate_add (Dbl.fin 0) (Dbl.fin tenth) 40960 1 40961 rfl, h30]
    decide!
  have h32 : Dbl.sumFrom (Dbl.fin 0) (List.replicate 81919 (Dbl.fin tenth)) =
      Dbl.fin ((9007089303591706 : ℕ) * Dbl.pow2 (-40)) := by
    rw [sumFrom_replicate_add (Dbl.fin 0) (Dbl.fin tenth) 40961 40958 81919 rfl, h31]
    exact sumFrom_phase tenth (-40) 109951162778 (by norm_num) (by norm_num) (by norm_num [tenth])
      (by decide!) 40958 4503709578530382 (by norm_num) (by norm_num)
  have h33 : Dbl.sumFrom (Dbl.fin 0) (List.replicate 81920 (Dbl.fin tenth)) =
      Dbl.fin ((4503599627377242 : ℕ) * Dbl.pow2 (-39)) := by
    rw [sumFrom_replicate_add (Dbl.fin 0) (Dbl.fin tenth) 81919 1 81920 rfl, h32]
    decide!
  have h34 : Dbl.sumFrom (Dbl.fin 0) (List.replicate 163839 (Dbl.fin tenth)) =
      Dbl.fin ((9007144279182733 : ℕ) * Dbl.pow2 (-39)) := by
    rw [sumFrom_replicate_add (Dbl.fin 0) (Dbl.fin tenth) 81920 81919 163839 rfl, h33]
    exact sumFrom_phase tenth (-39) 54975581389 (by norm_num) (by norm_num) (by norm_num [tenth])
      (by decide!) 81919 4503599627377242 (by norm_num) (by norm_num)
  have h35 : Dbl.sumFrom (Dbl.fin 0) (List.replicate 163840 (Dbl.fin tenth)) =
      Dbl.fin ((4503599627382061 : ℕ) * Dbl.pow2 (-38)) := by
    rw [sumFrom_replicate_add (Dbl.fin 0) (Dbl.fin tenth) 163839 1 163840 rfl, h34]
    decide!
  have h36 : Dbl.sumFrom (Dbl.fin 0) (List.replicate 327680 (Dbl.fin tenth)) =
      Dbl.fin ((9007199254687021 : ℕ) * Dbl.pow2 (-38)) := by
    rw [sumFrom_replicate_add (Dbl.fin 0) (Dbl.fin tenth) 163840 163840 327680 rfl, h35]
    exact sumFrom_phase tenth (-38) 27487790694 (by norm_num) (by norm_num) (by norm_num [tenth])
      (by decide!) 163840 4503599627382061 (by norm_num) (by norm_num)
  have h37 : Dbl.sumFrom (Dbl.fin 0) (List.replicate 327681 (Dbl.fin tenth)) =
      Dbl.fin ((4503613371238858 : ℕ) * Dbl.pow2 (-37)) := by
    rw [sumFrom_replicate_add (Dbl.fin 0) (Dbl.fin tenth) 327680 1 327681 rfl, h36]
    decide!
  have h38 : Dbl.sumFrom (Dbl.fin 0) (List.replicate 655360 (Dbl.fin tenth)) =
      Dbl.fin ((9007199254648471 : ℕ) * Dbl.pow2 (-37)) := by
    rw [sumFrom_replicate_add (Dbl.fin 0) (Dbl.fin tenth) 327681 327679 655360 rfl, h37]
    exact sumFrom_phase tenth (-37) 13743895347 (by norm_num) (by norm_num) (by norm_num [tenth])
      (by decide!) 327679 4503613371238858 (by norm_num) (by norm_num)
  have h39 : Dbl.sumFrom (Dbl.fin 0) (List.replicate 655361 (Dbl.fin tenth)) =
      Dbl.fin ((4503606499271909 : ℕ) * Dbl.pow2 (-36)) := by
    rw [sumFrom_replicate_add (Dbl.fin 0) (Dbl.fin tenth) 655360 1 655361 rfl, h38]
    decide!
  have h40 : Dbl.sumFrom (Dbl.fin 0) (List.replicate 1000000 (Dbl.fin tenth)) =
      Dbl.fin ((6871947673691595 : ℕ) * Dbl.pow2 (-36)) := by
    rw [sumFrom_replicate_add (Dbl.fin 0) (Dbl.fin tenth) 655361 344639 1000000 rfl, h39]
    exact sumFrom_phase tenth (-36) 6871947674 (by norm_num) (by norm_num) (by norm_num [tenth])
      (by decide!) 344639 4503606499271909 (by norm_num) (by norm_num)
  exact h40

theorem Setting_Up_Arrays_sum_rounded_val (e : Env) (m : Mem) (n : Nat) (s : Dbl × Dbl)
    (r : Sensor → Nat) :
    (Setting_Up_Arrays_sum_rounded e m n s r).val =
      (Dbl.sumFrom s.1 ((Position_samples_rounded e m n r).map Prod.fst),
       Dbl.sumFrom s.2 ((Position_samples_rounded e m n r).map Prod.snd)) := by
  induction n generalizing s r with
  | zero => rfl
  | succ n ih =>
    simp only [Setting_Up_Arrays_sum_rounded, Position_samples_rounded, bind_val, ih,
      List.map_cons, Dbl.sumFrom, List.foldl_cons]

theorem Position_samples_rounded_length (e : Env) (m : Mem) (n : Nat) (r : Sensor → Nat) :
    (Position_samples_rounded e m n r).length = n := by
  induction n generalizing r with
  | zero => rfl
  | succ n ih => simp only [Position_samples_rounded, List.length_cons, ih]

theorem Setting_Up_Arrays_samples_rounded_length (e : Env) (m : Mem) (r : Sensor → Nat) :
    (Setting_Up_Arrays_samples_rounded e m r).length = 1000000 :=
  Position_samples_rounded_length e _ 1000000 r

/-- The buffers after `Setting_Up_Arrays_rounded`: the shifted buffers with,
in slot 0, the rounded sum of the samples divided by 1,000,000. -/
theorem Setting_Up_Arrays_rounded_POS (e : Env) (m : Mem) (r : Sensor → Nat) :
    (Setting_Up_Arrays_rounded e m r).val.POS_X =
        Function.update (Setting_Up_Arrays_shift 21 (m.POS_X, m.POS_Y)).1 0
          (Dbl.round (Dbl.sumFrom (Dbl.fin 0)
            ((Setting_Up_Arrays_samples_rounded e m r).map Prod.fst) / Dbl.fin 1000000)) ∧
      (Setting_Up_Arrays_rounded e m r).val.POS_Y =
        Function.update (Setting_Up_Arrays_shift 21 (m.POS_X, m.POS_Y)).2 0
          (Dbl.round (Dbl.sumFrom (Dbl.fin 0)
            ((Setting_Up_Arrays_samples_rounded e m r).map Prod.snd) / Dbl.fin 1000000)) := by
  unfold Setting_Up_Arrays_rounded Setting_Up_Arrays_samples_rounded
  generalize Setting_Up_Arrays_shift 21 (m.POS_X, m.POS_Y) = a
  have hs := fun m1 => Setting_Up_Arrays_sum_rounded_val e m1 1000000 (Dbl.fin 0, Dbl.fin 0) r
  simp only [bind_val, pure_val, hs, and_self]

/-- With steady readings and both position pointers on the raw sensors every
sample is the pair of the two readings. -/
theorem Position_samples_rounded_steady (e : Env) (he : e.Steady) (m : Mem)
    (hx : m.Position_X_alt = Acc.raw) (hy : m.Position_Y_alt = Acc.raw) (n : Nat)
    (r : Sensor → Nat) :
    ∀ v ∈ Position_samples_rounded e m n r,
      v = (Dbl.fin (e.sense Sensor.Position_X 0), Dbl.fin (e.sense Sensor.Position_Y 0)) := by
  induction n generalizing r with
  | zero => intro v hv; cases hv
  | succ n ih =>
    intro v hv
    simp only [Position_samples_rounded, List.mem_cons] at hv
    rcases hv with hv | hv
    · rw [hv]
      simp only [Position_X_alt_rounded, Position_Y_alt_rounded, hx, hy, Position_X, Position_Y,
        read_val]
      rw [he Sensor.Position_X _ 0, he Sensor.Position_Y _ 0]
    · exact ih _ v hv

theorem Setting_Up_Arrays_samples_rounded_steady (e : Env) (he : e.Steady) (m : Mem)
    (hx : m.Position_X_alt = Acc.raw) (hy : m.Position_Y_alt = Acc.raw) (r : Sensor → Nat) :
    ∀ v ∈ Setting_Up_Arrays_samples_rounded e m r,
      v = (Dbl.fin (e.sense Sensor.Position_X 0), Dbl.fin (e.sense Sensor.Position_Y 0)) := by
  intro v hv
  unfold Setting_Up_Arrays_samples_rounded at hv
  exact Position_samples_rounded_steady e he _ (by exact hx) (by exact hy) 1000000 r v hv

theorem sumFrom_const (s : Dbl) (l : List Dbl) (c : Dbl) (h : ∀ x ∈ l, x = c) :
    Dbl.sumFrom s l = Dbl.sumFrom s (List.replicate l.length c) := by
  rw [← List.eq_replicate_of_mem h]

/-- When every multiple `k * c`, `k <= n`, is a `double`, `n` additions of
`c` from 0 give `n * c`. -/
theorem sumFrom_replicate_exact (c : ℚ) (n : ℕ)
    (h : ∀ k : ℕ, k ≤ n → Dbl.rne (k * c) = Dbl.fin (k * c)) :
    Dbl.sumFrom (Dbl.fin 0) (List.replicate n (Dbl.fin c)) = Dbl.fin (n * c) := by
  induction n with
  | zero => simp [Dbl.sumFrom]
  | succ n ih =>
    rw [sumFrom_replicate_add _ _ n 1 (n + 1) rfl, ih (fun k hk => h k (by omega))]
    have := h (n + 1) (le_refl _)
    show Dbl.round (Dbl.fin (n * c) + Dbl.fin c) = _
    rw [Dbl_fin_add, round_fin]
    rw [show (n : ℚ) * c + c = ((n + 1 : ℕ) : ℚ) * c by push_cast; ring]
    exact this

/-- The new slot 0 when every read returns the number `c` and every multiple
`k * c`, `k <= 1000000`, is a `double`. -/
theorem mean_rounded_exact (l : List Dbl) (c : ℚ) (hl : l.length = 1000000)
    (h : ∀ x ∈ l, x = Dbl.fin c)
    (hc : ∀ k : ℕ, k ≤ 1000000 → Dbl.rne (k * c) = Dbl.fin (k * c)) :
    Dbl.round (Dbl.sumFrom (Dbl.fin 0) l / Dbl.fin 1000000) = Dbl.fin c := by
  rw [sumFrom_const _ l _ h, hl, sumFrom_replicate_exact c 1000000 hc,
    Dbl_fin_div _ _ (by norm_num), round_fin]
  have h1 := hc 1 (by norm_num)
  rw [Nat.cast_one, one_mul] at h1
  rw [show ((1000000 : ℕ) : ℚ) * c / 1000000 = c by push_cast; field_simp]
  exact h1

/-- An angle more than 1 degree off upright passes the test of the descent
branch of `Lander_Control_M`. -/
theorem offUpright_of_outsideUpright (a : Dbl) (h : outsideUpright a = true) :
    offUpright a = true := by
  unfold outsideUpright at h
  unfold offUpright
  cases a <;> simp_all [Dbl.gt, Dbl.lt]
  linarith

/-! ## History slots that hold a NaN -/

/-- C1 (latch).  Once the health flag of one of the five monitored quantities
is 0, it is 0 after every later sequence of `Lander_Control` and
`Safety_Override` calls, whatever the simulator state and the sensor readings
of those calls are. -/
theorem C1_health_flag_latched (q : Sensor) (ticks : List Tick) (m : Mem) (r : Sensor → Nat)
    (h : m.ok q = 0) : (run ticks m r).val.ok q = 0 := by
  induction ticks generalizing m r with
  | nil => exact h
  | cons t ts ih =>
    rw [run_cons]
    exact ih _ _ (step_ok_zero t m r q h)

/-- Witness of C1: the angle flag is 0 and stays 0 over two calls whose
readings are all steady. -/
theorem C1_health_flag_latched_witness :
    memAngleOff.ok Sensor.Angle = 0 ∧
      (run [⟨Entry.Lander_Control, envCalm⟩, ⟨Entry.Safety_Override, envCalm⟩]
        memAngleOff noReads).val.ok Sensor.Angle = 0 :=
  ⟨rfl, C1_health_flag_latched Sensor.Angle _ memAngleOff noReads rfl⟩

/-- C2 (detection), at the failing input: in the first trial the two readings
of `Position_X` are 0 and 100, whose difference exceeds the tolerance 50 in
absolute value, and `Faulty_Checker` returns with `POSITION_X_OK` still 1. -/
theorem C2_position_x_excess_undetected :
    Mem.init.ok Sensor.Position_X ≠ 0 ∧
      tol Sensor.Position_X <
        |(trial envJump noReads Sensor.Position_X 0).1 -
          (trial envJump noReads Sensor.Position_X 0).2| ∧
      (Faulty_Checker envJump Mem.init noReads).val.ok Sensor.Position_X = 1 := by
  refine ⟨by decide, by norm_num [trial, envJump, noReads, tol], ?_⟩
  rw [Faulty_Checker_ok, hits_eq_zero]
  · rfl
  · intro i _
    by_cases hi : i = 0 <;>
      norm_num [hi, Faulty_Checker_test, envJump, noReads, Dbl_fin_sub, Dbl_gt_fin,
        EPSILON_POSITION_X]

/-- C3 (no false condemnation).  If the two readings of every one of the 25
trials of a `Faulty_Checker` call differ in absolute value by at most the
tolerance of the quantity, the flag after the call equals the flag before; and
over a run in which every `Lander_Control` call is such a call, the flag at the
end equals the flag at the start. -/
theorem C3_no_false_condemnation (q : Sensor) :
    (∀ e m r, CleanCall e m r q → (Faulty_Checker e m r).val.ok q = m.ok q) ∧
      (∀ ticks m r, CleanRun q ticks m r → (run ticks m r).val.ok q = m.ok q) := by
  refine ⟨fun e m r h => Faulty_Checker_clean e m r q h, fun ticks => ?_⟩
  induction ticks with
  | nil => intro m r _; rfl
  | cons t ts ih =>
    intro m r h
    obtain ⟨h1, h2⟩ := h
    rw [run_cons]
    show (run ts (step t m r).val (step t m r).reads).val.ok q = m.ok q
    rw [ih _ _ h2]
    cases ht : t.entry with
    | Lander_Control =>
      rw [step_Lander_Control t m ht, Lander_Control_ok]
      exact Faulty_Checker_clean _ m r q (h1 ht)
    | Safety_Override => rw [step_Safety_Override_val t m r ht]

/-- Witness of C3: with steady readings the horizontal position flag, healthy
at the start, is unchanged by `Faulty_Checker` and by a tick. -/
theorem C3_no_false_condemnation_witness :
    CleanCall envCalm Mem.init noReads Sensor.Position_X ∧
      (Faulty_Checker envCalm Mem.init noReads).val.ok Sensor.Position_X = 1 ∧
      CleanRun Sensor.Position_X [⟨Entry.Lander_Control, envCalm⟩] Mem.init noReads ∧
      (run [⟨Entry.Lander_Control, envCalm⟩] Mem.init noReads).val.ok Sensor.Position_X = 1 :=
  ⟨CleanCall_envCalm _ _ _,
    (C3_no_false_condemnation Sensor.Position_X).1 envCalm Mem.init noReads
      (CleanCall_envCalm _ _ _),
    ⟨fun _ => CleanCall_envCalm _ _ _, trivial⟩,
    (C3_no_false_condemnation Sensor.Position_X).2 [⟨Entry.Lander_Control, envCalm⟩] Mem.init
      noReads ⟨fun _ => CleanCall_envCalm _ _ _, trivial⟩⟩

/-- C4 (no use of a condemned sensor) is false for the angle: with `ANGLE_OK`
equal to 0, one call of the guidance variant M and one call of
`Safety_Override` each call the raw sensor function `Angle` four times. -/
theorem C4_condemned_angle_still_read :
    Tracks memAngleOff ∧ memAngleOff.ok Sensor.Angle = 0 ∧
      (Lander_Control_M envFall memAngleOff noReads).reads Sensor.Angle = 4 ∧
      (run [⟨Entry.Safety_Override, envFall⟩] memAngleOff noReads).reads Sensor.Angle = 4 := by
  refine ⟨by simp [Tracks, memAngleOff, Mem.init], rfl, by decide!, by decide!⟩

/-- C4 as amended.  For each of the four quantities that have an estimator
(horizontal and vertical velocity and position): once the health flag is 0,
no later call of `Lander_Control` or `Safety_Override` calls the raw sensor
function of that quantity.  This holds from every state in which selection
tracks health, hence from every reachable state, and within the tick whose
monitor clears the flag: after `Faulty_Checker` the rest of `Lander_Control`
makes no call either. -/
theorem C4_condemned_sensor_not_read (q : Sensor) (hq : q ≠ Sensor.Angle) :
    (∀ m post r, Tracks m → m.ok q = 0 → (run post m r).reads q = r q) ∧
    (∀ pre post r, (run pre Mem.init r).val.ok q = 0 →
      (run post (run pre Mem.init r).val (run pre Mem.init r).reads).reads q
        = (run pre Mem.init r).reads q) ∧
    (∀ e m r, (Faulty_Checker e m r).val.ok q = 0 →
      (Lander_Control e m r).reads q = (Faulty_Checker e m r).reads q) :=
  ⟨fun m post r hT h0 => run_skips post m r (Tracks_acc hT hq h0) h0,
    fun pre post r h0 =>
      run_skips post _ _ (Tracks_acc (Tracks_run pre Mem.init r Tracks_init) hq h0) h0,
    fun e m r h0 => Lander_Control_reads_after_monitor e m r hq h0⟩

/-- Witness of C4 as amended: the horizontal position, condemned. -/
theorem C4_condemned_sensor_not_read_witness :
    Sensor.Position_X ≠ Sensor.Angle ∧ Tracks memPosXOff ∧
      memPosXOff.ok Sensor.Position_X = 0 ∧
      (run [⟨Entry.Lander_Control, envFall⟩, ⟨Entry.Safety_Override, envFall⟩] memPosXOff
        noReads).reads Sensor.Position_X = noReads Sensor.Position_X :=
  ⟨by decide, by simp [Tracks, memPosXOff, Mem.init], rfl,
    (C4_condemned_sensor_not_read Sensor.Position_X (by decide)).1 memPosXOff _ noReads
      (by simp [Tracks, memPosXOff, Mem.init]) rfl⟩

/-- C5 (selection tracks health).  Initially the four accessors are the raw
sensors.  In every state reached from the initial one by `Lander_Control` and
`Safety_Override` calls, each accessor is its estimator if and only if the
flag of its quantity is 0.  The switch is made in the tick in which the flag
flips, before the history update of that tick: for every `Lander_Control`
call, the globals `Sensor_Adjustment (Faulty_Checker ...)` satisfy the same
equivalence when the call starts in a reached state, they carry the flags and
the accessors with which the call ends, the buffers with which the call ends
are those that `Setting_Up_Arrays` computes on these globals, and a quantity
whose flag is 0 after `Faulty_Checker` is not read from its raw sensor in the
rest of the call. -/
theorem C5_selection_tracks_health :
    (Mem.init.Velocity_X_alt = Acc.raw ∧ Mem.init.Velocity_Y_alt = Acc.raw ∧
      Mem.init.Position_X_alt = Acc.raw ∧ Mem.init.Position_Y_alt = Acc.raw) ∧
    (∀ ticks r, Tracks (run ticks Mem.init r).val) ∧
    (∀ ticks r e r2,
      Tracks (Sensor_Adjustment (Faulty_Checker e (run ticks Mem.init r).val r2).val)) ∧
    (∀ (e : Env) (m : Mem) (r2 : Sensor → Nat),
      (∀ q, (Lander_Control e m r2).val.ok q =
        (Sensor_Adjustment (Faulty_Checker e m r2).val).ok q) ∧
      (∀ q, (Lander_Control e m r2).val.acc q =
        (Sensor_Adjustment (Faulty_Checker e m r2).val).acc q) ∧
      (Lander_Control e m r2).val.POS_X =
        (Setting_Up_Arrays e (Sensor_Adjustment (Faulty_Checker e m r2).val)
          (Faulty_Checker e m r2).reads).val.POS_X ∧
      (Lander_Control e m r2).val.POS_Y =
        (Setting_Up_Arrays e (Sensor_Adjustment (Faulty_Checker e m r2).val)
          (Faulty_Checker e m r2).reads).val.POS_Y ∧
      (∀ q, q ≠ Sensor.Angle → (Faulty_Checker e m r2).val.ok q = 0 →
        (Lander_Control e m r2).reads q = (Faulty_Checker e m r2).reads q)) :=
  ⟨⟨rfl, rfl, rfl, rfl⟩, fun ticks r => Tracks_run ticks Mem.init r Tracks_init,
    fun ticks r e r2 =>
      Tracks_Sensor_Adjustment_Faulty_Checker e _ r2 (Tracks_run ticks Mem.init r Tracks_init),
    fun e m r2 =>
      ⟨fun q => (Lander_Control_ok e m r2 q).trans (Sensor_Adjustment_ok _ q).symm,
        fun q => Lander_Control_acc e m r2 q, (Lander_Control_POS e m r2).1,
        (Lander_Control_POS e m r2).2,
        fun _ hq h => Lander_Control_reads_after_monitor e m r2 hq h⟩⟩

/-- C6 (selection monotonicity).  An accessor bound to its estimator is still
bound to it after `Sensor_Adjustment`, whatever the flags are; `Faulty_Checker`
and `Setting_Up_Arrays` leave every accessor as it is (the guidance and
override variants return no globals at all); so the accessor is still bound to
the estimator after any run. -/
theorem C6_selection_monotone (q : Sensor) (m : Mem) (h : m.acc q = Acc.robust) :
    (Sensor_Adjustment m).acc q = Acc.robust ∧
    (∀ e r, (Faulty_Checker e m r).val.acc q = m.acc q ∧
      (Setting_Up_Arrays e m r).val.acc q = m.acc q) ∧
    (∀ ticks r, (run ticks m r).val.acc q = Acc.robust) := by
  refine ⟨?_, fun e r => ⟨Faulty_Checker_acc e m r q, Setting_Up_Arrays_acc e m r q⟩, ?_⟩
  · rw [Sensor_Adjustment_acc]; split
    · rfl
    · exact h
  · intro ticks
    induction ticks generalizing m with
    | nil => intro r; exact h
    | cons t ts ih =>
      intro r
      rw [run_cons]
      exact ih _ (step_acc_robust t m r q h) _

/-- Witness of C6: the horizontal position accessor, bound to the estimator. -/
theorem C6_selection_monotone_witness :
    memPosXOff.acc Sensor.Position_X = Acc.robust ∧
      (Sensor_Adjustment memPosXOff).acc Sensor.Position_X = Acc.robust ∧
      (run [⟨Entry.Lander_Control, envCalm⟩] memPosXOff noReads).val.acc Sensor.Position_X
        = Acc.robust :=
  ⟨rfl, (C6_selection_monotone Sensor.Position_X memPosXOff rfl).1,
    (C6_selection_monotone Sensor.Position_X memPosXOff rfl).2.2 _ _⟩

/-- C7 (mode priority) is false when every thruster has failed:
`Safety_Override` then calls no sensor at all, while each of its three
variants, run on the same input, calls `Velocity_X`; so it runs none of them. -/
theorem C7_no_variant_when_all_failed :
    (envDead.MT_OK = 0 ∧ envDead.RT_OK = 0 ∧ envDead.LT_OK = 0) ∧
      (Safety_Override envDead Mem.init noReads).reads Sensor.Velocity_X = 0 ∧
      (Safety_Override_M envDead Mem.init noReads).reads Sensor.Velocity_X ≠ 0 ∧
      (Safety_Override_R envDead Mem.init noReads).reads Sensor.Velocity_X ≠ 0 ∧
      (Safety_Override_L envDead Mem.init noReads).reads Sensor.Velocity_X ≠ 0 := by
  refine ⟨⟨rfl, rfl, rfl⟩, by decide!, by decide!, by decide!, by decide!⟩

/-- C7 as amended.  `Lander_Control` is its prologue followed by the guidance
variant of the selected mode, and `Safety_Override` is the override variant of
the selected mode, where the mode is main if `MT_OK`, otherwise right-only if
`RT_OK`, otherwise left-only if `LT_OK`; when all three flags are 0 there is no
mode and no variant runs.  `{main=false, right=true, left=true}` selects
right-only and `{main=true, right=false, left=false}` selects main. -/
theorem C7_mode_priority (e : Env) (m : Mem) :
    Lander_Control e m =
      (Lander_Control_prologue e m >>= fun m1 =>
        (match SelectMode e with
          | some v => guidance v e m1
          | none => pure ()) >>= fun _ => pure m1) ∧
    Safety_Override e m =
      (match SelectMode e with
        | some v => override v e m
        | none => pure ()) ∧
    (SelectMode e = none ↔ e.MT_OK = 0 ∧ e.RT_OK = 0 ∧ e.LT_OK = 0) ∧
    (e.MT_OK ≠ 0 → SelectMode e = some Mode.M) ∧
    (e.MT_OK = 0 → e.RT_OK ≠ 0 → SelectMode e = some Mode.R) ∧
    (e.MT_OK = 0 → e.RT_OK = 0 → e.LT_OK ≠ 0 → SelectMode e = some Mode.L) ∧
    SelectMode { e with MT_OK := 0, RT_OK := 1, LT_OK := 1 } = some Mode.R ∧
    SelectMode { e with MT_OK := 1, RT_OK := 0, LT_OK := 0 } = some Mode.M := by
  refine ⟨Lander_Control_eq e m, Safety_Override_eq e m, ?_, ?_, ?_, ?_, rfl, rfl⟩
  · unfold SelectMode; split_ifs <;> simp_all
  · intro h; simp [SelectMode, h]
  · intro h1 h2; simp [SelectMode, h1, h2]
  · intro h1 h2 h3; simp [SelectMode, h1, h2, h3]

/-- Witness of C7 as amended: main alone healthy selects M, right alone
healthy selects R, left alone healthy selects L. -/
theorem C7_mode_priority_witness :
    (envFall.MT_OK ≠ 0 ∧ SelectMode envFall = some Mode.M) ∧
    (envRight.MT_OK = 0 ∧ envRight.RT_OK ≠ 0 ∧ SelectMode envRight = some Mode.R) ∧
    (({ envDead with LT_OK := 1 } : Env).MT_OK = 0 ∧ ({ envDead with LT_OK := 1 } : Env).RT_OK = 0 ∧
      ({ envDead with LT_OK := 1 } : Env).LT_OK ≠ 0 ∧
      SelectMode { envDead with LT_OK := 1 } = some Mode.L) :=
  ⟨⟨by decide, (C7_mode_priority envFall Mem.init).2.2.2.1 (by decide)⟩,
    ⟨rfl, by decide, (C7_mode_priority envRight Mem.init).2.2.2.2.1 rfl (by decide)⟩,
    ⟨rfl, rfl, by decide,
      (C7_mode_priority { envDead with LT_OK := 1 } Mem.init).2.2.2.2.2.1 rfl rfl (by decide)⟩⟩

/-- C8 (no command to a failed thruster).  Every thrust command issued during
one call of `Lander_Control` or of `Safety_Override` addresses a thruster whose
health flag is nonzero in that call. -/
theorem C8_no_command_to_failed_thruster (e : Env) (m : Mem) (r : Sensor → Nat) (t : Thruster)
    (p : Dbl)
    (h : Cmd.thrust t p ∈ (Lander_Control e m r).cmds ∨
      Cmd.thrust t p ∈ (Safety_Override e m r).cmds) :
    e.healthy t ≠ 0 := by
  rcases h with h | h
  · exact Lander_Control_issues e m r _ h
  · exact Safety_Override_issues e m r _ h

/-- Witness of C8: the override of the falling craft fires the main thruster,
which is healthy. -/
theorem C8_no_command_to_failed_thruster_witness :
    Cmd.thrust Thruster.Main (Dbl.fin 1) ∈ (Safety_Override envFall Mem.init noReads).cmds ∧
      envFall.healthy Thruster.Main ≠ 0 :=
  ⟨by decide!,
    C8_no_command_to_failed_thruster envFall Mem.init noReads Thruster.Main (Dbl.fin 1)
      (Or.inr (by decide!))⟩

/-- C9 (thrust range) at the failing input: with only the right thruster
healthy and the craft 300 units right of the platform, the guidance variant R
calls `Right_Thruster(15)`; so does a whole `Lander_Control` call from the
initial globals. -/
theorem C9_right_thruster_power_15 :
    (Lander_Control_R envRight Mem.init noReads).cmds =
      [Cmd.thrust Thruster.Right (Dbl.fin 0), Cmd.thrust Thruster.Right (Dbl.fin 15),
        Cmd.rotate (Dbl.fin 90)] ∧
    (Lander_Control envRight Mem.init noReads).cmds =
      [Cmd.thrust Thruster.Right (Dbl.fin 0), Cmd.thrust Thruster.Right (Dbl.fin 15),
        Cmd.rotate (Dbl.fin 90)] := by
  have h : (Lander_Control_R envRight Mem.init noReads).cmds =
      [Cmd.thrust Thruster.Right (Dbl.fin 0), Cmd.thrust Thruster.Right (Dbl.fin 15),
        Cmd.rotate (Dbl.fin 90)] := by decide!
  refine ⟨h, ?_⟩
  rw [Lander_Control_cmds_R envRight Mem.init noReads rfl (by decide),
    Lander_Control_R_of_raw envRight _ (Lander_Control_prologue_raw envRight noReads
      (fun q => CleanCall_steady envRight (fun _ _ _ => rfl) Mem.init noReads q)),
    (Lander_Control_R_blind envRight (fun _ _ _ => rfl) Mem.init _ noReads).2, h]

/-- C10 at the failing input: `Rotate_to(350, 10)` issues the single rotation
`-700`, not `+20`. -/
theorem C10_rotate_to_350_10 :
    (Rotate_to (Dbl.fin 350) (Dbl.fin 10) noReads).cmds = [Cmd.rotate (Dbl.fin (-700))] := by
  decide!

/-- C11, failing input.  With the angle sensor steady at 10 degrees,
`Rotate_to(200)` issues the single rotation `Rotate(550)`: the long way round
plus a full turn, where the shortest path is -170.  (The other example of the
claim is computed as stated: from 350 to 10 the call issues +20.) -/
theorem C11_rotate_to_dest_10_200 :
    (Rotate_to_dest envTilt10 (Dbl.fin 200) noReads).cmds = [Cmd.rotate (Dbl.fin 550)] ∧
    (Rotate_to_dest envTilt350 (Dbl.fin 10) noReads).cmds = [Cmd.rotate (Dbl.fin 20)] := by
  constructor <;> decide!

/-- C12, failing input.  On the track 22, 21, ..., 1 (step `d = 1`, next
point 23) with the velocity read through the estimator, `Robust_Position_X`
returns the next point 23 but `Robust_Position_Y` returns 21, the previous
point `POS_Y[0] - d`. -/
theorem C12_vertical_dead_reckoning_backwards :
    (Robust_Position_X envCalm (memTrackX unitTrack) noReads).val = Dbl.fin 23 ∧
    (Robust_Position_Y envCalm (memTrackY unitTrack) noReads).val = Dbl.fin 21 := by
  constructor
  · rw [Robust_Position_X_track envCalm (memTrackX unitTrack) unitTrack 1 rfl
      (Holds_memTrackX _) unitTrack_ne (fun i _ => unitTrack_step i)]
    norm_num [unitTrack]
  · rw [Robust_Position_Y_track envCalm (memTrackY unitTrack) unitTrack 1 rfl
      (Holds_memTrackY _) unitTrack_ne (fun i _ => unitTrack_step i)]
    norm_num [unitTrack]

/-- C13 as stated does not hold of the rounded computation.  On the buffer
3, 10^16, 1, 0, ... (`k = 3`, every slot a `double`) `Robust_Velocity_X`
returns 80 and `Robust_Velocity_Y` returns -80, where the telescoped form
`(p 0 - p 2) / (2 * 0.005 * 5)` is 40: the differences `3 - 10^16` and
`10^16 - 1` are rounded to -9999999999999996 and 10^16 before they are added.
On the doubles nearest to 0.3, 0.2, 0.1 the function returns
3.999999999999999 (4503599627370495 / 2^50), the telescoped form being
36028797018963965 / 2^53. -/
theorem C13_telescoped_form_not_computed :
    (∀ i, i < 22 → (spikeTrack i ≠ 0 ↔ i < 3)) ∧
    Robust_Velocity_X_rounded (memTrackX spikeTrack) = Dbl.fin 80 ∧
    Robust_Velocity_Y_rounded (memTrackY spikeTrack) = Dbl.fin (-80) ∧
    (spikeTrack 0 - spikeTrack (3 - 1)) / (((3 - 1 : ℕ) : ℚ) * (5 / 1000) * 5) = 40 ∧
    (∀ i, i < 22 → (tenthsTrack i ≠ 0 ↔ i < 3)) ∧
    Robust_Velocity_X_rounded (memTrackX tenthsTrack) =
      Dbl.fin (4503599627370495 / 1125899906842624) ∧
    (tenthsTrack 0 - tenthsTrack (3 - 1)) / (((3 - 1 : ℕ) : ℚ) * (5 / 1000) * 5) =
      36028797018963965 / 9007199254740992 := by
  refine ⟨by decide!, by decide!, by decide!, by norm_num [spikeTrack], by decide!, by decide!,
    by norm_num [tenthsTrack]⟩

/-- C13, amended.  For a buffer of numbers `p` whose first `k` slots
(`2 <= k <= 22`) are nonzero and whose other slots are 0, `Robust_Velocity_X`
in `double` arithmetic is the sum of the `k - 1` consecutive differences
(every difference and every partial sum rounded, in index order) divided by
`k - 1`, by `T_STEP` (the double nearest to .005) and by `S_SCALE`, every
quotient rounded; `Robust_Velocity_Y` is the same with every difference
negated.  For every buffer of numbers the sum and the count run over the
valid pairs only.  Over the rationals, without rounding, the mean of the
differences divided by 0.005 and by 5 is
`(p 0 - p (k-1)) / ((k-1) * 0.005 * 5)`. -/
theorem C13_velocity_fallback_value (m : Mem) (p : Nat → ℚ) (k : Nat) (hk : 2 ≤ k)
    (hk2 : k ≤ 22) (hpre : ∀ i, i < 22 → (p i ≠ 0 ↔ i < k)) :
    (Holds m.POS_X p →
      Robust_Velocity_X_rounded m =
        Dbl.round (Dbl.round (Dbl.round (sumDiffs_rounded p (k - 1) / Dbl.fin ((k - 1 : ℕ) : ℚ)) /
          T_STEP_rounded) / S_SCALE)) ∧
    (Holds m.POS_Y p →
      Robust_Velocity_Y_rounded m =
        Dbl.round (Dbl.round (Dbl.round (sumDiffs_neg_rounded p (k - 1) /
          Dbl.fin ((k - 1 : ℕ) : ℚ)) / T_STEP_rounded) / S_SCALE)) ∧
    (∀ (m2 : Mem) (p2 : Nat → ℚ), Holds m2.POS_X p2 →
      Robust_Velocity_X_rounded m2 =
        Dbl.round (Dbl.round (Dbl.round (sumPairs_rounded p2 21 / Dbl.fin (validPairs p2 21)) /
          T_STEP_rounded) / S_SCALE)) ∧
    (∀ (m2 : Mem) (p2 : Nat → ℚ), Holds m2.POS_Y p2 →
      Robust_Velocity_Y_rounded m2 =
        Dbl.round (Dbl.round (Dbl.round (sumPairs_neg_rounded p2 21 /
          Dbl.fin (validPairs p2 21)) / T_STEP_rounded) / S_SCALE)) ∧
    T_STEP_rounded = Dbl.fin (5764607523034235 / 1152921504606846976) ∧
    (∑ i in Finset.range (k - 1), (p i - p (i + 1))) / ((k - 1 : ℕ) : ℚ) / (5 / 1000) / 5 =
      (p 0 - p (k - 1)) / (((k - 1 : ℕ) : ℚ) * (5 / 1000) * 5) := by
  obtain ⟨hv, _⟩ := pairs_prefix p k (by omega) hpre 21 (le_refl _)
  obtain ⟨hr1, hr2⟩ := pairs_prefix_rounded p k (by omega) hpre 21 (le_refl _)
  have hmin : min 21 (k - 1) = k - 1 := by omega
  rw [hmin] at hv hr1 hr2
  have hk0 : k - 1 ≠ 0 := by omega
  have hq : ((k - 1 : ℕ) : ℚ) ≠ 0 := by exact_mod_cast hk0
  have htel : (∑ i in Finset.range (k - 1), (p i - p (i + 1))) = p 0 - p (k - 1) :=
    Finset.sum_range_sub' p (k - 1)
  refine ⟨fun hA => ?_, fun hA => ?_,
    fun m2 p2 hA => Robust_Velocity_X_rounded_eq m2 p2 hA,
    fun m2 p2 hA => Robust_Velocity_Y_rounded_eq m2 p2 hA, by decide!, ?_⟩
  · rw [Robust_Velocity_X_rounded_eq m p hA, hv, hr1]
  · rw [Robust_Velocity_Y_rounded_eq m p hA, hv, hr2]
  · rw [htel]
    field_simp

/-- Witness of C13: the full track 22, 21, ..., 1 (`k = 22`). -/
theorem C13_velocity_fallback_value_witness :
    Robust_Velocity_X_rounded (memTrackX unitTrack) =
        Dbl.round (Dbl.round (Dbl.round (sumDiffs_rounded unitTrack (22 - 1) /
          Dbl.fin ((22 - 1 : ℕ) : ℚ)) / T_STEP_rounded) / S_SCALE) ∧
      Robust_Velocity_Y_rounded (memTrackY unitTrack) =
        Dbl.round (Dbl.round (Dbl.round (sumDiffs_neg_rounded unitTrack (22 - 1) /
          Dbl.fin ((22 - 1 : ℕ) : ℚ)) / T_STEP_rounded) / S_SCALE) :=
  ⟨(C13_velocity_fallback_value (memTrackX unitTrack) unitTrack 22 (by decide) (by decide)
      (fun i hi => ⟨fun _ => hi, fun _ => unitTrack_ne i hi⟩)).1 (Holds_memTrackX _),
   (C13_velocity_fallback_value (memTrackY unitTrack) unitTrack 22 (by decide) (by decide)
      (fun i hi => ⟨fun _ => hi, fun _ => unitTrack_ne i hi⟩)).2.1 (Holds_memTrackY _)⟩

/-- C15 as stated does not hold of the rounded computation.  With every read
of both position sensors returning the double nearest to 0.1,
`Setting_Up_Arrays` leaves 0.10000000000133288
(3602879701944419 / 2^55) in slot 0 of `POS_X` and of `POS_Y`, not the value
read (3602879701896397 / 2^55): the 1,000,000 rounded additions give
100000.00000133288. -/
theorem C15_mean_of_equal_reads_differs :
    (∀ v ∈ Setting_Up_Arrays_samples_rounded envTenth Mem.init noReads,
      v = (Dbl.fin tenth, Dbl.fin tenth)) ∧
    tenth = 3602879701896397 / 36028797018963968 ∧
    at22 (Setting_Up_Arrays_rounded envTenth Mem.init noReads).val.POS_X 0 =
      Dbl.fin (3602879701944419 / 36028797018963968) ∧
    at22 (Setting_Up_Arrays_rounded envTenth Mem.init noReads).val.POS_Y 0 =
      Dbl.fin (3602879701944419 / 36028797018963968) ∧
    at22 (Setting_Up_Arrays_rounded envTenth Mem.init noReads).val.POS_X 0 ≠ Dbl.fin tenth := by
  have hS : ∀ v ∈ Setting_Up_Arrays_samples_rounded envTenth Mem.init noReads,
      v = (Dbl.fin tenth, Dbl.fin tenth) :=
    Setting_Up_Arrays_samples_rounded_steady envTenth (Env_steady_Steady _ _ _ _ _ _ _)
      Mem.init rfl rfl noReads
  have hl := Setting_Up_Arrays_samples_rounded_length envTenth Mem.init noReads
  obtain ⟨sx, sy⟩ := Setting_Up_Arrays_rounded_POS envTenth Mem.init noReads
  have h0x : ∀ (A : Fin 22 → Dbl) (v : Dbl), at22 (Function.update A 0 v) 0 = v :=
    fun A v => Function.update_same _ _ _
  have hq : Dbl.round (Dbl.fin ((6871947673691595 : ℕ) * Dbl.pow2 (-36)) / Dbl.fin 1000000) =
      Dbl.fin (3602879701944419 / 36028797018963968) := by decide!
  have hx : at22 (Setting_Up_Arrays_rounded envTenth Mem.init noReads).val.POS_X 0 =
      Dbl.fin (3602879701944419 / 36028797018963968) := by
    rw [sx, h0x]
    generalize Setting_Up_Arrays_samples_rounded envTenth Mem.init noReads = S at hS hl
    rw [sumFrom_const _ (S.map Prod.fst) (Dbl.fin tenth) (fun x hx => by
      obtain ⟨v, hv, rfl⟩ := List.mem_map.1 hx
      rw [hS v hv]), List.length_map, hl, sumFrom_tenth_million]
    exact hq
  have hy : at22 (Setting_Up_Arrays_rounded envTenth Mem.init noReads).val.POS_Y 0 =
      Dbl.fin (3602879701944419 / 36028797018963968) := by
    rw [sy, h0x]
    generalize Setting_Up_Arrays_samples_rounded envTenth Mem.init noReads = S at hS hl
    rw [sumFrom_const _ (S.map Prod.snd) (Dbl.fin tenth) (fun x hx => by
      obtain ⟨v, hv, rfl⟩ := List.mem_map.1 hx
      rw [hS v hv]), List.length_map, hl, sumFrom_tenth_million]
    exact hq
  refine ⟨hS, rfl, hx, hy, ?_⟩
  rw [hx]
  decide!

/-- C15, amended.  One `Setting_Up_Arrays` call leaves in slot `i + 1` of
`POS_X` and of `POS_Y` what slot `i` held (`i` in 0..20), and in slot 0 the
sum of the 1,000,000 values read in the call through `Position_X_alt`, resp.
`Position_Y_alt`, accumulated from 0 in reading order with every addition
rounded to `double`, divided by 1,000,000 and rounded; if all these reads
return the number `cx`, resp. `cy`, and every multiple `k * cx`, resp.
`k * cy`, with `k <= 1000000` is a `double`, the new slot 0 is `cx`, resp.
`cy`. -/
theorem C15_history_update (e : Env) (m : Mem) (r : Sensor → Nat) (cx cy : ℚ) :
    (∀ i, i < 21 →
      at22 (Setting_Up_Arrays_rounded e m r).val.POS_X (i + 1) = at22 m.POS_X i ∧
      at22 (Setting_Up_Arrays_rounded e m r).val.POS_Y (i + 1) = at22 m.POS_Y i) ∧
    (Setting_Up_Arrays_samples_rounded e m r).length = 1000000 ∧
    at22 (Setting_Up_Arrays_rounded e m r).val.POS_X 0 =
      Dbl.round (Dbl.sumFrom (Dbl.fin 0)
        ((Setting_Up_Arrays_samples_rounded e m r).map Prod.fst) / Dbl.fin 1000000) ∧
    at22 (Setting_Up_Arrays_rounded e m r).val.POS_Y 0 =
      Dbl.round (Dbl.sumFrom (Dbl.fin 0)
        ((Setting_Up_Arrays_samples_rounded e m r).map Prod.snd) / Dbl.fin 1000000) ∧
    ((∀ v ∈ Setting_Up_Arrays_samples_rounded e m r, v.1 = Dbl.fin cx) →
      (∀ k : ℕ, k ≤ 1000000 → Dbl.rne (k * cx) = Dbl.fin (k * cx)) →
      at22 (Setting_Up_Arrays_rounded e m r).val.POS_X 0 = Dbl.fin cx) ∧
    ((∀ v ∈ Setting_Up_Arrays_samples_rounded e m r, v.2 = Dbl.fin cy) →
      (∀ k : ℕ, k ≤ 1000000 → Dbl.rne (k * cy) = Dbl.fin (k * cy)) →
      at22 (Setting_Up_Arrays_rounded e m r).val.POS_Y 0 = Dbl.fin cy) := by
  obtain ⟨sx, sy⟩ := Setting_Up_Arrays_rounded_POS e m r
  have hl := Setting_Up_Arrays_samples_rounded_length e m r
  rw [sx, sy]
  generalize Setting_Up_Arrays_samples_rounded e m r = S at hl ⊢
  have h0x : ∀ (A : Fin 22 → Dbl) (v : Dbl), at22 (Function.update A 0 v) 0 = v :=
    fun A v => Function.update_same _ _ _
  refine ⟨fun i hi => ?_, hl, h0x _ _, h0x _ _, fun h hc => ?_, fun h hc => ?_⟩
  · obtain ⟨h1, h2⟩ := Setting_Up_Arrays_shift_eq 21 (le_refl _) (m.POS_X, m.POS_Y) (i + 1)
      (by omega)
    have c : 1 ≤ i + 1 ∧ i + 1 ≤ 21 := by omega
    rw [if_pos c] at h1 h2
    have hne : (Fin.ofNat (i + 1) : Fin 22) ≠ 0 :=
      ofNat22_ne (i + 1) 0 (by omega) (by omega) (by omega)
    simp only [at22] at h1 h2 ⊢
    rw [Function.update_noteq hne, Function.update_noteq hne]
    exact ⟨h1, h2⟩
  · rw [h0x]
    refine mean_rounded_exact _ cx (by rw [List.length_map]; exact hl) (fun x hx => ?_) hc
    obtain ⟨v, hv, rfl⟩ := List.mem_map.1 hx
    exact h v hv
  · rw [h0x]
    refine mean_rounded_exact _ cy (by rw [List.length_map]; exact hl) (fun x hx => ?_) hc
    obtain ⟨v, hv, rfl⟩ := List.mem_map.1 hx
    exact h v hv

/-- Witness of C15: with steady readings 300 and 0 of the two position
sensors, the first call from the initial globals puts 300 and 0 in slot 0. -/
theorem C15_history_update_witness :
    at22 (Setting_Up_Arrays_rounded envRight Mem.init noReads).val.POS_X 0 = Dbl.fin 300 ∧
      at22 (Setting_Up_Arrays_rounded envRight Mem.init noReads).val.POS_Y 0 = Dbl.fin 0 :=
  ⟨(C15_history_update envRight Mem.init noReads 300 0).2.2.2.2.1
      (fun v hv => congrArg Prod.fst
        (Setting_Up_Arrays_samples_rounded_steady envRight (Env_steady_Steady _ _ _ _ _ _ _)
          Mem.init rfl rfl noReads v hv))
      (fun k hk => by
        have h := rne_natCast (k * 300) (by
          have : (1000000 : ℕ) * 300 < 2 ^ 53 := by norm_num
          have : k * 300 ≤ 1000000 * 300 := Nat.mul_le_mul_right _ hk
          omega)
        push_cast at h
        exact h),
   (C15_history_update envRight Mem.init noReads 300 0).2.2.2.2.2
      (fun v hv => congrArg Prod.snd
        (Setting_Up_Arrays_samples_rounded_steady envRight (Env_steady_Steady _ _ _ _ _ _ _)
          Mem.init rfl rfl noReads v hv))
      (fun k _ => by
        rw [mul_zero]
        rfl)⟩

/-- C16.  From the initial all-zero buffers, after the `Lander_Control` ticks
`es` (any worlds, any read counters) the tick followed by `i` later ticks,
`i < 22`, has its averaged samples in slot `i` of `POS_X` and of `POS_Y`, and
every slot `i` with `es.length <= i <= 21` still holds 0. -/
theorem C16_populated_slots (es : List Env) (r : Sensor → Nat) :
    (∀ (es1 : List Env) (e : Env) (es2 : List Env), es = es1 ++ e :: es2 → es2.length < 22 →
      at22 (run (controlTicks es) Mem.init r).val.POS_X es2.length = (insertedSample es1 e r).1 ∧
      at22 (run (controlTicks es) Mem.init r).val.POS_Y es2.length = (insertedSample es1 e r).2) ∧
    (∀ i, es.length ≤ i → i ≤ 21 →
      at22 (run (controlTicks es) Mem.init r).val.POS_X i = Dbl.fin 0 ∧
      at22 (run (controlTicks es) Mem.init r).val.POS_Y i = Dbl.fin 0) := by
  refine ⟨fun es1 e es2 h hl => ?_, fun i h hi => run_slot_zero es r i h hi⟩
  rw [h]
  exact run_slot_inserted es1 e es2 r hl

/-- Witness of C16: after two ticks slot 1 holds the sample of the first tick
and slot 2 is still 0. -/
theorem C16_populated_slots_witness :
    (at22 (run (controlTicks [envCalm, envRight]) Mem.init noReads).val.POS_X [envRight].length
        = (insertedSample [] envCalm noReads).1 ∧
      at22 (run (controlTicks [envCalm, envRight]) Mem.init noReads).val.POS_Y [envRight].length
        = (insertedSample [] envCalm noReads).2) ∧
    (at22 (run (controlTicks [envCalm, envRight]) Mem.init noReads).val.POS_X 2 = Dbl.fin 0 ∧
      at22 (run (controlTicks [envCalm, envRight]) Mem.init noReads).val.POS_Y 2 = Dbl.fin 0) :=
  ⟨(C16_populated_slots [envCalm, envRight] noReads).1 [] envCalm [envRight] rfl (by decide),
   (C16_populated_slots [envCalm, envRight] noReads).2 2 (by decide) (by decide)⟩

/-- C17.  For all globals, all thruster health flags, all sensor streams and
all read counters, one call of `Lander_Control` issues at most one rotation
command. -/
theorem C17_one_rotation_per_guidance_call (e : Env) (m : Mem) (r : Sensor → Nat) :
    rotations (Lander_Control e m r).cmds ≤ 1 :=
  Lander_Control_rots e m r

/-- C18 as stated does not hold.  With the main thruster healthy, the craft
drifting right at 10 and tilted by 90 degrees, every sonar bin at 50, one
call of `Safety_Override` issues two rotation commands: `Rotate(140)` from
the horizontal check and `Rotate(-90)` from the vertical check. -/
theorem C18_two_rotations_in_one_override_call :
    (Safety_Override envDrift Mem.init noReads).cmds =
      [Cmd.thrust Thruster.Main (Dbl.fin 1), Cmd.rotate (Dbl.fin 140),
       Cmd.thrust Thruster.Main (Dbl.fin 1), Cmd.rotate (Dbl.fin (-90))] ∧
    rotations (Safety_Override envDrift Mem.init noReads).cmds = 2 := by
  constructor <;> decide!

/-- C18, amended.  For all globals, all thruster health flags, all sonar
scans and all sensor streams, one call of `Safety_Override` issues at most
two rotation commands. -/
theorem C18_two_rotations_per_override_call (e : Env) (m : Mem) (r : Sensor → Nat) :
    rotations (Safety_Override e m r).cmds ≤ 2 :=
  Safety_Override_rots e m r

/-- C19 as stated does not hold.  With only the right thruster healthy and
the craft 20 units beside and 10 units above the platform, inside the box of
the variant R, tilted by 90 degrees, `Safety_Override` issues
`Right_Thruster(0)` and `Rotate(-90)`. -/
theorem C19_override_rotates_in_landing_box :
    inBox envLanding Mem.init 50 200 = true ∧
    (Safety_Override envLanding Mem.init noReads).cmds =
      [Cmd.thrust Thruster.Right (Dbl.fin 0), Cmd.rotate (Dbl.fin (-90))] := by
  constructor <;> decide!

/-- C19, amended.  With steady readings: inside its proximity box
(`|PLAT_X - PX| < 100` and `PLAT_Y - PY < 200`) `Safety_Override_M` issues no
command; inside theirs (`|PLAT_X - PX| < 50` and `|PLAT_Y - PY| < 200`)
`Safety_Override_R` and `Safety_Override_L` issue no command, except that in
the landing box (`|PLAT_X - PX| < 40` for R, `< 50` for L, and
`|PLAT_Y - PY| < 30`) with the angle strictly between 0.5 and 359.5 they
command their thruster with power 0 and issue the rotation to upright. -/
theorem C19_override_near_platform (e : Env) (m : Mem) (he : e.Steady) (r : Sensor → Nat) :
    (inBoxM e m = true → (Safety_Override_M e m r).cmds = []) ∧
    (inBox e m 50 200 = true →
      (Safety_Override_R e m r).cmds =
        if inBox e m 40 30 = true ∧ tilted (steadyAng e) = true then
          [Cmd.thrust Thruster.Right (Dbl.fin 0), Cmd.rotate (toUpright (steadyAng e))]
        else []) ∧
    (inBox e m 50 200 = true →
      (Safety_Override_L e m r).cmds =
        if inBox e m 50 30 = true ∧ tilted (steadyAng e) = true then
          [Cmd.thrust Thruster.Left (Dbl.fin 0), Cmd.rotate (toUpright (steadyAng e))]
        else []) :=
  ⟨fun h => Safety_Override_M_box e he m h r, fun h => Safety_Override_R_box e he m h r,
    fun h => Safety_Override_L_box e he m h r⟩

/-- Witness of C19: the craft 20 units beside and 10 units above the platform
is inside the box of M and inside the box of R. -/
theorem C19_override_near_platform_witness :
    (Safety_Override_M envLanding Mem.init noReads).cmds = [] ∧
    (Safety_Override_R envLanding Mem.init noReads).cmds =
      if inBox envLanding Mem.init 40 30 = true ∧ tilted (steadyAng envLanding) = true then
        [Cmd.thrust Thruster.Right (Dbl.fin 0), Cmd.rotate (toUpright (steadyAng envLanding))]
      else [] :=
  ⟨(C19_override_near_platform envLanding Mem.init (Env_steady_Steady _ _ _ _ _ _ _) noReads).1
      (by decide!),
   (C19_override_near_platform envLanding Mem.init (Env_steady_Steady _ _ _ _ _ _ _) noReads).2.1
      (by decide!)⟩

/-- C20 as stated does not hold.  With the craft over the platform sinking at
30, below the bound `VYlim = -20`, and the angle at 180 degrees,
`Lander_Control_M` commands `Main_Thruster(1)` and then the rotation. -/
theorem C20_full_thrust_while_rotating :
    Dbl.lt (steadyVY (envDescent 1 1 1) Mem.init)
      (Lander_Control_M_VYlim (envDescent 1 1 1) Mem.init) = true ∧
    outsideUpright (steadyAng (envDescent 1 1 1)) = true ∧
    (Lander_Control_M (envDescent 1 1 1) Mem.init noReads).cmds =
      [Cmd.thrust Thruster.Main (Dbl.fin 1), Cmd.rotate (Dbl.fin 180)] := by
  refine ⟨?_, ?_, ?_⟩ <;> decide!

/-- C20, amended.  With steady readings and the vertical velocity below
`VYlim`: when the angle is more than 1 degree off the orientation the
variant requires (M: above 1 and below 359; R: below 89 or above 91; L: below
269 or above 271), `Lander_Control_M` commands its thruster with power 1 and
then issues the rotation to upright, and `Lander_Control_R` and
`Lander_Control_L`, outside the landing box (`|PLAT_X - PX| < 40` and
`|PLAT_Y - PY| < 30`), command their thruster with power 1 and then issue the
rotation to 90, resp. 270 degrees; inside the landing box R and L command
power 1, then power 0, and issue no rotation. -/
theorem C20_thrust_then_rotate (e : Env) (m : Mem) (he : e.Steady) (r : Sensor → Nat) :
    (Dbl.lt (steadyVY e m) (Lander_Control_M_VYlim e m) = true →
      outsideUpright (steadyAng e) = true →
      (Lander_Control_M e m r).cmds =
        [Cmd.thrust Thruster.Main (Dbl.fin 1), Cmd.rotate (toUpright (steadyAng e))]) ∧
    (Dbl.lt (steadyVY e m) (Lander_Control_R_VYlim e m) = true →
      inBox e m 40 30 = false → off90 (steadyAng e) = true →
      (Lander_Control_R e m r).cmds =
        [Cmd.thrust Thruster.Right (Dbl.fin 1), Cmd.rotate (to90 (steadyAng e))]) ∧
    (Dbl.lt (steadyVY e m) (Lander_Control_R_VYlim e m) = true →
      inBox e m 40 30 = false → off270 (steadyAng e) = true →
      (Lander_Control_L e m r).cmds =
        [Cmd.thrust Thruster.Left (Dbl.fin 1), Cmd.rotate (to270 (steadyAng e))]) ∧
    (Dbl.lt (steadyVY e m) (Lander_Control_R_VYlim e m) = true → inBox e m 40 30 = true →
      (Lander_Control_R e m r).cmds =
          [Cmd.thrust Thruster.Right (Dbl.fin 1), Cmd.thrust Thruster.Right (Dbl.fin 0)] ∧
        (Lander_Control_L e m r).cmds =
          [Cmd.thrust Thruster.Left (Dbl.fin 1), Cmd.thrust Thruster.Left (Dbl.fin 0)]) := by
  refine ⟨fun hd ha => ?_, fun hd hb ha => ?_, fun hd hb ha => ?_, fun hd hb => ⟨?_, ?_⟩⟩
  · rw [Lander_Control_M_descent e he m hd r, if_pos (offUpright_of_outsideUpright _ ha)]
  · rw [Lander_Control_R_descent e he m hd r, hb, if_pos ha]
    rfl
  · rw [Lander_Control_L_descent e he m hd r, hb, if_pos ha]
    rfl
  · rw [Lander_Control_R_descent e he m hd r, if_pos hb]
  · rw [Lander_Control_L_descent e he m hd r, if_pos hb]

/-- Witness of C20: the craft sinking at 30 over the platform, at 180 degrees,
under the variants M and R. -/
theorem C20_thrust_then_rotate_witness :
    (Lander_Control_M (envDescent 1 1 1) Mem.init noReads).cmds =
        [Cmd.thrust Thruster.Main (Dbl.fin 1),
         Cmd.rotate (toUpright (steadyAng (envDescent 1 1 1)))] ∧
      (Lander_Control_R (envDescent 0 1 0) Mem.init noReads).cmds =
        [Cmd.thrust Thruster.Right (Dbl.fin 1),
         Cmd.rotate (to90 (steadyAng (envDescent 0 1 0)))] :=
  ⟨(C20_thrust_then_rotate (envDescent 1 1 1) Mem.init (Env_steady_Steady _ _ _ _ _ _ _)
      noReads).1 (by decide!) (by decide!),
   (C20_thrust_then_rotate (envDescent 0 1 0) Mem.init (Env_steady_Steady _ _ _ _ _ _ _)
      noReads).2.1 (by decide!) (by decide!) (by decide!)⟩

/-- C22 at the failing input.  In `Lander_Control_L`, with the platform at
x = 500, the distance band of `VXlim` is 10 for a craft at x = 1000 (D = 500)
and 15 for a craft at x = 650 (D = 150), and these are the bounds before the
coupling constraint and, the constraint not holding, the bounds handed to the
control law: the bound for `D > 200` is below the bound for `D` in
(100, 200].  On the same two inputs `Lander_Control_M` has the bounds 15
and 10. -/
theorem C22_left_far_band_below_mid_band :
    (Lander_Control_L_bands (envAt 0 0 1 1000 (-3) (-5) 0) Mem.init noReads).val = Dbl.fin 10 ∧
    (Lander_Control_L_bands (envAt 0 0 1 650 (-3) (-5) 0) Mem.init noReads).val = Dbl.fin 15 ∧
    (Lander_Control_L_limits (envAt 0 0 1 1000 (-3) (-5) 0) Mem.init noReads).val.1 =
      Dbl.fin 10 ∧
    (Lander_Control_L_limits (envAt 0 0 1 650 (-3) (-5) 0) Mem.init noReads).val.1 =
      Dbl.fin 15 ∧
    (Lander_Control_M_bands (envAt 1 0 0 1000 (-3) (-5) 0) Mem.init noReads).val = Dbl.fin 15 ∧
    (Lander_Control_M_bands (envAt 1 0 0 650 (-3) (-5) 0) Mem.init noReads).val = Dbl.fin 10 := by
  refine ⟨?_, ?_, ?_, ?_, ?_, ?_⟩ <;> decide!

/-- C23 at three failing inputs.  (1) In the descent branch of
`Lander_Control_M` the test is `Ang < 369`: at 359.5 degrees, within 1 degree
of upright, it issues the rotation 0.5.  (2) Left of the platform
`Lander_Control_M` rotates to 90 degrees under the test
`Ang < 269 || Ang > 271`: at 90.5 degrees it issues the rotation -0.5.
(3) Left of the platform `Lander_Control_L` rotates to upright under the test
`Ang < 359 || Ang > 1`: at 0.5 degrees it issues the rotation -0.5. -/
theorem C23_rotation_inside_tolerance :
    (Lander_Control_M (envAt 1 1 1 500 1 (-30) (719 / 2)) Mem.init noReads).cmds =
      [Cmd.thrust Thruster.Main (Dbl.fin 1), Cmd.rotate (Dbl.fin (1 / 2))] ∧
    (Lander_Control_M (envAt 1 1 1 400 (-1) (-10) (181 / 2)) Mem.init noReads).cmds =
      [Cmd.thrust Thruster.Main (Dbl.fin 0), Cmd.thrust Thruster.Main (Dbl.fin 1),
       Cmd.rotate (Dbl.fin (-1 / 2))] ∧
    (Lander_Control_L (envAt 0 0 1 400 (-1) (-10) (1 / 2)) Mem.init noReads).cmds =
      [Cmd.thrust Thruster.Left (Dbl.fin 0), Cmd.thrust Thruster.Left (Dbl.fin 1),
       Cmd.rotate (Dbl.fin (-1 / 2))] := by
  refine ⟨?_, ?_, ?_⟩ <;> decide!

/-- C24 as stated does not hold.  With the craft 100 units right of the
platform, moving towards it at 3 (the bound `VXlim` is 5) and sinking at 10
(the bound `VYlim` is -20), `Lander_Control_M` commands `Main_Thruster(0)`
twice and nothing else: no positive power. -/
theorem C24_no_thrust_while_approaching :
    Dbl.ge (steadyVY (envApproach 1 1 1) Mem.init)
      (Lander_Control_M_VYlim (envApproach 1 1 1) Mem.init) = true ∧
    Dbl.gt (steadyPX (envApproach 1 1 1) Mem.init - Dbl.fin (envApproach 1 1 1).PLAT_X)
      (Dbl.fin 30) = true ∧
    Dbl.lt (steadyVX (envApproach 1 1 1) Mem.init) (Dbl.fin 0) = true ∧
    Dbl.lt (Dbl.fabs (steadyVX (envApproach 1 1 1) Mem.init))
      (Lander_Control_M_VXlim (envApproach 1 1 1) Mem.init) = true ∧
    (Lander_Control_M (envApproach 1 1 1) Mem.init noReads).cmds =
      [Cmd.thrust Thruster.Main (Dbl.fin 0), Cmd.thrust Thruster.Main (Dbl.fin 0)] := by
  refine ⟨?_, ?_, ?_, ?_, ?_⟩ <;> decide!

/-- C24, amended.  With steady readings, the vertical velocity not below
`VYlim`, the craft beyond the dead-band (M: more than 30 units on either side
of the platform; R and L: more than 25 units right of it or more than 20
units left of it) and moving towards the platform with horizontal velocity
inside the bound `VXlim`, every guidance variant commands its thruster with
power 0 twice and issues nothing else. -/
theorem C24_coast_while_approaching (e : Env) (m : Mem) (he : e.Steady) (r : Sensor → Nat) :
    (Dbl.lt (steadyVY e m) (Lander_Control_M_VYlim e m) = false →
      (Dbl.gt (steadyPX e m - Dbl.fin e.PLAT_X) (Dbl.fin 30) = true →
        Dbl.gt (steadyVX e m) (-Lander_Control_M_VXlim e m) = true →
        Dbl.lt (steadyVX e m) (Dbl.fin 0) = true →
        (Lander_Control_M e m r).cmds =
          [Cmd.thrust Thruster.Main (Dbl.fin 0), Cmd.thrust Thruster.Main (Dbl.fin 0)]) ∧
      (Dbl.gt (Dbl.fin e.PLAT_X - steadyPX e m) (Dbl.fin 30) = true →
        Dbl.lt (steadyVX e m) (Lander_Control_M_VXlim e m) = true →
        Dbl.gt (steadyVX e m) (Dbl.fin 0) = true →
        (Lander_Control_M e m r).cmds =
          [Cmd.thrust Thruster.Main (Dbl.fin 0), Cmd.thrust Thruster.Main (Dbl.fin 0)])) ∧
    (Dbl.lt (steadyVY e m) (Lander_Control_R_VYlim e m) = false →
      (Dbl.gt (steadyPX e m - Dbl.fin e.PLAT_X) (Dbl.fin 25) = true →
        Dbl.gt (steadyVX e m) (-Lander_Control_R_VXlim e m) = true →
        Dbl.lt (steadyVX e m) (Dbl.fin 0) = true →
        (Lander_Control_R e m r).cmds =
          [Cmd.thrust Thruster.Right (Dbl.fin 0), Cmd.thrust Thruster.Right (Dbl.fin 0)]) ∧
      (Dbl.gt (Dbl.fin e.PLAT_X - steadyPX e m) (Dbl.fin 20) = true →
        Dbl.lt (steadyVX e m) (Lander_Control_R_VXlim e m) = true →
        Dbl.gt (steadyVX e m) (Dbl.fin 0) = true →
        (Lander_Control_R e m r).cmds =
          [Cmd.thrust Thruster.Right (Dbl.fin 0), Cmd.thrust Thruster.Right (Dbl.fin 0)]) ∧
      (Dbl.gt (steadyPX e m - Dbl.fin e.PLAT_X) (Dbl.fin 25) = true →
        Dbl.gt (steadyVX e m) (-Lander_Control_L_VXlim e m) = true →
        Dbl.lt (steadyVX e m) (Dbl.fin 0) = true →
        (Lander_Control_L e m r).cmds =
          [Cmd.thrust Thruster.Left (Dbl.fin 0), Cmd.thrust Thruster.Left (Dbl.fin 0)]) ∧
      (Dbl.gt (Dbl.fin e.PLAT_X - steadyPX e m) (Dbl.fin 20) = true →
        Dbl.lt (steadyVX e m) (Lander_Control_L_VXlim e m) = true →
        Dbl.gt (steadyVX e m) (Dbl.fin 0) = true →
        (Lander_Control_L e m r).cmds =
          [Cmd.thrust Thruster.Left (Dbl.fin 0), Cmd.thrust Thruster.Left (Dbl.fin 0)])) :=
  ⟨fun hd => ⟨fun h1 h2 h3 => Lander_Control_M_coast_right e he m hd h1 h2 h3 r,
      fun h1 h2 h3 => Lander_Control_M_coast_left e he m hd h1 h2 h3 r⟩,
    fun hd => ⟨fun h1 h2 h3 => Lander_Control_R_coast_right e he m hd h1 h2 h3 r,
      fun h1 h2 h3 => Lander_Control_R_coast_left e he m hd h1 h2 h3 r,
      fun h1 h2 h3 => Lander_Control_L_coast_right e he m hd h1 h2 h3 r,
      fun h1 h2 h3 => Lander_Control_L_coast_left e he m hd h1 h2 h3 r⟩⟩

/-- Witness of C24: the craft 100 units right of the platform, moving towards
it at 3, under the variants M and R. -/
theorem C24_coast_while_approaching_witness :
    (Lander_Control_M (envApproach 1 1 1) Mem.init noReads).cmds =
        [Cmd.thrust Thruster.Main (Dbl.fin 0), Cmd.thrust Thruster.Main (Dbl.fin 0)] ∧
      (Lander_Control_R (envApproach 0 1 0) Mem.init noReads).cmds =
        [Cmd.thrust Thruster.Right (Dbl.fin 0), Cmd.thrust Thruster.Right (Dbl.fin 0)] :=
  ⟨((C24_coast_while_approaching (envApproach 1 1 1) Mem.init (Env_steady_Steady _ _ _ _ _ _ _)
      noReads).1 (by decide!)).1 (by decide!) (by decide!) (by decide!),
   ((C24_coast_while_approaching (envApproach 0 1 0) Mem.init (Env_steady_Steady _ _ _ _ _ _ _)
      noReads).2 (by decide!)).1 (by decide!) (by decide!) (by decide!)⟩

/-- C25 at the failing input.  The craft is outside the proximity box of
`Safety_Override_M`, moving left at 10, with the valid reading 10 in the sonar
bins 22..31 and no valid reading elsewhere; 10 is below the speed-scaled
threshold 100 and below `min(DistLimit, |PLAT_X - PX|) = 100`.
`Safety_Override_M`, and with it `Safety_Override` when the main thruster
works, issues no command: its scan of the bins 22..31 stands under
`else if (Robust_VX() > 0 && ...)` after `if (Robust_VX() > 0)` and is never
run.  On the same readings `Safety_Override_R` and `Safety_Override_L` do
issue commands. -/
theorem C25_main_override_ignores_left_sector :
    inBoxM (envWall 1 0 0) Mem.init = false ∧
    Dbl.lt (steadyVX (envWall 1 0 0) Mem.init) (Dbl.fin 0) = true ∧
    (sonar_scan (envWall 1 0 0) 22 10 (Dbl.fin 1000000, 0)).1 = Dbl.fin 10 ∧
    (sonar_scan (envWall 1 0 0) 5 9 (Dbl.fin 1000000, 0)).1 = Dbl.fin 1000000 ∧
    (Safety_Override_M (envWall 1 0 0) Mem.init noReads).cmds = [] ∧
    (Safety_Override (envWall 1 0 0) Mem.init noReads).cmds = [] ∧
    (Safety_Override_R (envWall 0 1 0) Mem.init noReads).cmds ≠ [] ∧
    (Safety_Override_L (envWall 0 0 1) Mem.init noReads).cmds ≠ [] := by
  refine ⟨?_, ?_, ?_, ?_, ?_, ?_, ?_, ?_⟩ <;> decide!

/-- C26.  With steady readings, the vertical velocity not below `VYlim` and
`|PX - PLAT_X| < 30`, `Lander_Control_M` issues `Main_Thruster(0)` and nothing
else, so no rotation command.  This is so for the lander at (512, 200) over
the platform at (512, 1000) with horizontal velocity 0, any vertical velocity
from -20 upwards (in particular in [-20, 0]) and any angle. -/
theorem C26_main_dead_band (e : Env) (m : Mem) (he : e.Steady) (r : Sensor → Nat)
    (hd : Dbl.lt (steadyVY e m) (Lander_Control_M_VYlim e m) = false)
    (hb : Dbl.lt (Dbl.fabs (steadyPX e m - Dbl.fin e.PLAT_X)) (Dbl.fin 30) = true) :
    (Lander_Control_M e m r).cmds = [Cmd.thrust Thruster.Main (Dbl.fin 0)] ∧
    rotations (Lander_Control_M e m r).cmds = 0 ∧
    ∀ vy a : ℚ, -20 ≤ vy →
      (Lander_Control_M (envPad vy a) Mem.init r).cmds = [Cmd.thrust Thruster.Main (Dbl.fin 0)] := by
  have h := Lander_Control_M_dead_band e he m hd hb r
  refine ⟨h, ?_, fun vy a hvy => envPad_dead_band vy a hvy r⟩
  rw [h]
  rfl

/-- Witness of C26: the lander at (512, 200) over the platform at (512, 1000),
at rest horizontally and sinking at 10. -/
theorem C26_main_dead_band_witness :
    (Lander_Control_M (envPad (-10) 0) Mem.init noReads).cmds =
      [Cmd.thrust Thruster.Main (Dbl.fin 0)] :=
  (C26_main_dead_band (envPad (-10) 0) Mem.init (Env_steady_Steady _ _ _ _ _ _ _) noReads
    (by decide!) (by decide!)).1

/-- C28.  When `MT_OK`, `RT_OK` and `LT_OK` are all 0, `Lander_Control` is
exactly its prologue (monitor, selection, history update, report flags): the
health flags it leaves are those of `Faulty_Checker`, the pointers those of
`Sensor_Adjustment`, the buffers those of `Setting_Up_Arrays`, and it issues
no command; `Safety_Override` calls no sensor, issues no command and leaves
the globals as they were. -/
theorem C28_all_thrusters_failed (e : Env) (m : Mem) (r : Sensor → Nat) (h1 : e.MT_OK = 0)
    (h2 : e.RT_OK = 0) (h3 : e.LT_OK = 0) :
    Lander_Control e m = Lander_Control_prologue e m ∧
    (∀ q, (Lander_Control e m r).val.ok q = (Faulty_Checker e m r).val.ok q) ∧
    (∀ q, (Lander_Control e m r).val.acc q =
      (Sensor_Adjustment (Faulty_Checker e m r).val).acc q) ∧
    (Lander_Control e m r).val.POS_X =
      (Setting_Up_Arrays e (Sensor_Adjustment (Faulty_Checker e m r).val)
        (Faulty_Checker e m r).reads).val.POS_X ∧
    (Lander_Control e m r).val.POS_Y =
      (Setting_Up_Arrays e (Sensor_Adjustment (Faulty_Checker e m r).val)
        (Faulty_Checker e m r).reads).val.POS_Y ∧
    (Lander_Control e m r).cmds = [] ∧
    Safety_Override e m r = ⟨(), r, []⟩ ∧
    step ⟨Entry.Safety_Override, e⟩ m r = ⟨m, r, []⟩ := by
  have hS := Safety_Override_all_failed e m h1 h2 h3
  refine ⟨Lander_Control_all_failed e m h1 h2 h3, fun q => Lander_Control_ok e m r q,
    fun q => Lander_Control_acc e m r q, (Lander_Control_POS e m r).1,
    (Lander_Control_POS e m r).2, ?_, ?_, ?_⟩
  · rw [Lander_Control_all_failed e m h1 h2 h3]
    exact Lander_Control_prologue_silent e m r
  · rw [hS]
    rfl
  · have hstep : step ⟨Entry.Safety_Override, e⟩ m = (Safety_Override e m >>= fun _ => pure m) :=
      rfl
    rw [hstep, hS, Act_pure_bind]
    rfl

/-- Witness of C28: the world `envDead`, where every thruster has failed. -/
theorem C28_all_thrusters_failed_witness :
    (Lander_Control envDead Mem.init noReads).cmds = [] ∧
      Safety_Override envDead Mem.init noReads = ⟨(), noReads, []⟩ :=
  ⟨(C28_all_thrusters_failed envDead Mem.init noReads rfl rfl rfl).2.2.2.2.2.1,
   (C28_all_thrusters_failed envDead Mem.init noReads rfl rfl rfl).2.2.2.2.2.2.1⟩

end Lander
